import Mathlib

/-! BetahubUxRec: the recording manager and the page recorder

A shallow embedding of `src/background.js` (class `RecordingManager`) and of
the element fingerprinter and event handlers of `src/content.js` (class
`D365Recorder`).

* JSON payloads (messages, candidate steps, settings) are values of `JsVal`.
* The manager's `sessions` map and the durable store are finite maps
  (`AList`); the `activeRecordings` set is a `Finset`. A map is read through
  `lookup` only: the order of its entries carries no meaning, and assigning to
  a field of a session held in the map is written as `insert` of the updated
  session under the same key.
* Every handler is a pure function of an `Env` (the clock, the random
  suffix, the outcome of the `chrome.*` calls it makes) and the `State`
  before the call. A handler named after its method is the method run from
  its call to its return with no other handler in between. The two methods
  that test the state before an `await` and change the maps after it,
  `saveStep` and `getSessionData`, are also given in parts (`saveStepBegin`,
  `saveStepResume`, `getSessionDataAfterRead`), so that a handler which
  overtakes them at the `await` can be run in between.
* The page is a tree of `DomNode`s; an element is named by its position in
  the tree (`ElemRef`), and the DOM calls the recorder makes (`closest`,
  `querySelector`, `previousElementSibling`, `textContent`) are functions of
  the tree. An element is an HTML element unless its `svg` property is set;
  the fingerprinter calls that throw on SVG elements are `getElementLabelCall`
  and `getElementSelectorCall`.
-/

namespace BetahubUxRec

/-! ## JSON values -/

/-- JSON-serialisable JavaScript values. `isoTime ms` stands for the string
`new Date(ms).toISOString()`; it is kept symbolic, so that
`new Date(s).getTime()` is the projection back to `ms`. -/
inductive JsVal where
  | undefined
  | null
  | bool (b : Bool)
  | num (n : Int)
  | str (s : String)
  | isoTime (ms : Nat)
  | arr (items : List JsVal)
  | obj (fields : List (String × JsVal))

/-- A JavaScript object: its own enumerable properties, in insertion order. -/
abbrev JsObj := List (String × JsVal)

namespace JsVal

mutual
/-- Structural equality test on JSON values. -/
def decEq : (a b : JsVal) → Decidable (a = b)
  | undefined, undefined => isTrue rfl
  | null, null => isTrue rfl
  | bool a, bool b =>
    if h : a = b then isTrue (by rw [h]) else isFalse (by intro e; cases e; exact h rfl)
  | num a, num b =>
    if h : a = b then isTrue (by rw [h]) else isFalse (by intro e; cases e; exact h rfl)
  | str a, str b =>
    if h : a = b then isTrue (by rw [h]) else isFalse (by intro e; cases e; exact h rfl)
  | isoTime a, isoTime b =>
    if h : a = b then isTrue (by rw [h]) else isFalse (by intro e; cases e; exact h rfl)
  | arr a, arr b =>
    match decEqList a b with
    | isTrue h => isTrue (by rw [h])
    | isFalse h => isFalse (by intro e; cases e; exact h rfl)
  | obj a, obj b =>
    match decEqFields a b with
    | isTrue h => isTrue (by rw [h])
    | isFalse h => isFalse (by intro e; cases e; exact h rfl)
  | undefined, null => isFalse (by intro e; cases e)
  | undefined, bool _ => isFalse (by intro e; cases e)
  | undefined, num _ => isFalse (by intro e; cases e)
  | undefined, str _ => isFalse (by intro e; cases e)
  | undefined, isoTime _ => isFalse (by intro e; cases e)
  | undefined, arr _ => isFalse (by intro e; cases e)
  | undefined, obj _ => isFalse (by intro e; cases e)
  | null, undefined => isFalse (by intro e; cases e)
  | null, bool _ => isFalse (by intro e; cases e)
  | null, num _ => isFalse (by intro e; cases e)
  | null, str _ => isFalse (by intro e; cases e)
  | null, isoTime _ => isFalse (by intro e; cases e)
  | null, arr _ => isFalse (by intro e; cases e)
  | null, obj _ => isFalse (by intro e; cases e)
  | bool _, undefined => isFalse (by intro e; cases e)
  | bool _, null => isFalse (by intro e; cases e)
  | bool _, num _ => isFalse (by intro e; cases e)
  | bool _, str _ => isFalse (by intro e; cases e)
  | bool _, isoTime _ => isFalse (by intro e; cases e)
  | bool _, arr _ => isFalse (by intro e; cases e)
  | bool _, obj _ => isFalse (by intro e; cases e)
  | num _, undefined => isFalse (by intro e; cases e)
  | num _, null => isFalse (by intro e; cases e)
  | num _, bool _ => isFalse (by intro e; cases e)
  | num _, str _ => isFalse (by intro e; cases e)
  | num _, isoTime _ => isFalse (by intro e; cases e)
  | num _, arr _ => isFalse (by intro e; cases e)
  | num _, obj _ => isFalse (by intro e; cases e)
  | str _, undefined => isFalse (by intro e; cases e)
  | str _, null => isFalse (by intro e; cases e)
  | str _, bool _ => isFalse (by intro e; cases e)
  | str _, num _ => isFalse (by intro e; cases e)
  | str _, isoTime _ => isFalse (by intro e; cases e)
  | str _, arr _ => isFalse (by intro e; cases e)
  | str _, obj _ => isFalse (by intro e; cases e)
  | isoTime _, undefined => isFalse (by intro e; cases e)
  | isoTime _, null => isFalse (by intro e; cases e)
  | isoTime _, bool _ => isFalse (by intro e; cases e)
  | isoTime _, num _ => isFalse (by intro e; cases e)
  | isoTime _, str _ => isFalse (by intro e; cases e)
  | isoTime _, arr _ => isFalse (by intro e; cases e)
  | isoTime _, obj _ => isFalse (by intro e; cases e)
  | arr _, undefined => isFalse (by intro e; cases e)
  | arr _, null => isFalse (by intro e; cases e)
  | arr _, bool _ => isFalse (by intro e; cases e)
  | arr _, num _ => isFalse (by intro e; cases e)
  | arr _, str _ => isFalse (by intro e; cases e)
  | arr _, isoTime _ => isFalse (by intro e; cases e)
  | arr _, obj _ => isFalse (by intro e; cases e)
  | obj _, undefined => isFalse (by intro e; cases e)
  | obj _, null => isFalse (by intro e; cases e)
  | obj _, bool _ => isFalse (by intro e; cases e)
  | obj _, num _ => isFalse (by intro e; cases e)
  | obj _, str _ => isFalse (by intro e; cases e)
  | obj _, isoTime _ => isFalse (by intro e; cases e)
  | obj _, arr _ => isFalse (by intro e; cases e)
/-- Structural equality test on arrays of JSON values. -/
def decEqList : (a b : List JsVal) → Decidable (a = b)
  | [], [] => isTrue rfl
  | [], _ :: _ => isFalse (by intro e; cases e)
  | _ :: _, [] => isFalse (by intro e; cases e)
  | x :: xs, y :: ys =>
    match decEq x y, decEqList xs ys with
    | isTrue h1, isTrue h2 => isTrue (by rw [h1, h2])
    | isFalse h1, _ => isFalse (by intro e; cases e; exact h1 rfl)
    | _, isFalse h2 => isFalse (by intro e; cases e; exact h2 rfl)
/-- Structural equality test on property lists. -/
def decEqFields : (a b : List (String × JsVal)) → Decidable (a = b)
  | [], [] => isTrue rfl
  | [], _ :: _ => isFalse (by intro e; cases e)
  | _ :: _, [] => isFalse (by intro e; cases e)
  | (k, x) :: xs, (l, y) :: ys =>
    if hk : k = l then
      match decEq x y, decEqFields xs ys with
      | isTrue h1, isTrue h2 => isTrue (by rw [hk, h1, h2])
      | isFalse h1, _ => isFalse (by intro e; cases e; exact h1 rfl)
      | _, isFalse h2 => isFalse (by intro e; cases e; exact h2 rfl)
    else isFalse (by intro e; cases e; exact hk rfl)
end

instance : DecidableEq JsVal := decEq

/-- JavaScript truthiness (`!!v`). -/
def truthy : JsVal → Bool
  | undefined => false
  | null => false
  | bool b => b
  | num n => decide (n ≠ 0)
  | str s => decide (s ≠ "")
  | isoTime _ => true
  | arr _ => true
  | obj _ => true

/-- The JavaScript `a || b`. -/
def or (a b : JsVal) : JsVal := if a.truthy then a else b

end JsVal

namespace JsObj

/-- Property read `o[k]`: `undefined` when the property is absent. -/
def get (o : JsObj) (k : String) : JsVal := (o.lookup k).getD JsVal.undefined

/-- Property write `o[k] = v`: an existing property keeps its position, a new
one is added at the end. -/
def set : JsObj → String → JsVal → JsObj
  | [], k, v => [(k, v)]
  | (k0, v0) :: rest, k, v => if k0 = k then (k, v) :: rest else (k0, v0) :: set rest k v

/-- Object spread `{ ...base, ...extra }`. -/
def spread (base extra : JsObj) : JsObj :=
  extra.foldl (fun acc kv => set acc kv.1 kv.2) base

end JsObj

/-! ## Data model of `RecordingManager` -/

/-- A tab identifier as the handlers receive it: `sender.tab?.id` is `none`
(`undefined`) when the sender is not a tab. -/
abbrev TabId := Option Nat

/-- The guard `!tabId`: `undefined` and `0` are falsy. -/
def tabIdFalsy : TabId → Bool
  | none => true
  | some n => decide (n = 0)

/-- The `metadata` object of a session. -/
structure Metadata where
  url : JsVal
  title : JsVal
  userAgent : JsVal
  sessionName : JsVal
  deriving DecidableEq

/-- The session object built by `startRecording`. `startTime`/`endTime` are
ISO strings in the source and are represented by their instant in
milliseconds; `endTime` and `duration` are absent until `stopRecording`
assigns them. -/
structure Session where
  id : JsVal
  startTime : Nat
  steps : List JsObj
  metadata : Metadata
  settings : JsObj
  endTime : Option Nat := none
  duration : Option Int := none
  deriving DecidableEq

/-- The durable store `chrome.storage.local`, restricted to the keys the
manager reads or writes: `session_<tabId>` and `recording_<tabId>`. -/
structure Store where
  sessions : AList (fun _ : TabId => Session)
  recording : AList (fun _ : TabId => Bool)
  deriving DecidableEq

/-- The manager's state: the `sessions` map, the `activeRecordings` set and the
durable store. -/
structure State where
  sessions : AList (fun _ : TabId => Session)
  active : Finset TabId
  store : Store
  deriving DecidableEq

/-- What `chrome.tabs.get` reports about a tab. -/
structure TabInfo where
  url : Option String
  title : Option String
  deriving DecidableEq

/-- The inputs a handler takes from its environment. -/
structure Env where
  /-- The clock, in milliseconds (`Date.now()`, `new Date()`). -/
  now : Nat
  /-- The clock when `saveStep` reaches its automatic stop, after its awaits. -/
  later : Nat
  /-- The suffix `Math.random().toString(36).substr(2, 5)`. -/
  rnd : String
  /-- Whether the `chrome.storage.local` calls of this handler resolve. -/
  storeOk : Bool
  /-- The result of `getTabInfo` (`null` when `chrome.tabs.get` rejects). -/
  tab : Option TabInfo
  /-- The value of `navigator.userAgent`. -/
  userAgent : String
  /-- The outcome of `chrome.tabs.create`: the new tab's id, or the message of
  `chrome.runtime.lastError`. -/
  viewerTab : Except String Nat

/-- A message received by `handleMessage`. A missing property is `undefined`;
`step` is absent or an object; `settings` lists the properties of
`message.settings` (none when it is missing). -/
structure Message where
  action : String
  sessionId : JsVal := JsVal.undefined
  url : JsVal := JsVal.undefined
  title : JsVal := JsVal.undefined
  userAgent : JsVal := JsVal.undefined
  sessionName : JsVal := JsVal.undefined
  step : Option JsObj := none
  settings : JsObj := []

/-- The object returned by `getSessionData`. -/
structure SessionData where
  session : Session
  isRecording : Bool
  stepCount : Nat
  deriving DecidableEq

/-- The argument of `sendResponse`. -/
inductive Response where
  | ok
  | okSession (session : Session)
  | okData (data : Option SessionData)
  | okTab (message : String) (tabId : Nat)
  | fail (message : String)
  deriving DecidableEq

/-- The `success` property of a response. -/
def Response.success : Response → Bool
  | Response.fail _ => false
  | _ => true

/-! ## The handlers of `RecordingManager` -/

namespace RecordingManager

/-- The constant `maxAge` of `cleanupOldData`: 24 hours in milliseconds. -/
def maxAge : Int := 24 * 60 * 60 * 1000

/-- The step cap tested by `saveStep`. -/
def maxSteps : Nat := 100

/-- The `settings` literal of `startRecording`. -/
def defaultSettings : JsObj :=
  [("captureScreenshots", JsVal.bool true),
   ("captureClicks", JsVal.bool true),
   ("captureKeystrokes", JsVal.bool true),
   ("captureNavigation", JsVal.bool true),
   ("autoAnnotate", JsVal.bool false)]

/-- An optional string property as a JSON value. -/
def optStr : Option String → JsVal
  | none => JsVal.undefined
  | some s => JsVal.str s

/-- An optional string inside a template literal. -/
def interpolate : Option String → String
  | none => "undefined"
  | some s => s

/-- The method `storeSession(tabId, session)`: one `chrome.storage.local.set`
of `session_<tabId>` and `recording_<tabId>`; a rejected write is caught and
logged. -/
def storeSession (env : Env) (tabId : TabId) (session : Session) (st : State) : State :=
  if env.storeOk then
    { st with store :=
        { sessions := st.store.sessions.insert tabId session
          recording := st.store.recording.insert tabId (decide (tabId ∈ st.active)) } }
  else st

/-- The method `loadStoredSession(tabId)`: the stored `session_<tabId>`, or
`null` when it is missing or the read is rejected. -/
def loadStoredSession (env : Env) (tabId : TabId) (st : State) : Option Session :=
  if env.storeOk then st.store.sessions.lookup tabId else none

/-- The method `clearStoredSession(tabId)`: removes `session_<tabId>` and
`recording_<tabId>`; a rejected call is caught and logged. -/
def clearStoredSession (env : Env) (tabId : TabId) (st : State) : State :=
  if env.storeOk then
    { st with store :=
        { sessions := st.store.sessions.erase tabId
          recording := st.store.recording.erase tabId } }
  else st

/-- The session literal built by `startRecording`. -/
def newSession (env : Env) (message : Message) : Session :=
  { id := message.sessionId.or (JsVal.str (toString env.now))
    startTime := env.now
    steps := []
    metadata :=
      { url := (message.url.or
          (match env.tab with
            | some tab => optStr tab.url
            | none => JsVal.undefined)).or (JsVal.str "")
        title := (message.title.or
          (match env.tab with
            | some tab => optStr tab.title
            | none => JsVal.undefined)).or (JsVal.str "")
        userAgent := message.userAgent.or (JsVal.str env.userAgent)
        sessionName := message.sessionName.or (JsVal.str "Untitled Workflow") }
    settings := defaultSettings }

/-- The method `startRecording(message, tabId)`. -/
def startRecording (env : Env) (message : Message) (tabId : TabId) (st : State) : State :=
  if tabIdFalsy tabId then st
  else
    let session := newSession env message
    storeSession env tabId session
      { st with sessions := st.sessions.insert tabId session, active := insert tabId st.active }

/-- The method `stopRecording(message, tabId)`; the message is not read. -/
def stopRecording (env : Env) (tabId : TabId) (st : State) : State :=
  if tabIdFalsy tabId then st
  else
    match st.sessions.lookup tabId with
    | some session =>
      let stopped : Session :=
        { session with
          endTime := some env.now
          duration := some ((env.now : Int) - (session.startTime : Int)) }
      storeSession env tabId stopped
        { st with sessions := st.sessions.insert tabId stopped, active := st.active.erase tabId }
    | none => st

/-- The object `enhancedStep` of `saveStep`: the candidate's properties with
`id`, `timestamp`, `sessionId` and `stepNumber` written over them. -/
def enhanceStep (env : Env) (session : Session) (step : JsObj) : JsObj :=
  JsObj.set
    (JsObj.set
      (JsObj.set
        (JsObj.set step "id" (JsVal.str ("step_" ++ toString env.now ++ "_" ++ env.rnd)))
        "timestamp" (JsVal.isoTime env.now))
      "sessionId" session.id)
    "stepNumber" (JsVal.num ((session.steps.length : Int) + 1))

/-- The method `saveStep(step, tabId)`, run from its call to its return with
no other handler in between; `step` is `none` for a missing step. The call is
suspended at `await this.storeSession(tabId, session)`, after the push and
before the cap is tested: `saveStepBegin` and `saveStepResume` are the parts
before and after that point, for calls that overlap. -/
def saveStep (env : Env) (step : Option JsObj) (tabId : TabId) (st : State) : State :=
  if tabIdFalsy tabId then st
  else
    match step with
    | none => st
    | some step =>
      match st.sessions.lookup tabId with
      | some session =>
        if tabId ∈ st.active then
          let pushed : Session :=
            { session with steps := session.steps ++ [enhanceStep env session step] }
          let st1 := storeSession env tabId pushed
            { st with sessions := st.sessions.insert tabId pushed }
          if pushed.steps.length ≥ maxSteps then
            stopRecording { env with now := env.later } tabId st1
          else st1
        else st
      | none => st

/-- The part of `saveStep(step, tabId)` that runs before the call is suspended
at `await this.storeSession(tabId, session)` (background.js:167-182): the two
guards, the push of the enhanced step and the issue of the store write. The
second component tells whether the call is suspended there (`true`) or has
returned at a guard (`false`). -/
def saveStepBegin (env : Env) (step : Option JsObj) (tabId : TabId) (st : State) :
    State × Bool :=
  if tabIdFalsy tabId then (st, false)
  else
    match step with
    | none => (st, false)
    | some step =>
      match st.sessions.lookup tabId with
      | some session =>
        if tabId ∈ st.active then
          let pushed : Session :=
            { session with steps := session.steps ++ [enhanceStep env session step] }
          (storeSession env tabId pushed
            { st with sessions := st.sessions.insert tabId pushed }, true)
        else (st, false)
      | none => (st, false)

/-- The part of `saveStep` that runs when the suspended call resumes
(background.js:184-210): the test `session.steps.length >= 100` on the session
object the call holds, and the stop. `held` is the number of steps that
object has at that moment: every `saveStep` on the tab pushes onto the same
object for as long as the map entry of the tab is not replaced. -/
def saveStepResume (env : Env) (tabId : TabId) (held : Nat) (st : State) : State :=
  if held ≥ maxSteps then stopRecording { env with now := env.later } tabId st else st

/-- The method `updateSessionSettings(settings, tabId)`. -/
def updateSessionSettings (env : Env) (settings : JsObj) (tabId : TabId) (st : State) : State :=
  match st.sessions.lookup tabId with
  | some session =>
    let updated : Session := { session with settings := JsObj.spread session.settings settings }
    storeSession env tabId updated { st with sessions := st.sessions.insert tabId updated }
  | none => st

/-- The method `getSessionData(tabId)`, run from its call to its return with
no other handler in between: the state afterwards and the value returned
(`none` for `null`). With no session in memory the call is suspended at
`await this.loadStoredSession(tabId)`; `getSessionDataAfterRead` is the part
after that point, for a call that another handler overlaps. -/
def getSessionData (env : Env) (tabId : TabId) (st : State) : State × Option SessionData :=
  match st.sessions.lookup tabId with
  | some session =>
    (st, some
      { session := session
        isRecording := decide (tabId ∈ st.active)
        stepCount := session.steps.length })
  | none =>
    match loadStoredSession env tabId st with
    | some storedSession =>
      ({ st with sessions := st.sessions.insert tabId storedSession }, some
        { session := storedSession
          isRecording := false
          stepCount := storedSession.steps.length })
    | none => (st, none)

/-- The part of `getSessionData(tabId)` that runs when the call resumes with
`storedSession`, the answer of `loadStoredSession` (background.js:234-243);
`st` is the state at that moment. -/
def getSessionDataAfterRead (tabId : TabId) (storedSession : Option Session) (st : State) :
    State × Option SessionData :=
  match storedSession with
  | some storedSession =>
    ({ st with sessions := st.sessions.insert tabId storedSession }, some
      { session := storedSession
        isRecording := false
        stepCount := storedSession.steps.length })
  | none => (st, none)

/-- The object `navigationStep` of `handleTabUpdate`. -/
def navigationStep (tab : TabInfo) : JsObj :=
  [("type", JsVal.str "navigation"),
   ("description", JsVal.str ("Navigated to " ++ interpolate tab.title)),
   ("url", optStr tab.url),
   ("elementInfo",
      JsVal.obj [("tagName", JsVal.str "NAVIGATION"), ("action", JsVal.str "page_load")])]

/-- The method `handleTabUpdate(tabId, changeInfo, tab)`; `status` is
`changeInfo.status`. -/
def handleTabUpdate (env : Env) (tabId : TabId) (status : Option String) (tab : TabInfo)
    (st : State) : State :=
  if status = some "complete" ∧ tabId ∈ st.active then
    match st.sessions.lookup tabId with
    | some session =>
      if (JsObj.get session.settings "captureNavigation").truthy then
        saveStep env (some (navigationStep tab)) tabId st
      else st
    | none => st
  else st

/-- The method `handleTabRemoved(tabId)`. -/
def handleTabRemoved (env : Env) (tabId : TabId) (st : State) : State :=
  clearStoredSession env tabId
    { st with sessions := st.sessions.erase tabId, active := st.active.erase tabId }

/-- The test `now - sessionTime > maxAge` of `cleanupOldData`. -/
def expired (env : Env) (session : Session) : Bool :=
  decide ((env.now : Int) - (session.startTime : Int) > maxAge)

/-- One iteration of the first loop of `cleanupOldData`. -/
def cleanupEntry (env : Env) (st : State) (entry : (_ : TabId) × Session) : State :=
  if expired env entry.2 then
    clearStoredSession env entry.1
      { st with sessions := st.sessions.erase entry.1, active := st.active.erase entry.1 }
  else st

/-- The array `keysToRemove` of `cleanupOldData`: the `session_` keys of the
store whose value is older than `maxAge`. -/
def keysToRemove (env : Env) (store : Store) : List TabId :=
  (store.sessions.entries.filter (fun entry => expired env entry.2)).map (fun entry => entry.1)

/-- The method `cleanupOldData()`: the loop over the entries of `sessions`,
then the sweep of the store, which is not reached when reading the store is
rejected. -/
def cleanupOldData (env : Env) (st : State) : State :=
  let st1 := st.sessions.entries.foldl (cleanupEntry env) st
  if env.storeOk then
    let keys := keysToRemove env st1.store
    if keys.length > 0 then
      { st1 with store :=
          { st1.store with sessions := keys.foldl (fun m key => m.erase key) st1.store.sessions } }
    else st1
  else st1

/-- The `clearRecording` case of `handleMessage`. -/
def clearRecording (env : Env) (tabId : TabId) (st : State) : State :=
  clearStoredSession env tabId
    { st with sessions := st.sessions.erase tabId, active := st.active.erase tabId }

/-- The method `handleMessage(message, sender, sendResponse)`: the state
afterwards and the response sent; `sender` is `sender.tab?.id`. -/
def handleMessage (env : Env) (message : Message) (sender : TabId) (st : State) :
    State × Response :=
  if message.action = "startRecording" then
    (startRecording env message sender st, Response.ok)
  else if message.action = "stopRecording" then
    (stopRecording env sender st, Response.ok)
  else if message.action = "saveStep" then
    (saveStep env message.step sender st, Response.ok)
  else if message.action = "getRecording" then
    match st.sessions.lookup sender with
    | some session => (st, Response.okSession session)
    | none => (st, Response.fail "No active session")
  else if message.action = "clearRecording" then
    (clearRecording env sender st, Response.ok)
  else if message.action = "getSessionData" then
    ((getSessionData env sender st).1, Response.okData (getSessionData env sender st).2)
  else if message.action = "updateSessionSettings" then
    (updateSessionSettings env message.settings sender st, Response.ok)
  else if message.action = "openTabForExportViewer" then
    match env.viewerTab with
    | Except.ok tabId => (st, Response.okTab "Export viewer tab opened." tabId)
    | Except.error err => (st, Response.fail ("Failed to open export viewer tab: " ++ err))
  else (st, Response.fail "Unknown action")

/-- The events the service worker reacts to. -/
inductive Event where
  | message (message : Message) (sender : TabId)
  | tabUpdated (tabId : TabId) (status : Option String) (tab : TabInfo)
  | tabRemoved (tabId : TabId)
  | timer

/-- The listeners registered by `init`. -/
def dispatch (env : Env) : Event → State → State
  | Event.message message sender, st => (handleMessage env message sender st).1
  | Event.tabUpdated tabId status tab, st => handleTabUpdate env tabId status tab st
  | Event.tabRemoved tabId, st => handleTabRemoved env tabId st
  | Event.timer, st => cleanupOldData env st

/-- The state of a freshly constructed manager over a given durable store. -/
def initial (store : Store) : State :=
  { sessions := ∅, active := ∅, store := store }

/-- States the manager can be in when every handler runs from its call to its
return before the next event is handled: a fresh manager over any store,
followed by any events in any environments. States that arise only when a
handler is overtaken while it is suspended at an `await` are not among them;
`saveStepOverlapped` and `getSessionDataOverlapped` build two such states. -/
inductive Reachable : State → Prop where
  | init (store : Store) : Reachable (initial store)
  | step (env : Env) (event : Event) (st : State) :
      Reachable st → Reachable (dispatch env event st)

/-- States the manager can be in when every call to the durable store
resolves and every handler runs from its call to its return before the next
event is handled. -/
inductive ReliablyReachable : State → Prop where
  | init (store : Store) : ReliablyReachable (initial store)
  | step (env : Env) (event : Event) (st : State) :
      env.storeOk = true → ReliablyReachable st → ReliablyReachable (dispatch env event st)

/-- Two `saveStep` calls on one tab that overlap: the second is handled while
the first is suspended at its `await`; then the first resumes, then the
second. Nothing replaces the map entry of the tab in between, so both calls
hold the session object of the tab and each finds, when it resumes, the steps
pushed by both. -/
def saveStepOverlapped (env1 env2 : Env) (step1 step2 : Option JsObj) (tabId : TabId)
    (st : State) : State :=
  let begun1 := saveStepBegin env1 step1 tabId st
  let begun2 := saveStepBegin env2 step2 tabId begun1.1
  let held :=
    match begun2.1.sessions.lookup tabId with
    | some session => session.steps.length
    | none => 0
  let resumed1 := if begun1.2 then saveStepResume env1 tabId held begun2.1 else begun2.1
  if begun2.2 then saveStepResume env2 tabId held resumed1 else resumed1

/-- A `getSessionData` call that a `startRecording` on the same tab overlaps:
with no session in memory the call reads the store and is suspended; the
`startRecording` is handled meanwhile; then the call resumes with what the
store held when the read was issued. -/
def getSessionDataOverlapped (env envStart : Env) (message : Message) (tabId : TabId)
    (st : State) : State × Option SessionData :=
  match st.sessions.lookup tabId with
  | some session =>
    (startRecording envStart message tabId st, some
      { session := session
        isRecording := decide (tabId ∈ st.active)
        stepCount := session.steps.length })
  | none =>
    getSessionDataAfterRead tabId (loadStoredSession env tabId st)
      (startRecording envStart message tabId st)

/-- The session object after `stopRecording` at time `now`. -/
def stoppedAt (now : Nat) (session : Session) : Session :=
  { session with
    endTime := some now
    duration := some ((now : Int) - (session.startTime : Int)) }

/-- A run of `saveStep` calls on one tab, in order. -/
def saveSteps (calls : List (Env × Option JsObj)) (tabId : TabId) (st : State) : State :=
  calls.foldl (fun acc call => saveStep call.1 call.2 tabId acc) st

/-- The steps carry the numbers 1, 2, ... in order. -/
def Numbered (steps : List JsObj) : Prop :=
  ∀ (i : Nat) (step : JsObj), steps[i]? = some step →
    JsObj.get step "stepNumber" = JsVal.num ((i : Int) + 1)

/-- Whether the first loop of `cleanupOldData`, run over `entries`, deletes
tab `t`. -/
def sweeps (env : Env) (entries : List ((_ : TabId) × Session)) (t : TabId) : Bool :=
  entries.any (fun entry => decide (entry.1 = t) && expired env entry.2)

/-- Every actively recording tab has a session in memory, and that session has
no `endTime`. -/
def ActiveOpen (st : State) : Prop :=
  ∀ t ∈ st.active, ∃ s, st.sessions.lookup t = some s ∧ s.endTime = none

/-- The store holds every in-memory session under its tab's key. -/
def StoreMirrors (st : State) : Prop :=
  ∀ t s, st.sessions.lookup t = some s → st.store.sessions.lookup t = some s

/-! ### Sample inputs -/

/-- A store with no entries. -/
def emptyStore : Store := { sessions := ∅, recording := ∅ }

/-- An environment whose clock reads `now` and whose store answers. -/
def sampleEnv (now : Nat) : Env :=
  { now := now
    later := now + 1
    rnd := "k3x9q"
    storeOk := true
    tab := some { url := some "https://d365.example/vendors", title := some "Vendors" }
    userAgent := "Mozilla/5.0"
    viewerTab := Except.ok 42 }

/-- A candidate step as a page would submit it. -/
def sampleClick : JsObj :=
  [("type", JsVal.str "click"), ("description", JsVal.str "Click button Save"),
   ("stepNumber", JsVal.num 77)]

/-- The request that starts the session named Vendor Setup. -/
def sampleStart : Message :=
  { action := "startRecording", sessionName := JsVal.str "Vendor Setup" }

/-- The request that submits `sampleClick`. -/
def sampleSave : Message := { action := "saveStep", step := some sampleClick }

/-- Tab 7 recording since time 1000, with four steps. -/
def sampleRecording : State :=
  dispatch (sampleEnv 4000) (Event.message sampleSave (some 7))
    (dispatch (sampleEnv 3000) (Event.message sampleSave (some 7))
      (dispatch (sampleEnv 2500) (Event.message sampleSave (some 7))
        (dispatch (sampleEnv 2000) (Event.message sampleSave (some 7))
          (dispatch (sampleEnv 1000) (Event.message sampleStart (some 7))
            (initial emptyStore)))))

/-- The session of tab 7 in `sampleRecording`. -/
def sampleSession : Session :=
  { id := JsVal.str "1000"
    startTime := 1000
    steps :=
      [enhanceStep (sampleEnv 2000) (newSession (sampleEnv 1000) sampleStart) sampleClick,
       [("type", JsVal.str "click"), ("description", JsVal.str "Click button Save"),
        ("stepNumber", JsVal.num 2), ("id", JsVal.str "step_2500_k3x9q"),
        ("timestamp", JsVal.isoTime 2500), ("sessionId", JsVal.str "1000")],
       [("type", JsVal.str "click"), ("description", JsVal.str "Click button Save"),
        ("stepNumber", JsVal.num 3), ("id", JsVal.str "step_3000_k3x9q"),
        ("timestamp", JsVal.isoTime 3000), ("sessionId", JsVal.str "1000")],
       [("type", JsVal.str "click"), ("description", JsVal.str "Click button Save"),
        ("stepNumber", JsVal.num 4), ("id", JsVal.str "step_4000_k3x9q"),
        ("timestamp", JsVal.isoTime 4000), ("sessionId", JsVal.str "1000")]]
    metadata :=
      { url := JsVal.str "https://d365.example/vendors"
        title := JsVal.str "Vendors"
        userAgent := JsVal.str "Mozilla/5.0"
        sessionName := JsVal.str "Vendor Setup" }
    settings := defaultSettings }

/-- The state `sampleRecording` after tab 7 stops at time 301000, five
minutes after its start. -/
def sampleStopped : State :=
  dispatch (sampleEnv 301000) (Event.message { action := "stopRecording" } (some 7))
    sampleRecording

/-- A manager freshly started over the store that `sampleStopped` left: the
stopped session of tab 7 is in the store and not in memory. -/
def sampleRestarted : State := initial sampleStopped.store

/-- Tab 7 recording with ninety-nine steps taken. -/
def sampleNinetyNine : State :=
  saveSteps (List.replicate 99 (sampleEnv 2000, some sampleClick)) (some 7)
    (startRecording (sampleEnv 1000) sampleStart (some 7) (initial emptyStore))

/-- The session of tab 7 in `sampleNinetyNine`. -/
def sampleNinetyNineSession : Session :=
  match sampleNinetyNine.sessions.lookup (some 7) with
  | some session => session
  | none => newSession (sampleEnv 1000) sampleStart

end RecordingManager

/-! ## The page: a model of the DOM read by the content script -/

/-- The properties of an element (as opposed to its attributes) that the
recorder reads: `type`, `checked`, `value`, `href`, and the text of the
selected option, `options[selectedIndex]?.text`. A property the element does
not have is `none` (`undefined`). `svg` tells an SVG element from an HTML
element: the `className` of an SVG element is an `SVGAnimatedString` object,
not a string. -/
structure ElementProps where
  type : Option String := none
  checked : Bool := false
  value : Option String := none
  href : Option String := none
  selectedText : Option String := none
  svg : Bool := false

/-- A node of the document tree: a text node or an element with its
`tagName` (as the DOM reports it, upper case for HTML elements), its
attributes, its properties and its child nodes. -/
inductive DomNode where
  | text (data : String)
  | element (tagName : String) (attrs : List (String × String)) (props : ElementProps)
      (children : List DomNode)

/-- A reference to an element of a document: the child indices on the way up
to the root element, the element's own index among its parent's child nodes
first. The root element is `[]`; the parent of `i :: up` is `up`. -/
abbrev ElemRef := List Nat

namespace Dom

/-! ### Strings -/

/-- The white space removed by `String.prototype.trim`. -/
def isTrimSpace (c : Char) : Bool :=
  let n := c.toNat
  n = 9 || n = 10 || n = 11 || n = 12 || n = 13 || n = 32 || n = 160 || n = 5760 ||
  (8192 ≤ n && n ≤ 8202) || n = 8232 || n = 8233 || n = 8239 || n = 8287 || n = 12288 ||
  n = 65279

/-- The method `String.prototype.trim`. -/
def trim (s : String) : String :=
  String.mk ((s.toList.dropWhile isTrimSpace).reverse.dropWhile isTrimSpace).reverse

/-- The method `String.prototype.toLowerCase` on tag names (ASCII letters). -/
def toLowerCase (s : String) : String :=
  String.mk (s.toList.map Char.toLower)

/-- Splits at every character satisfying `p`; the pieces may be empty. -/
def splitBy (p : Char → Bool) : List Char → List (List Char)
  | [] => [[]]
  | c :: cs =>
    if p c then [] :: splitBy p cs
    else
      match splitBy p cs with
      | [] => [[c]]
      | w :: ws => (c :: w) :: ws

/-- The call `s.split(' ')`. -/
def splitSpace (s : String) : List String :=
  (splitBy (fun c => c = ' ') s.toList).map String.mk

/-- The call `s.includes(part)`. -/
def includes (s part : String) : Bool :=
  s.toList.tails.any (fun rest => part.toList.isPrefixOf rest)

/-- The class names of a `class` attribute: its pieces between ASCII white
space. -/
def classTokens (className : String) : List String :=
  ((splitBy (fun c => c = ' ' || c.toNat = 9 || c.toNat = 10 || c.toNat = 12 || c.toNat = 13)
    className.toList).filter (fun w => !w.isEmpty)).map String.mk

/-- The call `parts.join(sep)`. -/
def join (sep : String) : List String → String
  | [] => ""
  | [a] => a
  | a :: b :: rest => a ++ sep ++ join sep (b :: rest)

/-- A string that may be missing, inside a template literal: a missing
property reads `undefined`. -/
def template : Option String → String
  | none => "undefined"
  | some s => s

/-- JavaScript truthiness of a string that may be `null` or `undefined`. -/
def truthy : Option String → Bool
  | some s => decide (s ≠ "")
  | none => false

/-- The JavaScript `a || b` on strings that may be missing. -/
def orElse (a b : Option String) : Option String :=
  if truthy a then a else b

/-! ### Nodes -/

/-- Whether the node is an element (`nodeType === Node.ELEMENT_NODE`). -/
def isElement : DomNode → Bool
  | DomNode.element _ _ _ _ => true
  | DomNode.text _ => false

/-- The `tagName` (`nodeName`) of an element. -/
def tagName : DomNode → String
  | DomNode.element t _ _ _ => t
  | DomNode.text _ => "#text"

/-- The method `getAttribute(name)`: `none` for `null`. -/
def getAttribute : DomNode → String → Option String
  | DomNode.element _ attrs _ _, name => attrs.lookup name
  | DomNode.text _, _ => none

/-- The method `hasAttribute(name)`. -/
def hasAttribute (n : DomNode) (name : String) : Bool :=
  (getAttribute n name).isSome

/-- The property `id`: the `id` attribute, or the empty string. -/
def elemId (n : DomNode) : String := (getAttribute n "id").getD ""

/-- The `class` attribute, or the empty string: the property `className` of
an HTML element. What the property is on any element is `classNameString`. -/
def className (n : DomNode) : String := (getAttribute n "class").getD ""

/-- The properties of an element. -/
def props : DomNode → ElementProps
  | DomNode.element _ _ p _ => p
  | DomNode.text _ => {}

/-- The property `className` as a string. On an HTML element it is the
`class` attribute or the empty string. On an SVG element it is an
`SVGAnimatedString` object, which is truthy and has neither `split` nor
`includes`, so that calling them throws a `TypeError`: `none`. -/
def classNameString (n : DomNode) : Option String :=
  if (props n).svg then none else some (className n)

/-- The property `childNodes`. -/
def childNodes : DomNode → List DomNode
  | DomNode.element _ _ _ cs => cs
  | DomNode.text _ => []

mutual
/-- The property `textContent`: the text of all descendants, in order. -/
def textContent : DomNode → String
  | DomNode.text data => data
  | DomNode.element _ _ _ cs => textContentList cs
/-- The text of a list of nodes, in order. -/
def textContentList : List DomNode → String
  | [] => ""
  | c :: cs => textContent c ++ textContentList cs
end

mutual
/-- The first element, in document order, among a node and its descendants
that satisfies `p`, as the child indices leading down to it. -/
def findFirst (p : DomNode → Bool) : DomNode → Option (List Nat)
  | DomNode.text _ => none
  | DomNode.element t a pr cs =>
    if p (DomNode.element t a pr cs) then some [] else findFirstIn p cs 0
/-- The first element satisfying `p` among the nodes of a list and their
descendants; `i` is the index of the head of the list. -/
def findFirstIn (p : DomNode → Bool) : List DomNode → Nat → Option (List Nat)
  | [], _ => none
  | c :: cs, i =>
    match findFirst p c with
    | some path => some (i :: path)
    | none => findFirstIn p cs (i + 1)
end

/-- The node an element reference points to in the document with root
element `doc`. -/
def nodeAt (doc : DomNode) : ElemRef → Option DomNode
  | [] => some doc
  | i :: up => (nodeAt doc up).bind (fun parent => (childNodes parent)[i]?)

/-- The element a reference points to; a reference that points nowhere reads
as an empty text node. -/
def elem (doc : DomNode) (el : ElemRef) : DomNode :=
  (nodeAt doc el).getD (DomNode.text "")

/-- The call `document.querySelector(sel)`, for a selector that tests single
elements by `p`. -/
def documentQuery (doc : DomNode) (p : DomNode → Bool) : Option ElemRef :=
  (findFirst p doc).map List.reverse

/-- The call `element.querySelector(sel)`: the first match among the
descendants of the element. -/
def elementQuery (doc : DomNode) (el : ElemRef) (p : DomNode → Bool) : Option ElemRef :=
  (findFirstIn p (childNodes (elem doc el)) 0).map (fun path => path.reverse ++ el)

/-- The call `element.closest(sel)`: the element itself or its nearest
ancestor that satisfies `p`. -/
def closest (doc : DomNode) (p : DomNode → Bool) : ElemRef → Option ElemRef
  | [] => if p (elem doc []) then some [] else none
  | i :: up => if p (elem doc (i :: up)) then some (i :: up) else closest doc p up

/-- The property `previousElementSibling`. -/
def previousElementSibling (doc : DomNode) : ElemRef → Option ElemRef
  | [] => none
  | i :: up =>
    (((childNodes (elem doc up)).take i).enum.reverse.find? (fun c => isElement c.2)).map
      (fun c => c.1 :: up)

/-- The property `document.body`: the first `body` or `frameset` child of the
`html` root element. -/
def documentBody (doc : DomNode) : Option ElemRef :=
  if tagName doc = "HTML" then
    ((childNodes doc).findIdx?
      (fun c => isElement c && (tagName c = "BODY" || tagName c = "FRAMESET"))).map
        (fun i => [i])
  else none

/-! ### The selectors used by the recorder -/

/-- Whether an id, pasted between the double quotes of `label[for="<id>"]`,
is read back as itself: it holds no double quote (34), backslash (92), line
feed, form feed, carriage return or NUL. With another id the text is not a
selector (`querySelector` throws a `SyntaxError`) or is a different one. -/
def plainId (id : String) : Bool :=
  id.toList.all (fun c =>
    c.toNat ≠ 34 && c.toNat ≠ 92 && c.toNat ≠ 10 && c.toNat ≠ 12 && c.toNat ≠ 13 &&
      c.toNat ≠ 0)

/-- The selector `label[for="<id>"]` for an id that is `plainId`: a `label`
element whose `for` attribute is the id. -/
def isLabelFor (id : String) (n : DomNode) : Bool :=
  decide (toLowerCase (tagName n) = "label") && decide (getAttribute n "for" = some id)

/-- The selector `label`. -/
def isLabel (n : DomNode) : Bool :=
  isElement n && decide (toLowerCase (tagName n) = "label")

/-- The selector `[data-dyn-controlname]`. -/
def hasDynControlName (n : DomNode) : Bool :=
  isElement n && hasAttribute n "data-dyn-controlname"

/-- A class selector `.<name>`. -/
def hasClass (name : String) (n : DomNode) : Bool :=
  isElement n && decide (name ∈ classTokens (className n))

/-- An id selector `#<id>`. -/
def hasId (id : String) (n : DomNode) : Bool :=
  isElement n && decide (getAttribute n "id" = some id)

end Dom

/-! ## The element fingerprinter of the content script -/

namespace D365Recorder

open Dom

/-- The value `getElementLabel(element)` returns on a page of HTML elements
whose ids are `plainId`; `none` is `null`. The call itself, which throws on
other pages, is `getElementLabelCall`. -/
def getElementLabel (doc : DomNode) (element : ElemRef) : Option String :=
  match (if elemId (elem doc element) ≠ "" then
      documentQuery doc (isLabelFor (elemId (elem doc element))) else none) with
  | some label => some (trim (textContent (elem doc label)))
  | none =>
    match closest doc isLabel element with
    | some parentLabel => some (trim (textContent (elem doc parentLabel)))
    | none =>
      if truthy (getAttribute (elem doc element) "aria-label") then
        getAttribute (elem doc element) "aria-label"
      else
        match (previousElementSibling doc element).filter (fun prevElement =>
            decide (tagName (elem doc prevElement) = "LABEL") ||
              includes (className (elem doc prevElement)) "label") with
        | some prevElement => some (trim (textContent (elem doc prevElement)))
        | none =>
          match (closest doc hasDynControlName element).bind
              (fun control => elementQuery doc control (hasClass "dyn-label")) with
          | some dynLabel => some (trim (textContent (elem doc dynLabel)))
          | none => none

/-- The last rule of `getElementLabel(element)` (content.js:330-333): the
`.dyn-label` inside `element.closest('[data-dyn-controlname]')`. -/
def dynLabelOf (doc : DomNode) (element : ElemRef) : Option String :=
  match (closest doc hasDynControlName element).bind
      (fun control => elementQuery doc control (hasClass "dyn-label")) with
  | some dynLabel => some (trim (textContent (elem doc dynLabel)))
  | none => none

/-- The method `getElementLabel(element)` as a call: `some r` when it returns
`r` (`r = none` for `null`), `none` when it does not return a value read
here. That is the case for a non-empty id that is not `plainId`, where
`querySelector` at content.js:310 throws or reads another selector, and for a
previous element sibling that is an SVG element with another `tagName` than
`LABEL`, reached at content.js:325: its `className.includes` is not a
function and the call throws a `TypeError`. -/
def getElementLabelCall (doc : DomNode) (element : ElemRef) : Option (Option String) :=
  if elemId (elem doc element) ≠ "" ∧ plainId (elemId (elem doc element)) = false then none
  else
    match (if elemId (elem doc element) ≠ "" then
        documentQuery doc (isLabelFor (elemId (elem doc element))) else none) with
    | some label => some (some (trim (textContent (elem doc label))))
    | none =>
      match closest doc isLabel element with
      | some parentLabel => some (some (trim (textContent (elem doc parentLabel))))
      | none =>
        if truthy (getAttribute (elem doc element) "aria-label") then
          some (getAttribute (elem doc element) "aria-label")
        else
          match previousElementSibling doc element with
          | some prevElement =>
            if tagName (elem doc prevElement) = "LABEL" then
              some (some (trim (textContent (elem doc prevElement))))
            else
              match classNameString (elem doc prevElement) with
              | none => none
              | some name =>
                if includes name "label" then
                  some (some (trim (textContent (elem doc prevElement))))
                else some (dynLabelOf doc element)
          | none => some (dynLabelOf doc element)

/-- The counters of the sibling loop of `getElementXPath`. -/
structure SiblingScan where
  nb : Nat
  hasFollowingSiblings : Bool
  hasPrecedingSiblings : Bool

/-- The child nodes the sibling loop runs over: `element.parentNode.childNodes`.
The parent of the root element is the document, whose only element child is
the root. -/
def siblingNodes (doc : DomNode) : ElemRef → List DomNode
  | [] => [doc]
  | _ :: up => childNodes (elem doc up)

/-- The position of the element among `siblingNodes`. -/
def ownIndex : ElemRef → Nat
  | [] => 0
  | i :: _ => i

/-- One pass of the body of the sibling loop, for the sibling at position
`entry.1`. -/
def scanSibling (self : DomNode) (index : Nat) (scan : SiblingScan) (entry : Nat × DomNode) :
    SiblingScan :=
  if !isElement entry.2 then scan
  else if entry.1 = index then
    (if scan.nb > 0 then { scan with hasPrecedingSiblings := true } else scan)
  else if tagName entry.2 = tagName self then
    { nb := scan.nb + 1
      hasFollowingSiblings := if scan.nb = 0 then true else scan.hasFollowingSiblings
      hasPrecedingSiblings := scan.hasPrecedingSiblings }
  else scan

/-- The string `prefix + nth` that one pass of the `while` loop of
`getElementXPath` puts in front of `parts`. -/
def xpathStep (doc : DomNode) (element : ElemRef) : String :=
  let scan := (siblingNodes doc element).enum.foldl
    (scanSibling (elem doc element) (ownIndex element)) ⟨0, false, false⟩
  toLowerCase (tagName (elem doc element)) ++
    (if scan.nb > 0 || scan.hasPrecedingSiblings || scan.hasFollowingSiblings then
      "[" ++ toString (scan.nb + 1) ++ "]"
    else "")

/-- The `while` loop of `getElementXPath`: from the element up to the root
element, each pass `unshift`s its step. -/
def xpathParts (doc : DomNode) : ElemRef → List String → List String
  | [], parts => xpathStep doc [] :: parts
  | i :: up, parts => xpathParts doc up (xpathStep doc (i :: up) :: parts)

/-- The method `getElementXPath(element)`. -/
def getElementXPath (doc : DomNode) (element : ElemRef) : String :=
  if elemId (elem doc element) ≠ "" then
    "//*[@id=\"" ++ elemId (elem doc element) ++ "\"]"
  else
    "/" ++ join "/" (xpathParts doc element [])

/-- The `while` loop of `getElementSelector` on HTML elements; `element` is
the node whose `parentElement` is looked at next. -/
def selectorWalk (doc : DomNode) : ElemRef → String → String
  | [], selector => selector
  | _ :: parent, selector =>
    if some parent = documentBody doc then selector
    else if elemId (elem doc parent) ≠ "" then
      (toLowerCase (tagName (elem doc parent)) ++ "#" ++ elemId (elem doc parent)) ++
        " > " ++ selector
    else if className (elem doc parent) ≠ "" then
      selectorWalk doc parent
        ((toLowerCase (tagName (elem doc parent)) ++ "." ++
          (splitSpace (className (elem doc parent))).headD "") ++ " > " ++ selector)
    else
      selectorWalk doc parent (toLowerCase (tagName (elem doc parent)) ++ " > " ++ selector)

/-- The selector `getElementSelector` starts from: the element's tag and its
class names. -/
def ownSelector (doc : DomNode) (element : ElemRef) : String :=
  if className (elem doc element) ≠ "" then
    toLowerCase (tagName (elem doc element)) ++ "." ++
      join "." (splitSpace (className (elem doc element)))
  else toLowerCase (tagName (elem doc element))

/-- The value `getElementSelector(element)` returns when every `className`
it reads is a string, as on HTML elements. The call itself, which throws on
an SVG element, is `getElementSelectorCall`. -/
def getElementSelector (doc : DomNode) (element : ElemRef) : String :=
  if elemId (elem doc element) ≠ "" then "#" ++ elemId (elem doc element)
  else selectorWalk doc element (ownSelector doc element)

/-- The `while` loop of `getElementSelector` as it runs on any element:
`none` when it throws. A parent without an id whose `className` is not a
string is truthy at content.js:384 and `parent.className.split` at
content.js:385 throws a `TypeError`. -/
def selectorWalkCall (doc : DomNode) : ElemRef → String → Option String
  | [], selector => some selector
  | _ :: parent, selector =>
    if some parent = documentBody doc then some selector
    else if elemId (elem doc parent) ≠ "" then
      some ((toLowerCase (tagName (elem doc parent)) ++ "#" ++ elemId (elem doc parent)) ++
        " > " ++ selector)
    else
      match classNameString (elem doc parent) with
      | none => none
      | some name =>
        if name ≠ "" then
          selectorWalkCall doc parent
            ((toLowerCase (tagName (elem doc parent)) ++ "." ++
              (splitSpace name).headD "") ++ " > " ++ selector)
        else
          selectorWalkCall doc parent
            (toLowerCase (tagName (elem doc parent)) ++ " > " ++ selector)

/-- The method `getElementSelector(element)` as a call: `some` selector when
it returns, `none` when it throws. An element without an id whose `className`
is not a string is truthy at content.js:372 and `element.className.split` at
content.js:373 throws a `TypeError`. -/
def getElementSelectorCall (doc : DomNode) (element : ElemRef) : Option String :=
  if elemId (elem doc element) ≠ "" then some ("#" ++ elemId (elem doc element))
  else
    match classNameString (elem doc element) with
    | none => none
    | some name =>
      selectorWalkCall doc element
        (if name ≠ "" then
          toLowerCase (tagName (elem doc element)) ++ "." ++ join "." (splitSpace name)
        else toLowerCase (tagName (elem doc element)))

/-- The method `generateStepDescription(action, element)`. -/
def generateStepDescription (doc : DomNode) (action : String) (element : ElemRef) : String :=
  let label := getElementLabel doc element
  let dynControlName := getAttribute (elem doc element) "data-dyn-controlname"
  let dynFieldName := getAttribute (elem doc element) "data-dyn-fieldname"
  let node := elem doc element
  if action = "click" then
    if tagName node = "BUTTON" then
      "Click button \"" ++
        template (orElse (orElse (some (trim (textContent node))) label) (some "Unknown")) ++
        "\""
    else if tagName node = "A" then
      "Click link \"" ++
        template (orElse (some (trim (textContent node))) (props node).href) ++ "\""
    else if (props node).type = some "checkbox" then
      (if (props node).checked then "Check" else "Uncheck") ++ " \"" ++
        template (orElse label (some "checkbox")) ++ "\""
    else if (props node).type = some "radio" then
      "Select radio button \"" ++ template (orElse label (props node).value) ++ "\""
    else
      "Click on \"" ++
        template (orElse (orElse label dynControlName) (some (toLowerCase (tagName node)))) ++
        "\""
  else if action = "input" then
    "Enter text in \"" ++
      template (orElse (orElse (orElse label dynFieldName) dynControlName) (some "field")) ++
      "\""
  else if action = "change" then
    if tagName node = "SELECT" then
      "Select \"" ++ template (orElse (props node).selectedText (props node).value) ++
        "\" from \"" ++ template (orElse (orElse label dynFieldName) (some "dropdown")) ++ "\""
    else
      "Change value of \"" ++
        template (orElse (orElse (orElse label dynFieldName) dynControlName) (some "field")) ++
        "\""
  else
    "Perform " ++ action ++ " on \"" ++
      template (orElse (orElse label dynControlName) (some (toLowerCase (tagName node)))) ++
      "\""

end D365Recorder

/-! ### Reference definitions for the fingerprinter, in the words of the spec -/

namespace D365Recorder

open Dom

/-- The nearest element satisfying `p` among the ancestors of an element;
with `self` the element itself counts as the nearest. -/
def nearest (self : Bool) (doc : DomNode) (p : DomNode → Bool) (element : ElemRef) :
    Option ElemRef :=
  if self then closest doc p element
  else
    match element with
    | [] => none
    | _ :: parent => closest doc p parent

/-- The five label rules, in priority order, each giving its label when it
matches: the first `label` element whose `for` is the element's (non-empty)
id; the nearest `label` ancestor; a non-empty `aria-label`; the previous
element sibling when it is a `LABEL` or its class contains `label`; the
`.dyn-label` inside the nearest `[data-dyn-controlname]` ancestor. With `self`
the element counts among its own ancestors. -/
def labelRules (self : Bool) (doc : DomNode) (element : ElemRef) : List (Option String) :=
  [ (if elemId (elem doc element) ≠ "" then
        documentQuery doc (isLabelFor (elemId (elem doc element)))
      else none).map (fun label => trim (textContent (elem doc label))),
    (nearest self doc isLabel element).map (fun label => trim (textContent (elem doc label))),
    (getAttribute (elem doc element) "aria-label").filter (fun text => decide (text ≠ "")),
    ((previousElementSibling doc element).filter (fun prev =>
        decide (tagName (elem doc prev) = "LABEL") ||
          includes (className (elem doc prev)) "label")).map
      (fun prev => trim (textContent (elem doc prev))),
    ((nearest self doc hasDynControlName element).bind
        (fun control => elementQuery doc control (hasClass "dyn-label"))).map
      (fun label => trim (textContent (elem doc label))) ]

/-- The label given by the first rule that matches, `none` when none does. -/
def referenceLabel (self : Bool) (doc : DomNode) (element : ElemRef) : Option String :=
  (labelRules self doc element).findSome? (fun rule => rule)

/-- Whether the element has another element sibling with its tag name. -/
def hasOtherSameTag (doc : DomNode) (element : ElemRef) : Bool :=
  (siblingNodes doc element).enum.any (fun entry =>
    decide (entry.1 ≠ ownIndex element) && isElement entry.2 &&
      decide (tagName entry.2 = tagName (elem doc element)))

/-- The number of other element siblings with the element's tag name. -/
def otherSameTagCount (doc : DomNode) (element : ElemRef) : Nat :=
  (siblingNodes doc element).enum.countP (fun entry =>
    decide (entry.1 ≠ ownIndex element) && isElement entry.2 &&
      decide (tagName entry.2 = tagName (elem doc element)))

/-- The 1-based position of the element among its element siblings with its
tag name, in document order. -/
def positionAmongSameTag (doc : DomNode) (element : ElemRef) : Nat :=
  ((siblingNodes doc element).take (ownIndex element)).countP (fun sibling =>
    isElement sibling && decide (tagName sibling = tagName (elem doc element))) + 1

/-- The proper ancestors of an element, nearest first. -/
def properAncestors : ElemRef → List ElemRef
  | [] => []
  | _ :: parent => parent :: properAncestors parent

/-- A list of elements cut after its first element that has an id. -/
def upToFirstId (doc : DomNode) : List ElemRef → List ElemRef
  | [] => []
  | a :: rest => if elemId (elem doc a) ≠ "" then [a] else a :: upToFirstId doc rest

/-- The ancestors named in a selector, nearest first: the ancestors below
`document.body`, cut after the nearest one that has an id. -/
def namedAncestors (doc : DomNode) (element : ElemRef) : List ElemRef :=
  upToFirstId doc ((properAncestors element).takeWhile (fun a => decide (some a ≠ documentBody doc)))

/-- The segment an ancestor contributes to a selector: `tag#id` when it has
an id, else its tag with `.` and its first class name when it has a class. -/
def ancestorSegment (doc : DomNode) (a : ElemRef) : String :=
  if elemId (elem doc a) ≠ "" then
    toLowerCase (tagName (elem doc a)) ++ "#" ++ elemId (elem doc a)
  else if className (elem doc a) ≠ "" then
    toLowerCase (tagName (elem doc a)) ++ "." ++ (splitSpace (className (elem doc a))).headD ""
  else toLowerCase (tagName (elem doc a))

/-- What `generateStepDescription` reads from an element. -/
structure Snapshot where
  tag : String
  type : Option String
  checked : Bool
  text : String
  href : Option String
  value : Option String
  label : Option String
  dynControlName : Option String
  dynFieldName : Option String
  selectedText : Option String

/-- The snapshot of an element. -/
def snapshot (doc : DomNode) (element : ElemRef) : Snapshot :=
  { tag := tagName (elem doc element)
    type := (props (elem doc element)).type
    checked := (props (elem doc element)).checked
    text := trim (textContent (elem doc element))
    href := (props (elem doc element)).href
    value := (props (elem doc element)).value
    label := getElementLabel doc element
    dynControlName := getAttribute (elem doc element) "data-dyn-controlname"
    dynFieldName := getAttribute (elem doc element) "data-dyn-fieldname"
    selectedText := (props (elem doc element)).selectedText }

/-- The first non-empty of the candidates, else the fallback, as text. -/
def firstNonEmpty (candidates : List (Option String)) (fallback : Option String) : String :=
  match candidates.find? truthy with
  | some found => template found
  | none => template fallback

/-- The reference definition of the step description. -/
def referenceDescription (action : String) (s : Snapshot) : String :=
  if action = "input" then
    "Enter text in \"" ++
      firstNonEmpty [s.label, s.dynFieldName, s.dynControlName] (some "field") ++ "\""
  else if action = "change" then
    if s.tag = "SELECT" then
      "Select \"" ++ firstNonEmpty [s.selectedText] s.value ++ "\" from \"" ++
        firstNonEmpty [s.label, s.dynFieldName] (some "dropdown") ++ "\""
    else
      "Change value of \"" ++
        firstNonEmpty [s.label, s.dynFieldName, s.dynControlName] (some "field") ++ "\""
  else if action = "click" then
    if s.tag = "BUTTON" then
      "Click button \"" ++ firstNonEmpty [some s.text, s.label] (some "Unknown") ++ "\""
    else if s.tag = "A" then
      "Click link \"" ++ firstNonEmpty [some s.text] s.href ++ "\""
    else if s.type = some "checkbox" then
      (if s.checked then "Check" else "Uncheck") ++ " \"" ++
        firstNonEmpty [s.label] (some "checkbox") ++ "\""
    else if s.type = some "radio" then
      "Select radio button \"" ++ firstNonEmpty [s.label] s.value ++ "\""
    else
      "Click on \"" ++
        firstNonEmpty [s.label, s.dynControlName] (some (toLowerCase s.tag)) ++ "\""
  else
    "Perform " ++ action ++ " on \"" ++
      firstNonEmpty [s.label, s.dynControlName] (some (toLowerCase s.tag)) ++ "\""

end D365Recorder

/-! ### Sample pages -/

namespace D365Recorder

/-- A page with a labelled input, two sibling `div` elements, a button with
two classes inside a form that has an id, and a `label` element that carries
an `aria-label`. -/
def samplePage : DomNode :=
  DomNode.element "HTML" [] {} [
    DomNode.element "HEAD" [] {} [DomNode.element "TITLE" [] {} [DomNode.text "Vendors"]],
    DomNode.element "BODY" [] {} [
      DomNode.element "LABEL" [("for", "vendorName")] {} [DomNode.text "  Vendor Name "],
      DomNode.element "INPUT" [("id", "vendorName"), ("class", "field wide")]
        { type := some "text", value := some "Contoso" } [],
      DomNode.element "DIV" [("class", "row first")] {} [
        DomNode.element "SPAN" [] {} [DomNode.text "one"]],
      DomNode.element "DIV" [] {} [
        DomNode.element "FORM" [("id", "main"), ("class", "dyn-form")] {} [
          DomNode.element "SECTION" [("class", "group wide")] {} [
            DomNode.element "BUTTON" [("class", "btn primary")] {} [DomNode.text "Save"]]]],
      DomNode.element "LABEL" [("aria-label", "Name")] {} [DomNode.text " Vendor "]]]

/-- The input of `samplePage`. -/
def sampleInput : ElemRef := [1, 1]

/-- A toolbar with an SVG icon and a button: inside `div.toolbar` an `svg`
element of class `icon` that holds a `path` and, in a `foreignObject`, an
HTML `span`; next to it a `button`. -/
def sampleIconPage : DomNode :=
  DomNode.element "HTML" [] {} [
    DomNode.element "HEAD" [] {} [],
    DomNode.element "BODY" [] {} [
      DomNode.element "DIV" [("class", "toolbar")] {} [
        DomNode.element "svg" [("class", "icon")] { svg := true } [
          DomNode.element "path" [("d", "M0 0h8v8z")] { svg := true } [],
          DomNode.element "foreignObject" [] { svg := true } [
            DomNode.element "SPAN" [] {} [DomNode.text "Save"]]],
        DomNode.element "BUTTON" [] {} [DomNode.text "Save"]]]]

/-- The `svg` element of `sampleIconPage`. -/
def sampleIcon : ElemRef := [0, 0, 1]

/-- The `path` element inside the `svg` element of `sampleIconPage`. -/
def sampleIconPath : ElemRef := [0, 0, 0, 1]

/-- The HTML `span` inside the `foreignObject` of `sampleIconPage`. -/
def sampleIconCaption : ElemRef := [0, 1, 0, 0, 1]

/-- The `button` of `sampleIconPage`, whose previous element sibling is the
`svg` element. -/
def sampleIconButton : ElemRef := [1, 0, 1]

/-- The first of the two sibling `div` elements of `samplePage`. -/
def sampleFirstDiv : ElemRef := [2, 1]

/-- The second of the two sibling `div` elements of `samplePage`. -/
def sampleSecondDiv : ElemRef := [3, 1]

/-- The button of `samplePage`. -/
def sampleButton : ElemRef := [0, 0, 0, 3, 1]

/-- The `label` element of `samplePage` that carries an `aria-label`. -/
def sampleOwnLabel : ElemRef := [4, 1]

end D365Recorder

/-! ## The recorder of the content script -/

namespace D365Recorder

open Dom

/-- The object returned by `getElementInfo(element)`, without its `text`,
`placeholder` and `boundingBox` properties. -/
structure ElementInfo where
  tagName : String
  id : String
  className : String
  value : Option String
  label : Option String
  xpath : String
  selector : String
  dynControlName : Option String
  dynFieldName : Option String

/-- The method `getElementInfo(element)`. -/
def getElementInfo (doc : DomNode) (element : ElemRef) : ElementInfo :=
  { tagName := tagName (elem doc element)
    id := elemId (elem doc element)
    className := className (elem doc element)
    value := (props (elem doc element)).value
    label := getElementLabel doc element
    xpath := getElementXPath doc element
    selector := getElementSelector doc element
    dynControlName := getAttribute (elem doc element) "data-dyn-controlname"
    dynFieldName := getAttribute (elem doc element) "data-dyn-fieldname" }

/-- The argument of `recordStep`, without the click coordinates. -/
structure StepData where
  type : String
  description : String
  element : Option ElemRef := none
  elementInfo : Option ElementInfo := none
  value : JsVal := JsVal.undefined
  note : Option String := none
  automatic : Bool := false
  manual : Bool := false

/-- The step object built by `recordStep` and handed to `saveStep`;
`screenshot` tells whether `captureElementScreenshot` is run for it first. -/
structure Step where
  id : String
  stepNumber : Nat
  timestamp : Nat
  url : String
  pageTitle : String
  sessionId : Option String
  data : StepData
  screenshot : Bool

/-- The page as a handler finds it: the document, `window.location.href`,
`document.title` and the clock in milliseconds. -/
structure Page where
  doc : DomNode
  url : String
  title : String
  now : Nat

/-- The timeout set by `handleInput`, with what its callback has closed over. -/
structure PendingInput where
  due : Nat
  element : ElemRef
  elementInfo : ElementInfo

/-- The state of a `D365Recorder`: its recording fields, the pending
`inputTimeout`, and the steps handed to `saveStep` so far, oldest first. -/
structure Recorder where
  isRecording : Bool
  sessionId : Option String
  stepCounter : Nat
  inputTimeout : Option PendingInput
  saved : List Step

/-- The recorder as its constructor leaves it. -/
def fresh : Recorder :=
  { isRecording := false, sessionId := none, stepCounter := 0, inputTimeout := none, saved := [] }

/-- The method `recordStep(stepData)`. The save that follows a screenshot
capture is entered at the time of the call. -/
def recordStep (page : Page) (stepData : StepData) (r : Recorder) : Recorder :=
  { r with
    stepCounter := r.stepCounter + 1
    saved := r.saved ++
      [{ id := "step_" ++ toString (r.stepCounter + 1)
         stepNumber := r.stepCounter + 1
         timestamp := page.now
         url := page.url
         pageTitle := page.title
         sessionId := r.sessionId
         data := stepData
         screenshot := stepData.element.isSome && !stepData.automatic }] }

/-- The method `startRecording(sessionId)`. -/
def startRecording (page : Page) (sessionId : Option String) (r : Recorder) : Recorder :=
  recordStep page { type := "session_start", description := "Recording session started" }
    { r with isRecording := true, sessionId := sessionId, stepCounter := 0 }

/-- The method `stopRecording()`. -/
def stopRecording (r : Recorder) : Recorder :=
  { r with isRecording := false, sessionId := none }

/-- The test of `handleClick` for a target inside the recorder's own UI. -/
def insideOwnUi (doc : DomNode) (element : ElemRef) : Bool :=
  (closest doc (hasId "d365-recorder-overlay") element).isSome ||
  (closest doc (hasId "d365-recorder-indicator") element).isSome ||
  (closest doc (hasId "d365-recorder-note-dialog") element).isSome

/-- The method `handleClick(event)`; `target` is `event.target`. -/
def handleClick (page : Page) (target : ElemRef) (r : Recorder) : Recorder :=
  if !r.isRecording then r
  else if insideOwnUi page.doc target then r
  else
    recordStep page
      { type := "click"
        description := generateStepDescription page.doc "click" target
        element := some target
        elementInfo := some (getElementInfo page.doc target) } r

/-- The method `handleInput(event)`: the pending timeout is cleared and a new
one is set, due in 1000 ms. -/
def handleInput (page : Page) (target : ElemRef) (r : Recorder) : Recorder :=
  if !r.isRecording then r
  else
    { r with
      inputTimeout := some ⟨page.now + 1000, target, getElementInfo page.doc target⟩ }

/-- The callback of the timeout set by `handleInput`, run by the clock once
the timeout is due. -/
def inputTimeoutFires (page : Page) (r : Recorder) : Recorder :=
  match r.inputTimeout with
  | some pending =>
    if pending.due ≤ page.now then
      recordStep page
        { type := "input"
          description := generateStepDescription page.doc "input" pending.element
          element := some pending.element
          elementInfo := some pending.elementInfo
          value := RecordingManager.optStr (props (elem page.doc pending.element)).value }
        { r with inputTimeout := none }
    else r
  | none => r

/-- The method `handleChange(event)`. -/
def handleChange (page : Page) (target : ElemRef) (r : Recorder) : Recorder :=
  if !r.isRecording then r
  else
    recordStep page
      { type := "change"
        description := generateStepDescription page.doc "change" target
        element := some target
        elementInfo := some (getElementInfo page.doc target)
        value :=
          if (props (elem page.doc target)).type = some "checkbox" then
            JsVal.bool (props (elem page.doc target)).checked
          else RecordingManager.optStr (props (elem page.doc target)).value } r

/-- A page on which the recorder has put its overlay and its note dialog,
whose text area holds a note being typed. -/
def sampleDialogDoc : DomNode :=
  DomNode.element "HTML" [] {} [
    DomNode.element "HEAD" [] {} [],
    DomNode.element "BODY" [] {} [
      DomNode.element "INPUT" [("id", "vendorName")] { type := some "text", value := some "Contoso" } [],
      DomNode.element "DIV" [("id", "d365-recorder-overlay")] {} [],
      DomNode.element "DIV" [("id", "d365-recorder-note-dialog")] {} [
        DomNode.element "DIV" [] {} [
          DomNode.element "TEXTAREA" [("id", "noteText")]
            { type := some "textarea", value := some "Check the vendor" } [],
          DomNode.element "BUTTON" [("id", "addNote")] {} [DomNode.text "Add Note"]]]]]

/-- The text area of the note dialog of `sampleDialogDoc`. -/
def sampleNoteText : ElemRef := [0, 0, 2, 1]

/-- The page `sampleDialogDoc` at clock `now`. -/
def sampleDialogPage (now : Nat) : Page :=
  { doc := sampleDialogDoc, url := "https://d365.example/vendors", title := "Vendors", now := now }

/-- A recorder that started recording on `sampleDialogDoc` at time 0. -/
def sampleRecorder : Recorder :=
  startRecording (sampleDialogPage 0) (some "1000") fresh

end D365Recorder

/-! ## The structural-change watcher and the event loop of the content script -/

namespace D365Recorder

open Dom

/-- An attribute selector `[name="value"]`. -/
def hasAttributeValue (name value : String) (n : DomNode) : Bool :=
  isElement n && decide (getAttribute n name = some value)

/-- A type selector such as `h1`. -/
def isTag (name : String) (n : DomNode) : Bool :=
  isElement n && decide (toLowerCase (tagName n) = name)

/-- The array `significantSelectors` of `checkForSignificantChange`:
`[data-dyn-controlname]`, `.dyn-form`, `.dyn-dialog`, `[role="dialog"]`,
`.workspace-content`. -/
def significantSelectors : List (DomNode → Bool) :=
  [hasDynControlName, hasClass "dyn-form", hasClass "dyn-dialog",
   hasAttributeValue "role" "dialog", hasClass "workspace-content"]

/-- The array `titleSelectors` of `getFormTitle`. -/
def titleSelectors : List (DomNode → Bool) :=
  [hasClass "workspace-title", hasClass "form-caption", hasClass "dyn-form-caption",
   hasAttributeValue "data-dyn-role" "FormCaption", isTag "h1", isTag "h2", isTag "h3"]

/-- The method `getFormTitle(element)`. -/
def getFormTitle (doc : DomNode) (element : ElemRef) : String :=
  (titleSelectors.findSome? (fun selector =>
    match (match elementQuery doc element selector with
      | some inside => some inside
      | none => documentQuery doc selector) with
    | some titleElement =>
      if trim (textContent (elem doc titleElement)) ≠ "" then
        some (trim (textContent (elem doc titleElement)))
      else none
    | none => none)).getD "Unknown Form"

/-- The test of `checkForSignificantChange`: some selector of
`significantSelectors` matches the node itself. -/
def matchesSignificant (n : DomNode) : Bool :=
  significantSelectors.any (fun selector => selector n)

/-- The method `checkForSignificantChange(node)`. -/
def checkForSignificantChange (page : Page) (node : ElemRef) (r : Recorder) : Recorder :=
  if matchesSignificant (elem page.doc node) then
    recordStep page
      { type := "navigation"
        description := "Form loaded: " ++ getFormTitle page.doc node
        element := some node
        automatic := true } r
  else r

/-- The callback of the `MutationObserver`; `added` lists the added nodes of
all the `childList` records, in order. -/
def handleMutations (page : Page) (added : List ElemRef) (r : Recorder) : Recorder :=
  if !r.isRecording then r
  else
    added.foldl (fun acc node =>
      if isElement (elem page.doc node) then checkForSignificantChange page node acc
      else acc) r

/-- The method `addNoteToCurrentStep(noteText, targetElement)`. -/
def addNoteToCurrentStep (page : Page) (noteText : String) (targetElement : Option ElemRef)
    (r : Recorder) : Recorder :=
  recordStep page
    { type := "note"
      description := "User added note"
      note := some noteText
      element := targetElement
      manual := true } r

/-- What can happen to a recorder: the two messages, the three recorded DOM
events, the clock running the timeout callback, the mutation observer
reporting added nodes, and a note added from the note dialog. -/
inductive PageEvent where
  | startRecording (sessionId : Option String)
  | stopRecording
  | click (target : ElemRef)
  | input (target : ElemRef)
  | change (target : ElemRef)
  | timeout
  | nodesAdded (added : List ElemRef)
  | note (noteText : String) (targetElement : Option ElemRef)

/-- The recorder's reaction to an event on a page. -/
def react (page : Page) : PageEvent → Recorder → Recorder
  | PageEvent.startRecording sessionId, r => startRecording page sessionId r
  | PageEvent.stopRecording, r => stopRecording r
  | PageEvent.click target, r => handleClick page target r
  | PageEvent.input target, r => handleInput page target r
  | PageEvent.change target, r => handleChange page target r
  | PageEvent.timeout, r => inputTimeoutFires page r
  | PageEvent.nodesAdded added, r => handleMutations page added r
  | PageEvent.note noteText targetElement, r => addNoteToCurrentStep page noteText targetElement r

/-- A run of events, each on the page as it is when the event is handled. -/
def run (events : List (Page × PageEvent)) (r : Recorder) : Recorder :=
  events.foldl (fun acc event => react event.1 event.2 acc) r

/-- Whether the event is a start of recording. -/
def isStart : PageEvent → Bool
  | PageEvent.startRecording _ => true
  | _ => false

/-- A run of `input` events; before each of them the clock has run the
timeout callback if the timeout was due. -/
def typing : List (Page × ElemRef) → Recorder → Recorder
  | [], r => r
  | (page, target) :: rest, r =>
    typing rest (handleInput page target (inputTimeoutFires page r))

/-- The number written by a string of decimal digits. -/
def decimalValue (digits : List Char) : Nat :=
  digits.foldl (fun acc c => acc * 10 + (c.toNat - 48)) 0

/-- The steps recorded after `base` carry the numbers 1, 2, ... of the step
counter, in order, and the ids `step_1`, `step_2`, ... -/
def NumberedFrom (base : List Step) (r : Recorder) : Prop :=
  ∃ recorded : List Step, r.saved = base ++ recorded ∧ recorded.length = r.stepCounter ∧
    ∀ (i : Nat) (step : Step), recorded[i]? = some step →
      step.stepNumber = i + 1 ∧ step.id = "step_" ++ toString (i + 1)

/-- Two input events follow each other less than 1000 ms apart. -/
def closeInTime (a b : Page × ElemRef) : Prop :=
  a.1.now ≤ b.1.now ∧ b.1.now < a.1.now + 1000

/-- A page with two fields. -/
def sampleFieldsDoc : DomNode :=
  DomNode.element "HTML" [] {} [
    DomNode.element "HEAD" [] {} [],
    DomNode.element "BODY" [] {} [
      DomNode.element "INPUT" [("id", "vendorName"), ("aria-label", "Vendor name")]
        { type := some "text", value := some "Contoso" } [],
      DomNode.element "INPUT" [("id", "vendorCity"), ("aria-label", "City")]
        { type := some "text", value := some "Oslo" } []]]

/-- The first field of `sampleFieldsDoc`. -/
def sampleFieldA : ElemRef := [0, 1]

/-- The second field of `sampleFieldsDoc`. -/
def sampleFieldB : ElemRef := [1, 1]

/-- The page `sampleFieldsDoc` at clock `now`. -/
def sampleFieldsPage (now : Nat) : Page :=
  { doc := sampleFieldsDoc, url := "https://d365.example/vendors", title := "Vendors", now := now }

/-- A recorder that started recording on `sampleFieldsDoc` at time 0. -/
def sampleTypingRecorder : Recorder :=
  startRecording (sampleFieldsPage 0) (some "1000") fresh

/-- A page into which two subtrees were inserted: a plain wrapper `div` that
holds a `.dyn-form` with a caption, and a `div` that is itself a dialog. -/
def sampleInsertedDoc : DomNode :=
  DomNode.element "HTML" [] {} [
    DomNode.element "HEAD" [] {} [],
    DomNode.element "BODY" [] {} [
      DomNode.element "DIV" [("class", "wrapper")] {} [
        DomNode.element "DIV" [("class", "dyn-form")] {} [
          DomNode.element "SPAN" [("class", "form-caption")] {} [DomNode.text " Vendors "]]],
      DomNode.element "DIV" [("role", "dialog")] {} [
        DomNode.element "H2" [] {} [DomNode.text "Confirm"]]]]

/-- The inserted wrapper of `sampleInsertedDoc`. -/
def sampleWrapper : ElemRef := [0, 1]

/-- The inserted dialog of `sampleInsertedDoc`. -/
def sampleDialog : ElemRef := [1, 1]

/-- The page `sampleInsertedDoc` at clock `now`. -/
def sampleInsertedPage (now : Nat) : Page :=
  { doc := sampleInsertedDoc, url := "https://d365.example/vendors", title := "Vendors",
    now := now }

end D365Recorder

/-! ## Properties -/

namespace JsObj

theorem get_set_same (o : JsObj) (k : String) (v : JsVal) : get (set o k v) k = v := by
  induction o with
  | nil => simp [set, get, List.lookup]
  | cons p rest ih =>
    obtain ⟨k0, v0⟩ := p
    by_cases h : k0 = k
    · simp [set, h, get, List.lookup]
    · have h2 : (k == k0) = false := by
        simp only [beq_eq_false_iff_ne, ne_eq]
        exact fun e => h e.symm
      simp only [set, h, if_false, get, List.lookup, h2]
      exact ih

theorem get_set_other (o : JsObj) (k j : String) (v : JsVal) (h : k ≠ j) :
    get (set o k v) j = get o j := by
  induction o with
  | nil =>
    have h2 : (j == k) = false := by
      simp only [beq_eq_false_iff_ne, ne_eq]
      exact fun e => h e.symm
    simp [set, get, List.lookup, h2]
  | cons p rest ih =>
    obtain ⟨k0, v0⟩ := p
    by_cases h1 : k0 = k
    · subst h1
      have h2 : (j == k0) = false := by
        simp only [beq_eq_false_iff_ne, ne_eq]
        exact fun e => h e.symm
      simp [set, get, List.lookup, h2]
    · by_cases h3 : j = k0
      · subst h3
        simp [set, h1, get, List.lookup]
      · have h4 : (j == k0) = false := by
          simp only [beq_eq_false_iff_ne, ne_eq]
          exact h3
        simp only [set, h1, if_false, get, List.lookup, h4]
        exact ih

end JsObj

namespace RecordingManager

@[simp] theorem storeSession_sessions (env : Env) (t : TabId) (s : Session) (st : State) :
    (storeSession env t s st).sessions = st.sessions := by
  unfold storeSession; split <;> rfl

@[simp] theorem storeSession_active (env : Env) (t : TabId) (s : Session) (st : State) :
    (storeSession env t s st).active = st.active := by
  unfold storeSession; split <;> rfl

@[simp] theorem clearStoredSession_sessions (env : Env) (t : TabId) (st : State) :
    (clearStoredSession env t st).sessions = st.sessions := by
  unfold clearStoredSession; split <;> rfl

@[simp] theorem clearStoredSession_active (env : Env) (t : TabId) (st : State) :
    (clearStoredSession env t st).active = st.active := by
  unfold clearStoredSession; split <;> rfl

theorem stopRecording_not_active (env : Env) (t : TabId) (st : State)
    (h : ∃ s, st.sessions.lookup t = some s) (ht : tabIdFalsy t = false) :
    t ∉ (stopRecording env t st).active := by
  obtain ⟨s, hs⟩ := h
  simp [stopRecording, ht, hs]

theorem saveStep_of_not_active (env : Env) (step : Option JsObj) (t : TabId) (st : State)
    (h : t ∉ st.active) : saveStep env step t st = st := by
  unfold saveStep
  split
  · rfl
  · split
    · rfl
    · split
      · simp [h]
      · rfl

theorem saveStep_of_no_session (env : Env) (step : Option JsObj) (t : TabId) (st : State)
    (h : st.sessions.lookup t = none) : saveStep env step t st = st := by
  unfold saveStep
  split
  · rfl
  · split
    · rfl
    · simp [h]

end RecordingManager

namespace RecordingManager

theorem alist_erase_of_lookup_none {β : Type} (m : AList (fun _ : TabId => β)) (k : TabId)
    (h : m.lookup k = none) : m.erase k = m := by
  apply AList.ext
  exact List.kerase_of_not_mem_keys (AList.lookup_eq_none.mp h)

theorem alist_erase_erase_self {β : Type} (m : AList (fun _ : TabId => β)) (k : TabId) :
    (m.erase k).erase k = m.erase k :=
  alist_erase_of_lookup_none _ _ (AList.lookup_erase k m)

theorem handleTabRemoved_twice (env env2 : Env) (t : TabId) (st : State)
    (hok : env.storeOk = true) :
    handleTabRemoved env2 t (handleTabRemoved env t st) = handleTabRemoved env t st := by
  cases h2 : env2.storeOk <;>
    simp [handleTabRemoved, clearStoredSession, hok, h2, alist_erase_erase_self]

theorem handleTabRemoved_absent (env : Env) (t : TabId) (st : State)
    (h1 : st.sessions.lookup t = none) (h2 : t ∉ st.active)
    (h3 : st.store.sessions.lookup t = none) (h4 : st.store.recording.lookup t = none) :
    handleTabRemoved env t st = st := by
  cases h : env.storeOk <;>
    simp [handleTabRemoved, clearStoredSession, h, alist_erase_of_lookup_none, h1, h2, h3, h4,
      Finset.erase_eq_of_not_mem]

theorem saveStep_accept (env : Env) (step : JsObj) (t : TabId) (st : State) (s : Session)
    (ht : tabIdFalsy t = false) (hs : st.sessions.lookup t = some s) (ha : t ∈ st.active)
    (hlt : s.steps.length + 1 < maxSteps) :
    saveStep env (some step) t st =
      storeSession env t { s with steps := s.steps ++ [enhanceStep env s step] }
        { st with sessions :=
            st.sessions.insert t { s with steps := s.steps ++ [enhanceStep env s step] } } := by
  have h : ¬ (maxSteps ≤ s.steps.length + 1) := Nat.not_le.mpr hlt
  simp [saveStep, ht, hs, ha, h]

theorem saveStep_accept_lookup (env : Env) (step : JsObj) (t : TabId) (st : State) (s : Session)
    (ht : tabIdFalsy t = false) (hs : st.sessions.lookup t = some s) (ha : t ∈ st.active)
    (hlt : s.steps.length + 1 < maxSteps) :
    (saveStep env (some step) t st).sessions.lookup t =
        some { s with steps := s.steps ++ [enhanceStep env s step] } ∧
      t ∈ (saveStep env (some step) t st).active := by
  rw [saveStep_accept env step t st s ht hs ha hlt]
  simp [ha]

theorem startRecording_lookup (env : Env) (message : Message) (t : TabId) (st : State)
    (ht : tabIdFalsy t = false) :
    (startRecording env message t st).sessions.lookup t = some (newSession env message) ∧
      t ∈ (startRecording env message t st).active := by
  simp [startRecording, ht]

theorem stepNumber_enhanceStep (env : Env) (s : Session) (step : JsObj) :
    JsObj.get (enhanceStep env s step) "stepNumber" = JsVal.num ((s.steps.length : Int) + 1) := by
  unfold enhanceStep
  exact JsObj.get_set_same _ _ _

/-- C2: `saveStep` on a tab that is not in the active set (never started,
already stopped, or cleared) returns the state it was given: sessions map,
active set and durable store are unchanged. In particular `saveStep` right
after `stopRecording`, or right after a clear of the tab, changes nothing. -/
theorem saveStep_without_active_recording_is_noop (env env1 : Env) (step : Option JsObj)
    (tabId : TabId) (st : State) :
    (tabId ∉ st.active → saveStep env step tabId st = st) ∧
    saveStep env step tabId (stopRecording env1 tabId st) = stopRecording env1 tabId st ∧
    saveStep env step tabId (clearRecording env1 tabId st) = clearRecording env1 tabId st ∧
    saveStep env step tabId (handleTabRemoved env1 tabId st) = handleTabRemoved env1 tabId st := by
  refine ⟨saveStep_of_not_active env step tabId st, ?_, ?_, ?_⟩
  · cases ht : tabIdFalsy tabId
    · cases hs : st.sessions.lookup tabId with
      | none =>
        have : stopRecording env1 tabId st = st := by simp [stopRecording, ht, hs]
        rw [this]
        exact saveStep_of_no_session env step tabId st hs
      | some s =>
        exact saveStep_of_not_active env step tabId _
          (stopRecording_not_active env1 tabId st ⟨s, hs⟩ ht)
    · simp [saveStep, ht]
  · apply saveStep_of_not_active
    simp [clearRecording]
  · apply saveStep_of_not_active
    simp [handleTabRemoved]

/-- C6 (as the code behaves): a `stopRecording` request is always answered
with `{ success: true }`, and when the sender's tab has no session in memory
the state is left as it was. -/
theorem stopRecording_request_always_succeeds (env : Env) (message : Message)
    (sender : TabId) (st : State) (haction : message.action = "stopRecording") :
    (handleMessage env message sender st).2 = Response.ok ∧
    (st.sessions.lookup sender = none → (handleMessage env message sender st).1 = st) := by
  constructor
  · simp [handleMessage, haction]
  · intro hs
    cases ht : tabIdFalsy sender <;> simp [handleMessage, haction, stopRecording, ht, hs]

end RecordingManager

namespace RecordingManager

theorem stopRecording_eq (env : Env) (t : TabId) (st : State) (s : Session)
    (ht : tabIdFalsy t = false) (hs : st.sessions.lookup t = some s) :
    stopRecording env t st =
      storeSession env t (stoppedAt env.now s)
        { st with sessions := st.sessions.insert t (stoppedAt env.now s),
                  active := st.active.erase t } := by
  simp [stopRecording, ht, hs, stoppedAt]

/-- C5: for a tab with a session in memory, `stopRecording` at time `now`
sets `endTime` to `now` and `duration` to `now - startTime`, keeps every other
field (the steps among them), removes the tab from the active set and, the
write succeeding, stores the stopped session with the recording flag false.
A session started at `T0`, given four steps and stopped at `T0 + 300000` has
four steps numbered 1 to 4 and duration 300000. -/
theorem stopRecording_sets_endTime_and_duration (env : Env) (tabId : TabId) (st : State)
    (session : Session) (htab : tabIdFalsy tabId = false)
    (hsession : st.sessions.lookup tabId = some session) :
    (stopRecording env tabId st).sessions.lookup tabId =
      some { session with
              endTime := some env.now
              duration := some ((env.now : Int) - (session.startTime : Int)) } ∧
    tabId ∉ (stopRecording env tabId st).active ∧
    (env.storeOk = true →
      (stopRecording env tabId st).store.sessions.lookup tabId =
        some { session with
                endTime := some env.now
                duration := some ((env.now : Int) - (session.startTime : Int)) } ∧
      (stopRecording env tabId st).store.recording.lookup tabId = some false) ∧
    (∀ (start e1 e2 e3 e4 : Env) (message : Message) (c1 c2 c3 c4 : JsObj) (st0 : State),
      env.now = start.now + 300000 →
      st = saveStep e4 (some c4) tabId (saveStep e3 (some c3) tabId
            (saveStep e2 (some c2) tabId (saveStep e1 (some c1) tabId
              (startRecording start message tabId st0)))) →
      ∃ stopped, (stopRecording env tabId st).sessions.lookup tabId = some stopped ∧
        stopped.steps.length = 4 ∧
        stopped.steps.map (fun step => JsObj.get step "stepNumber") =
          [JsVal.num 1, JsVal.num 2, JsVal.num 3, JsVal.num 4] ∧
        stopped.duration = some 300000) := by
  rw [stopRecording_eq env tabId st session htab hsession]
  refine ⟨by simp [stoppedAt], by simp, ?_, ?_⟩
  · intro hok
    simp [storeSession, hok, stoppedAt]
  · intro start e1 e2 e3 e4 message c1 c2 c3 c4 st0 hnow hst
    obtain ⟨h0, a0⟩ := startRecording_lookup start message tabId st0 htab
    obtain ⟨h1, a1⟩ := saveStep_accept_lookup e1 c1 tabId _ _ htab h0 a0
      (by simp [newSession, maxSteps])
    obtain ⟨h2, a2⟩ := saveStep_accept_lookup e2 c2 tabId _ _ htab h1 a1
      (by simp [newSession, maxSteps])
    obtain ⟨h3, a3⟩ := saveStep_accept_lookup e3 c3 tabId _ _ htab h2 a2
      (by simp [newSession, maxSteps])
    obtain ⟨h4, _⟩ := saveStep_accept_lookup e4 c4 tabId _ _ htab h3 a3
      (by simp [newSession, maxSteps])
    rw [← hst, hsession] at h4
    have hs := Option.some.inj h4
    refine ⟨stoppedAt env.now session, by simp, ?_, ?_, ?_⟩
    · simp [stoppedAt, hs, newSession]
    · simp [stoppedAt, hs, stepNumber_enhanceStep, newSession]
    · simp [stoppedAt, hs, hnow, newSession]

/-- C7: for a truthy tab id and any prior state, the `startRecording` request
is answered with success; afterwards the tab maps to the session built from
the message alone (no steps, no `endTime`, the default settings), whatever
session the tab had before; the tab is in the active set and, the write
succeeding, the store holds that session with the recording flag true. -/
theorem startRecording_installs_fresh_session (env : Env) (message : Message) (tabId : TabId)
    (st : State) (htab : tabIdFalsy tabId = false)
    (haction : message.action = "startRecording") :
    handleMessage env message tabId st = (startRecording env message tabId st, Response.ok) ∧
    (startRecording env message tabId st).sessions.lookup tabId =
      some (newSession env message) ∧
    (newSession env message).steps = [] ∧
    (newSession env message).endTime = none ∧
    (newSession env message).settings =
      [("captureScreenshots", JsVal.bool true), ("captureClicks", JsVal.bool true),
       ("captureKeystrokes", JsVal.bool true), ("captureNavigation", JsVal.bool true),
       ("autoAnnotate", JsVal.bool false)] ∧
    tabId ∈ (startRecording env message tabId st).active ∧
    (env.storeOk = true →
      (startRecording env message tabId st).store.sessions.lookup tabId =
        some (newSession env message) ∧
      (startRecording env message tabId st).store.recording.lookup tabId = some true) := by
  refine ⟨by simp [handleMessage, haction], ?_, rfl, rfl, rfl, ?_, ?_⟩
  · exact (startRecording_lookup env message tabId st htab).1
  · exact (startRecording_lookup env message tabId st htab).2
  · intro hok
    simp [startRecording, htab, storeSession, hok]

/-- C8: `getSessionData` is a read-through lookup. With a session in memory
it returns that session, `isRecording` as membership in the active set and
`stepCount` as the number of steps, and changes nothing. Without one, when
the store read succeeds and holds `session_<tabId>`, it returns the stored
session and puts it into the in-memory map, touching nothing else. Without
either (or when the read is rejected) it returns `null` and changes nothing. -/
theorem getSessionData_read_through (env : Env) (tabId : TabId) (st : State) :
    (∀ session, st.sessions.lookup tabId = some session →
      getSessionData env tabId st =
        (st, some { session := session
                    isRecording := decide (tabId ∈ st.active)
                    stepCount := session.steps.length })) ∧
    (∀ stored, st.sessions.lookup tabId = none → env.storeOk = true →
      st.store.sessions.lookup tabId = some stored →
      (getSessionData env tabId st).2 =
          some { session := stored, isRecording := false, stepCount := stored.steps.length } ∧
        (getSessionData env tabId st).1.sessions.lookup tabId = some stored ∧
        (∀ other, other ≠ tabId →
          (getSessionData env tabId st).1.sessions.lookup other = st.sessions.lookup other) ∧
        (getSessionData env tabId st).1.active = st.active ∧
        (getSessionData env tabId st).1.store = st.store) ∧
    (st.sessions.lookup tabId = none →
      (env.storeOk = true → st.store.sessions.lookup tabId = none) →
      getSessionData env tabId st = (st, none)) := by
  refine ⟨?_, ?_, ?_⟩
  · intro session hs
    simp [getSessionData, hs]
  · intro stored hs hok hstored
    have heq : getSessionData env tabId st =
        ({ st with sessions := st.sessions.insert tabId stored },
          some { session := stored, isRecording := false, stepCount := stored.steps.length }) := by
      simp [getSessionData, hs, loadStoredSession, hok, hstored]
    rw [heq]
    refine ⟨rfl, by simp, ?_, rfl, rfl⟩
    intro other hne
    simp [AList.lookup_insert_ne hne]
  · intro hs hnone
    cases hok : env.storeOk
    · simp [getSessionData, hs, loadStoredSession, hok]
    · simp [getSessionData, hs, loadStoredSession, hok, hnone hok]

/-- C9: the `clearRecording` request and tab removal do the same thing: the
tab's session leaves the in-memory map, the tab leaves the active set and,
the removal from the store succeeding, both `session_<tabId>` and
`recording_<tabId>` leave the store. Clearing again (by either path) changes
nothing further, and clearing a tab that has none of these entries leaves the
state as it was. -/
theorem clear_removes_everything_and_is_idempotent (env env2 : Env) (message : Message)
    (tabId : TabId) (st : State) (haction : message.action = "clearRecording")
    (hok : env.storeOk = true) :
    (handleMessage env message tabId st).1 = handleTabRemoved env tabId st ∧
    (handleTabRemoved env tabId st).sessions.lookup tabId = none ∧
    tabId ∉ (handleTabRemoved env tabId st).active ∧
    (handleTabRemoved env tabId st).store.sessions.lookup tabId = none ∧
    (handleTabRemoved env tabId st).store.recording.lookup tabId = none ∧
    (handleMessage env2 message tabId (handleMessage env message tabId st).1).1 =
      (handleMessage env message tabId st).1 ∧
    handleTabRemoved env2 tabId (handleTabRemoved env tabId st) = handleTabRemoved env tabId st ∧
    (st.sessions.lookup tabId = none → tabId ∉ st.active →
      st.store.sessions.lookup tabId = none → st.store.recording.lookup tabId = none →
      (handleMessage env message tabId st).1 = st ∧ handleTabRemoved env tabId st = st) := by
  have hmsg : ∀ (e : Env) (s : State),
      (handleMessage e message tabId s).1 = handleTabRemoved e tabId s := by
    intro e s
    simp [handleMessage, haction, clearRecording, handleTabRemoved]
  refine ⟨hmsg env st, ?_, ?_, ?_, ?_, ?_, handleTabRemoved_twice env env2 tabId st hok, ?_⟩
  · simp [handleTabRemoved]
  · simp [handleTabRemoved]
  · simp [handleTabRemoved, clearStoredSession, hok]
  · simp [handleTabRemoved, clearStoredSession, hok]
  · rw [hmsg env st, hmsg env2]
    exact handleTabRemoved_twice env env2 tabId st hok
  · intro h1 h2 h3 h4
    rw [hmsg env st]
    exact ⟨handleTabRemoved_absent env tabId st h1 h2 h3 h4,
      handleTabRemoved_absent env tabId st h1 h2 h3 h4⟩

end RecordingManager

namespace RecordingManager

theorem saveStep_none (env : Env) (t : TabId) (st : State) : saveStep env none t st = st := by
  unfold saveStep
  split <;> rfl

theorem saveSteps_of_not_active (calls : List (Env × Option JsObj)) (t : TabId) (st : State)
    (h : t ∉ st.active) : saveSteps calls t st = st := by
  induction calls with
  | nil => rfl
  | cons call rest ih =>
    simp only [saveSteps, List.foldl_cons]
    rw [saveStep_of_not_active call.1 call.2 t st h]
    exact ih

theorem saveStep_cap (env : Env) (step : JsObj) (t : TabId) (st : State) (s : Session)
    (ht : tabIdFalsy t = false) (hs : st.sessions.lookup t = some s) (ha : t ∈ st.active)
    (hlen : maxSteps ≤ s.steps.length + 1) :
    (saveStep env (some step) t st).sessions.lookup t =
        some (stoppedAt env.later { s with steps := s.steps ++ [enhanceStep env s step] }) ∧
      t ∉ (saveStep env (some step) t st).active := by
  have h1 : saveStep env (some step) t st =
      stopRecording { env with now := env.later } t
        (storeSession env t { s with steps := s.steps ++ [enhanceStep env s step] }
          { st with sessions :=
              st.sessions.insert t { s with steps := s.steps ++ [enhanceStep env s step] } }) := by
    simp [saveStep, ht, hs, ha, hlen]
  rw [h1, stopRecording_eq _ t _ { s with steps := s.steps ++ [enhanceStep env s step] } ht
    (by simp)]
  simp

theorem numbered_nil : Numbered [] := by
  intro i step h
  simp at h

theorem numbered_push (env : Env) (s : Session) (step : JsObj) (h : Numbered s.steps) :
    Numbered (s.steps ++ [enhanceStep env s step]) := by
  intro i x hx
  rcases Nat.lt_trichotomy i s.steps.length with hlt | heq | hgt
  · rw [List.getElem?_append_left hlt] at hx
    exact h i x hx
  · subst heq
    simp at hx
    subst hx
    exact stepNumber_enhanceStep env s step
  · rw [List.getElem?_eq_none (by simp; omega)] at hx
    cases hx

theorem saveSteps_numbered (calls : List (Env × Option JsObj)) (t : TabId)
    (ht : tabIdFalsy t = false) :
    ∀ (st : State) (s : Session), st.sessions.lookup t = some s → Numbered s.steps →
      (t ∈ st.active → s.steps.length < maxSteps) →
      (t ∉ st.active → s.steps.length = maxSteps) →
      ∃ s2, (saveSteps calls t st).sessions.lookup t = some s2 ∧ Numbered s2.steps ∧
        s2.steps.length =
          min (s.steps.length + (calls.filter (fun call => call.2.isSome)).length) maxSteps := by
  induction calls with
  | nil =>
    intro st s hs hn ha hna
    refine ⟨s, hs, hn, ?_⟩
    by_cases h : t ∈ st.active
    · have := ha h
      simp; omega
    · have := hna h
      simp; omega
  | cons call rest ih =>
    intro st s hs hn ha hna
    obtain ⟨env, step⟩ := call
    simp only [saveSteps, List.foldl_cons]
    cases step with
    | none =>
      rw [saveStep_none]
      obtain ⟨s2, h1, h2, h3⟩ := ih st s hs hn ha hna
      exact ⟨s2, h1, h2, by simpa [List.filter] using h3⟩
    | some c =>
      by_cases hact : t ∈ st.active
      · have hlt := ha hact
        by_cases hcap : s.steps.length + 1 < maxSteps
        · obtain ⟨h1, a1⟩ := saveStep_accept_lookup env c t st s ht hs hact hcap
          obtain ⟨s2, k1, k2, k3⟩ := ih _ _ h1 (numbered_push env s c hn)
            (fun _ => by simpa using hcap) (fun hna2 => absurd a1 hna2)
          refine ⟨s2, k1, k2, ?_⟩
          rw [k3]
          simp [List.filter]
          omega
        · have hge : maxSteps ≤ s.steps.length + 1 := Nat.le_of_not_lt hcap
          obtain ⟨h1, a1⟩ := saveStep_cap env c t st s ht hs hact hge
          obtain ⟨s2, k1, k2, k3⟩ := ih _ _ h1
            (by simpa [stoppedAt] using numbered_push env s c hn)
            (fun ha2 => absurd ha2 a1)
            (fun _ => by simp [stoppedAt]; omega)
          refine ⟨s2, k1, k2, ?_⟩
          rw [k3]
          simp [List.filter, stoppedAt]
          omega
      · have hlen := hna hact
        rw [saveStep_of_not_active env (some c) t st hact]
        obtain ⟨s2, k1, k2, k3⟩ := ih st s hs hn ha hna
        refine ⟨s2, k1, k2, ?_⟩
        rw [k3]
        simp [List.filter]
        omega

/-- C1: after `startRecording` on a tab, any run of `saveStep` calls on that
tab leaves a session whose steps are numbered 1, 2, ..., N in call order
(`steps[i].stepNumber = i + 1`), where N is the number of calls that carried
a step, up to the cap of 100 after which the tab no longer records. -/
theorem stepNumbers_are_one_to_n (env : Env) (message : Message) (tabId : TabId) (st : State)
    (calls : List (Env × Option JsObj)) (htab : tabIdFalsy tabId = false) :
    ∃ session,
      (saveSteps calls tabId (startRecording env message tabId st)).sessions.lookup tabId =
        some session ∧
      (∀ (i : Nat) (step : JsObj), session.steps[i]? = some step →
        JsObj.get step "stepNumber" = JsVal.num ((i : Int) + 1)) ∧
      session.steps.length = min (calls.filter (fun call => call.2.isSome)).length 100 := by
  obtain ⟨h0, a0⟩ := startRecording_lookup env message tabId st htab
  obtain ⟨s2, h1, h2, h3⟩ := saveSteps_numbered calls tabId htab _ _ h0
    (by simpa [newSession] using numbered_nil) (fun _ => by simp [newSession, maxSteps])
    (fun hna => absurd a0 hna)
  refine ⟨s2, h1, h2, ?_⟩
  rw [h3]
  simp [newSession, maxSteps]

/-- The step cap for `saveStep` calls that are handled one after the other,
each from its call to its return: on an actively recording tab whose session
has 99 steps, `saveStep` appends the step numbered 100 and stops the session
in the same call: the tab leaves the active set and `endTime` is set. Every
further run of such `saveStep` calls on the tab changes nothing, so the
session keeps its 100 steps. After a new `startRecording` on the tab a step
is accepted again and is numbered 1. -/
theorem hundredth_step_stops_recording (env : Env) (step : JsObj) (tabId : TabId) (st : State)
    (session : Session) (htab : tabIdFalsy tabId = false) (hactive : tabId ∈ st.active)
    (hsession : st.sessions.lookup tabId = some session) (hcount : session.steps.length = 99) :
    ∃ last,
      (saveStep env (some step) tabId st).sessions.lookup tabId = some last ∧
      last.steps = session.steps ++ [enhanceStep env session step] ∧
      JsObj.get (enhanceStep env session step) "stepNumber" = JsVal.num 100 ∧
      last.steps.length = 100 ∧
      last.endTime = some env.later ∧
      tabId ∉ (saveStep env (some step) tabId st).active ∧
      (∀ calls : List (Env × Option JsObj),
        saveSteps calls tabId (saveStep env (some step) tabId st) =
          saveStep env (some step) tabId st) ∧
      (∀ (env2 env3 : Env) (message : Message) (next : JsObj),
        ∃ fresh,
          (saveStep env3 (some next) tabId
            (startRecording env2 message tabId
              (saveStep env (some step) tabId st))).sessions.lookup tabId = some fresh ∧
          fresh.steps = [enhanceStep env3 (newSession env2 message) next] ∧
          fresh.steps.map (fun x => JsObj.get x "stepNumber") = [JsVal.num 1] ∧
          tabId ∈ (saveStep env3 (some next) tabId
            (startRecording env2 message tabId
              (saveStep env (some step) tabId st))).active) := by
  obtain ⟨h1, a1⟩ := saveStep_cap env step tabId st session htab hsession hactive
    (by simp [maxSteps, hcount])
  refine ⟨_, h1, by simp [stoppedAt], ?_, by simp [stoppedAt, hcount], by simp [stoppedAt], a1,
    fun calls => saveSteps_of_not_active calls tabId _ a1, ?_⟩
  · rw [stepNumber_enhanceStep, hcount]
    rfl
  · intro env2 env3 message next
    obtain ⟨h0, a0⟩ := startRecording_lookup env2 message tabId
      (saveStep env (some step) tabId st) htab
    obtain ⟨h2, a2⟩ := saveStep_accept_lookup env3 next tabId _ _ htab h0 a0
      (by simp [newSession, maxSteps])
    refine ⟨_, h2, by simp [newSession], ?_, a2⟩
    simp [stepNumber_enhanceStep, newSession]

end RecordingManager

namespace RecordingManager

theorem sweeps_cons (env : Env) (e : (_ : TabId) × Session)
    (rest : List ((_ : TabId) × Session)) (t : TabId) :
    sweeps env (e :: rest) t = ((decide (e.1 = t) && expired env e.2) || sweeps env rest t) := by
  simp [sweeps]

theorem foldl_cleanup_sessions (env : Env) (t : TabId)
    (l : List ((_ : TabId) × Session)) :
    ∀ acc : State, (l.foldl (cleanupEntry env) acc).sessions.lookup t =
      if sweeps env l t then none else acc.sessions.lookup t := by
  induction l with
  | nil => intro acc; simp [sweeps]
  | cons e rest ih =>
    intro acc
    rw [List.foldl_cons, ih, sweeps_cons]
    cases hr : sweeps env rest t
    · cases he : expired env e.2
      · simp [cleanupEntry, he]
      · by_cases hk : e.1 = t
        · subst hk
          simp [cleanupEntry, he]
        · have hk2 : t ≠ e.1 := fun h => hk h.symm
          simp [cleanupEntry, he, hk, AList.lookup_erase_ne hk2]
    · simp

theorem foldl_cleanup_active (env : Env) (t : TabId)
    (l : List ((_ : TabId) × Session)) :
    ∀ acc : State, t ∈ (l.foldl (cleanupEntry env) acc).active ↔
      (sweeps env l t = false ∧ t ∈ acc.active) := by
  induction l with
  | nil => intro acc; simp [sweeps]
  | cons e rest ih =>
    intro acc
    rw [List.foldl_cons, ih, sweeps_cons]
    cases hr : sweeps env rest t
    · cases he : expired env e.2
      · simp [cleanupEntry, he]
      · by_cases hk : e.1 = t
        · subst hk
          simp [cleanupEntry, he]
        · have hk2 : t ≠ e.1 := fun h => hk h.symm
          simp [cleanupEntry, he, hk, hk2]
    · simp

theorem foldl_cleanup_store_sessions (env : Env) (t : TabId) (hok : env.storeOk = true)
    (l : List ((_ : TabId) × Session)) :
    ∀ acc : State, (l.foldl (cleanupEntry env) acc).store.sessions.lookup t =
      if sweeps env l t then none else acc.store.sessions.lookup t := by
  induction l with
  | nil => intro acc; simp [sweeps]
  | cons e rest ih =>
    intro acc
    rw [List.foldl_cons, ih, sweeps_cons]
    cases hr : sweeps env rest t
    · cases he : expired env e.2
      · simp [cleanupEntry, he]
      · by_cases hk : e.1 = t
        · subst hk
          simp [cleanupEntry, he, clearStoredSession, hok]
        · have hk2 : t ≠ e.1 := fun h => hk h.symm
          simp [cleanupEntry, he, hk, clearStoredSession, hok, AList.lookup_erase_ne hk2]
    · simp

theorem sweeps_entries_iff (env : Env) (m : AList (fun _ : TabId => Session)) (t : TabId) :
    sweeps env m.entries t = true ↔ ∃ s, m.lookup t = some s ∧ expired env s = true := by
  simp only [sweeps, List.any_eq_true, Bool.and_eq_true, decide_eq_true_eq]
  constructor
  · rintro ⟨⟨k, s⟩, hmem, hk, he⟩
    simp only at hk he
    subst hk
    exact ⟨s, AList.mem_lookup_iff.mpr hmem, he⟩
  · rintro ⟨s, hs, he⟩
    exact ⟨⟨t, s⟩, AList.mem_lookup_iff.mp hs, rfl, he⟩

theorem foldl_erase_lookup (t : TabId) (keys : List TabId) :
    ∀ m : AList (fun _ : TabId => Session),
      (keys.foldl (fun acc key => acc.erase key) m).lookup t =
        if t ∈ keys then none else m.lookup t := by
  induction keys with
  | nil => intro m; simp
  | cons k rest ih =>
    intro m
    rw [List.foldl_cons, ih]
    by_cases hr : t ∈ rest
    · simp [hr]
    · by_cases hk : t = k
      · subst hk
        simp [hr]
      · simp [hr, hk, AList.lookup_erase_ne hk]

theorem mem_keysToRemove_iff (env : Env) (store : Store) (t : TabId) :
    t ∈ keysToRemove env store ↔
      ∃ s, store.sessions.lookup t = some s ∧ expired env s = true := by
  simp only [keysToRemove, List.mem_map, List.mem_filter]
  constructor
  · rintro ⟨⟨k, s⟩, ⟨hmem, he⟩, hk⟩
    simp only at hk he
    subst hk
    exact ⟨s, AList.mem_lookup_iff.mpr hmem, he⟩
  · rintro ⟨s, hs, he⟩
    exact ⟨⟨t, s⟩, ⟨AList.mem_lookup_iff.mp hs, he⟩, rfl⟩

/-- The in-memory map after `cleanupOldData`, entry by entry. -/
theorem cleanupOldData_sessions (env : Env) (st : State) (t : TabId) :
    (cleanupOldData env st).sessions.lookup t =
      (st.sessions.lookup t).filter (fun s => !expired env s) := by
  have h1 : (cleanupOldData env st).sessions =
      (st.sessions.entries.foldl (cleanupEntry env) st).sessions := by
    unfold cleanupOldData
    simp only
    split
    · split <;> rfl
    · rfl
  rw [h1, foldl_cleanup_sessions]
  cases hs : st.sessions.lookup t with
  | none => simp
  | some s =>
    cases he : expired env s
    · have : sweeps env st.sessions.entries t = false := by
        rw [Bool.eq_false_iff]
        intro h
        obtain ⟨s2, h2, h3⟩ := (sweeps_entries_iff env st.sessions t).mp h
        rw [hs] at h2
        cases h2
        rw [he] at h3
        cases h3
      simp [this, Option.filter, he]
    · have : sweeps env st.sessions.entries t = true :=
        (sweeps_entries_iff env st.sessions t).mpr ⟨s, hs, he⟩
      simp [this, Option.filter, he]

/-- The active set after `cleanupOldData`. -/
theorem cleanupOldData_active (env : Env) (st : State) (t : TabId) :
    t ∈ (cleanupOldData env st).active ↔
      (t ∈ st.active ∧ ∀ s, st.sessions.lookup t = some s → expired env s = false) := by
  have h1 : (cleanupOldData env st).active =
      (st.sessions.entries.foldl (cleanupEntry env) st).active := by
    unfold cleanupOldData
    simp only
    split
    · split <;> rfl
    · rfl
  rw [h1, foldl_cleanup_active, Bool.eq_false_iff, Ne, sweeps_entries_iff]
  constructor
  · rintro ⟨h, ha⟩
    refine ⟨ha, fun s hs => ?_⟩
    cases he : expired env s
    · rfl
    · exact absurd ⟨s, hs, he⟩ h
  · rintro ⟨ha, h⟩
    refine ⟨?_, ha⟩
    rintro ⟨s, hs, he⟩
    rw [h s hs] at he
    cases he

/-- The stored sessions after `cleanupOldData` with a store that answers. -/
theorem cleanupOldData_store_sessions (env : Env) (st : State) (t : TabId)
    (hok : env.storeOk = true) :
    (cleanupOldData env st).store.sessions.lookup t =
      if (∃ s, st.sessions.lookup t = some s ∧ expired env s = true) then none
      else (st.store.sessions.lookup t).filter (fun s => !expired env s) := by
  have h1 : (cleanupOldData env st).store.sessions.lookup t =
      if t ∈ keysToRemove env (st.sessions.entries.foldl (cleanupEntry env) st).store then none
      else (st.sessions.entries.foldl (cleanupEntry env) st).store.sessions.lookup t := by
    unfold cleanupOldData
    simp only [hok, if_true]
    split
    · simp only
      rw [foldl_erase_lookup]
    · rename_i hlen
      have hnil : keysToRemove env (st.sessions.entries.foldl (cleanupEntry env) st).store = [] := by
        cases h : keysToRemove env (st.sessions.entries.foldl (cleanupEntry env) st).store with
        | nil => rfl
        | cons a b => rw [h] at hlen; simp at hlen
      rw [hnil]
      simp
  rw [h1]
  have hstore := foldl_cleanup_store_sessions env t hok st.sessions.entries st
  by_cases hsw : sweeps env st.sessions.entries t = true
  · have hex := (sweeps_entries_iff env st.sessions t).mp hsw
    rw [hsw] at hstore
    have hk : t ∉ keysToRemove env (st.sessions.entries.foldl (cleanupEntry env) st).store := by
      rw [mem_keysToRemove_iff]
      rintro ⟨s, hs, _⟩
      rw [hstore] at hs
      cases hs
    rw [if_neg hk, if_pos hex, hstore]
    rfl
  · have hex : ¬ ∃ s, st.sessions.lookup t = some s ∧ expired env s = true :=
      fun h => hsw ((sweeps_entries_iff env st.sessions t).mpr h)
    simp only [Bool.not_eq_true] at hsw
    rw [hsw] at hstore
    simp only [Bool.false_eq_true, if_false] at hstore
    rw [if_neg hex]
    cases hs : st.store.sessions.lookup t with
    | none =>
      rw [hs] at hstore
      have hk : t ∉ keysToRemove env (st.sessions.entries.foldl (cleanupEntry env) st).store := by
        rw [mem_keysToRemove_iff]
        rintro ⟨s, hs2, _⟩
        rw [hstore] at hs2
        cases hs2
      rw [if_neg hk, hstore]
      rfl
    | some s =>
      rw [hs] at hstore
      cases he : expired env s
      · have hk : t ∉ keysToRemove env (st.sessions.entries.foldl (cleanupEntry env) st).store := by
          rw [mem_keysToRemove_iff]
          rintro ⟨s2, hs2, he2⟩
          rw [hstore] at hs2
          cases hs2
          rw [he] at he2
          cases he2
        rw [if_neg hk, hstore]
        simp [Option.filter, he]
      · have hk : t ∈ keysToRemove env (st.sessions.entries.foldl (cleanupEntry env) st).store :=
          (mem_keysToRemove_iff env _ t).mpr ⟨s, hstore, he⟩
        rw [if_pos hk]
        simp [Option.filter, he]

end RecordingManager

namespace RecordingManager

/-! ### Invariants of the reachable states -/

theorem activeOpen_startRecording (env : Env) (message : Message) (t : TabId) (st : State)
    (h : ActiveOpen st) : ActiveOpen (startRecording env message t st) := by
  unfold startRecording
  split
  · exact h
  · intro u hu
    simp only [storeSession_active, Finset.mem_insert] at hu
    simp only [storeSession_sessions]
    by_cases hut : u = t
    · subst hut
      exact ⟨newSession env message, by simp, rfl⟩
    · rcases hu with hu | hu
      · exact absurd hu hut
      · obtain ⟨s, hs, he⟩ := h u hu
        exact ⟨s, by simp [AList.lookup_insert_ne hut, hs], he⟩

theorem activeOpen_stopRecording (env : Env) (t : TabId) (st : State)
    (h : ActiveOpen st) : ActiveOpen (stopRecording env t st) := by
  unfold stopRecording
  split
  · exact h
  · split
    · intro u hu
      simp only [storeSession_active, Finset.mem_erase] at hu
      simp only [storeSession_sessions]
      obtain ⟨s, hs, he⟩ := h u hu.2
      exact ⟨s, by simp [AList.lookup_insert_ne hu.1, hs], he⟩
    · exact h

theorem activeOpen_replace (t : TabId) (st : State) (s s2 : Session)
    (hs : st.sessions.lookup t = some s) (he : s2.endTime = s.endTime)
    (h : ActiveOpen st) :
    ActiveOpen { st with sessions := st.sessions.insert t s2 } := by
  intro u hu
  by_cases hut : u = t
  · subst hut
    obtain ⟨s0, hs0, he0⟩ := h u hu
    rw [hs] at hs0
    cases hs0
    exact ⟨s2, by simp, by rw [he, he0]⟩
  · obtain ⟨s0, hs0, he0⟩ := h u hu
    exact ⟨s0, by simp [AList.lookup_insert_ne hut, hs0], he0⟩

theorem activeOpen_storeSession (env : Env) (t : TabId) (s : Session) (st : State)
    (h : ActiveOpen st) : ActiveOpen (storeSession env t s st) := by
  intro u hu
  simp only [storeSession_active] at hu
  simp only [storeSession_sessions]
  exact h u hu

theorem saveStep_cap_eq (env : Env) (step : JsObj) (t : TabId) (st : State) (s : Session)
    (ht : tabIdFalsy t = false) (hs : st.sessions.lookup t = some s) (ha : t ∈ st.active)
    (hlen : maxSteps ≤ s.steps.length + 1) :
    saveStep env (some step) t st =
      stopRecording { env with now := env.later } t
        (storeSession env t { s with steps := s.steps ++ [enhanceStep env s step] }
          { st with sessions :=
              st.sessions.insert t { s with steps := s.steps ++ [enhanceStep env s step] } }) := by
  simp [saveStep, ht, hs, ha, hlen]

theorem saveStep_falsy (env : Env) (step : Option JsObj) (t : TabId) (st : State)
    (ht : tabIdFalsy t = true) : saveStep env step t st = st := by
  simp [saveStep, ht]

theorem activeOpen_saveStep (env : Env) (step : Option JsObj) (t : TabId) (st : State)
    (h : ActiveOpen st) : ActiveOpen (saveStep env step t st) := by
  cases step with
  | none => rw [saveStep_none]; exact h
  | some c =>
    cases ht : tabIdFalsy t
    · cases hs : st.sessions.lookup t with
      | none => rw [saveStep_of_no_session _ _ _ _ hs]; exact h
      | some session =>
        by_cases ha : t ∈ st.active
        · have h1 := activeOpen_storeSession env t
            { session with steps := session.steps ++ [enhanceStep env session c] } _
            (activeOpen_replace t st session
              { session with steps := session.steps ++ [enhanceStep env session c] } hs rfl h)
          by_cases hcap : maxSteps ≤ session.steps.length + 1
          · rw [saveStep_cap_eq env c t st session ht hs ha hcap]
            exact activeOpen_stopRecording _ t _ h1
          · rw [saveStep_accept env c t st session ht hs ha (Nat.lt_of_not_le hcap)]
            exact h1
        · rw [saveStep_of_not_active _ _ _ _ ha]; exact h
    · rw [saveStep_falsy _ _ _ _ ht]; exact h

theorem activeOpen_updateSessionSettings (env : Env) (settings : JsObj) (t : TabId) (st : State)
    (h : ActiveOpen st) : ActiveOpen (updateSessionSettings env settings t st) := by
  unfold updateSessionSettings
  split
  · rename_i session hs
    exact activeOpen_storeSession env t _ _ (activeOpen_replace t st session _ hs rfl h)
  · exact h

theorem activeOpen_getSessionData (env : Env) (t : TabId) (st : State)
    (h : ActiveOpen st) : ActiveOpen (getSessionData env t st).1 := by
  unfold getSessionData
  split
  · exact h
  · rename_i hnone
    split
    · intro u hu
      simp only at hu
      obtain ⟨s0, hs0, he0⟩ := h u hu
      have hut : u ≠ t := by
        intro e
        rw [e, hnone] at hs0
        cases hs0
      exact ⟨s0, by simp [AList.lookup_insert_ne hut, hs0], he0⟩
    · exact h

theorem activeOpen_erase (t : TabId) (st : State) (h : ActiveOpen st) :
    ActiveOpen { st with sessions := st.sessions.erase t, active := st.active.erase t } := by
  intro u hu
  simp only [Finset.mem_erase] at hu
  obtain ⟨s0, hs0, he0⟩ := h u hu.2
  exact ⟨s0, by simp [AList.lookup_erase_ne hu.1, hs0], he0⟩

theorem activeOpen_clearStoredSession (env : Env) (t : TabId) (st : State)
    (h : ActiveOpen st) : ActiveOpen (clearStoredSession env t st) := by
  intro u hu
  simp only [clearStoredSession_active] at hu
  simp only [clearStoredSession_sessions]
  exact h u hu

theorem activeOpen_handleTabRemoved (env : Env) (t : TabId) (st : State)
    (h : ActiveOpen st) : ActiveOpen (handleTabRemoved env t st) :=
  activeOpen_clearStoredSession env t _ (activeOpen_erase t st h)

theorem activeOpen_handleTabUpdate (env : Env) (t : TabId) (status : Option String)
    (tab : TabInfo) (st : State) (h : ActiveOpen st) :
    ActiveOpen (handleTabUpdate env t status tab st) := by
  unfold handleTabUpdate
  split
  · split
    · split
      · exact activeOpen_saveStep env _ t st h
      · exact h
    · exact h
  · exact h

theorem activeOpen_cleanupOldData (env : Env) (st : State) (h : ActiveOpen st) :
    ActiveOpen (cleanupOldData env st) := by
  intro u hu
  rw [cleanupOldData_active] at hu
  obtain ⟨s, hs, he⟩ := h u hu.1
  refine ⟨s, ?_, he⟩
  rw [cleanupOldData_sessions, hs]
  simp [Option.filter, hu.2 s hs]

theorem activeOpen_handleMessage (env : Env) (message : Message) (sender : TabId) (st : State)
    (h : ActiveOpen st) : ActiveOpen (handleMessage env message sender st).1 := by
  unfold handleMessage
  split
  · exact activeOpen_startRecording env message sender st h
  split
  · exact activeOpen_stopRecording env sender st h
  split
  · exact activeOpen_saveStep env _ sender st h
  split
  · split <;> exact h
  split
  · exact activeOpen_handleTabRemoved env sender st h
  split
  · exact activeOpen_getSessionData env sender st h
  split
  · exact activeOpen_updateSessionSettings env _ sender st h
  split
  · split <;> exact h
  · exact h

theorem activeOpen_dispatch (env : Env) (event : Event) (st : State) (h : ActiveOpen st) :
    ActiveOpen (dispatch env event st) := by
  cases event with
  | message message sender => exact activeOpen_handleMessage env message sender st h
  | tabUpdated t status tab => exact activeOpen_handleTabUpdate env t status tab st h
  | tabRemoved t => exact activeOpen_handleTabRemoved env t st h
  | timer => exact activeOpen_cleanupOldData env st h

theorem activeOpen_of_reachable (st : State) (h : Reachable st) : ActiveOpen st := by
  induction h with
  | init store =>
    intro u hu
    simp [initial] at hu
  | step env event st _ ih => exact activeOpen_dispatch env event st ih

end RecordingManager

namespace RecordingManager

theorem storeMirrors_store (env : Env) (hok : env.storeOk = true) (t : TabId) (s : Session)
    (st : State) (act : Finset TabId) (h : StoreMirrors st) :
    StoreMirrors (storeSession env t s
      { st with sessions := st.sessions.insert t s, active := act }) := by
  intro u x hx
  simp only [storeSession_sessions] at hx
  simp only [storeSession, hok, if_true]
  by_cases hut : u = t
  · subst hut
    simp only [AList.lookup_insert] at hx
    simp only [AList.lookup_insert]
    exact hx
  · rw [AList.lookup_insert_ne hut] at hx
    rw [AList.lookup_insert_ne hut]
    exact h u x hx

theorem storeMirrors_startRecording (env : Env) (hok : env.storeOk = true) (message : Message)
    (t : TabId) (st : State) (h : StoreMirrors st) :
    StoreMirrors (startRecording env message t st) := by
  unfold startRecording
  split
  · exact h
  · exact storeMirrors_store env hok t _ st _ h

theorem storeMirrors_stopRecording (env : Env) (hok : env.storeOk = true) (t : TabId)
    (st : State) (h : StoreMirrors st) : StoreMirrors (stopRecording env t st) := by
  unfold stopRecording
  split
  · exact h
  · split
    · exact storeMirrors_store env hok t _ st _ h
    · exact h

theorem storeMirrors_saveStep (env : Env) (hok : env.storeOk = true) (step : Option JsObj)
    (t : TabId) (st : State) (h : StoreMirrors st) : StoreMirrors (saveStep env step t st) := by
  cases step with
  | none => rw [saveStep_none]; exact h
  | some c =>
    cases ht : tabIdFalsy t
    · cases hs : st.sessions.lookup t with
      | none => rw [saveStep_of_no_session _ _ _ _ hs]; exact h
      | some session =>
        by_cases ha : t ∈ st.active
        · have h1 := storeMirrors_store env hok t
            { session with steps := session.steps ++ [enhanceStep env session c] } st st.active h
          by_cases hcap : maxSteps ≤ session.steps.length + 1
          · rw [saveStep_cap_eq env c t st session ht hs ha hcap]
            exact storeMirrors_stopRecording { env with now := env.later } hok t _ h1
          · rw [saveStep_accept env c t st session ht hs ha (Nat.lt_of_not_le hcap)]
            exact h1
        · rw [saveStep_of_not_active _ _ _ _ ha]; exact h
    · rw [saveStep_falsy _ _ _ _ ht]; exact h

theorem storeMirrors_updateSessionSettings (env : Env) (hok : env.storeOk = true)
    (settings : JsObj) (t : TabId) (st : State) (h : StoreMirrors st) :
    StoreMirrors (updateSessionSettings env settings t st) := by
  unfold updateSessionSettings
  split
  · exact storeMirrors_store env hok t _ st st.active h
  · exact h

theorem storeMirrors_getSessionData (env : Env) (t : TabId) (st : State)
    (h : StoreMirrors st) : StoreMirrors (getSessionData env t st).1 := by
  unfold getSessionData
  split
  · exact h
  · unfold loadStoredSession
    split
    · rename_i stored hstored
      intro u x hx
      simp only at hx
      simp only
      by_cases hut : u = t
      · subst hut
        simp only [AList.lookup_insert] at hx
        cases hok : env.storeOk
        · simp [hok] at hstored
        · simp only [hok, if_true] at hstored
          rw [hstored, hx]
      · rw [AList.lookup_insert_ne hut] at hx
        exact h u x hx
    · exact h

theorem storeMirrors_handleTabRemoved (env : Env) (hok : env.storeOk = true) (t : TabId)
    (st : State) (h : StoreMirrors st) : StoreMirrors (handleTabRemoved env t st) := by
  intro u x hx
  simp only [handleTabRemoved, clearStoredSession_sessions] at hx
  simp only [handleTabRemoved, clearStoredSession, hok, if_true]
  by_cases hut : u = t
  · subst hut
    simp at hx
  · rw [AList.lookup_erase_ne hut] at hx
    rw [AList.lookup_erase_ne hut]
    exact h u x hx

theorem storeMirrors_handleTabUpdate (env : Env) (hok : env.storeOk = true) (t : TabId)
    (status : Option String) (tab : TabInfo) (st : State) (h : StoreMirrors st) :
    StoreMirrors (handleTabUpdate env t status tab st) := by
  unfold handleTabUpdate
  split
  · split
    · split
      · exact storeMirrors_saveStep env hok _ t st h
      · exact h
    · exact h
  · exact h

theorem storeMirrors_cleanupOldData (env : Env) (hok : env.storeOk = true) (st : State)
    (h : StoreMirrors st) : StoreMirrors (cleanupOldData env st) := by
  intro u x hx
  rw [cleanupOldData_sessions] at hx
  rw [cleanupOldData_store_sessions env st u hok]
  cases hs : st.sessions.lookup u with
  | none => rw [hs] at hx; simp at hx
  | some s =>
    rw [hs] at hx
    cases he : expired env s
    · simp only [Option.filter, he, Bool.not_false, if_true] at hx
      have hex : ¬ ∃ s2, some s = some s2 ∧ expired env s2 = true := by
        rintro ⟨s2, h2, h3⟩
        cases h2
        rw [he] at h3
        cases h3
      rw [if_neg hex, h u s hs]
      cases hx
      simp [Option.filter, he]
    · simp [Option.filter, he] at hx

theorem storeMirrors_handleMessage (env : Env) (hok : env.storeOk = true) (message : Message)
    (sender : TabId) (st : State) (h : StoreMirrors st) :
    StoreMirrors (handleMessage env message sender st).1 := by
  unfold handleMessage
  split
  · exact storeMirrors_startRecording env hok message sender st h
  split
  · exact storeMirrors_stopRecording env hok sender st h
  split
  · exact storeMirrors_saveStep env hok _ sender st h
  split
  · split <;> exact h
  split
  · exact storeMirrors_handleTabRemoved env hok sender st h
  split
  · exact storeMirrors_getSessionData env sender st h
  split
  · exact storeMirrors_updateSessionSettings env hok _ sender st h
  split
  · split <;> exact h
  · exact h

theorem storeMirrors_of_reliablyReachable (st : State) (h : ReliablyReachable st) :
    StoreMirrors st := by
  induction h with
  | init store =>
    intro u x hx
    simp [initial] at hx
  | step env event st hok _ ih =>
    cases event with
    | message message sender => exact storeMirrors_handleMessage env hok message sender st ih
    | tabUpdated t status tab => exact storeMirrors_handleTabUpdate env hok t status tab st ih
    | tabRemoved t => exact storeMirrors_handleTabRemoved env hok t st ih
    | timer => exact storeMirrors_cleanupOldData env hok st ih

theorem expired_iff (env : Env) (s : Session) :
    expired env s = true ↔ (env.now : Int) - (s.startTime : Int) > 86400000 := by
  simp [expired, maxAge]

/-- C4: the sweep `cleanupOldData` at time `now` removes from the in-memory map
exactly the sessions with `now - startTime` above 24 hours and keeps every
other session unchanged, without regard to the active set; and, in every
state reached with a store that answers, it does the same to the stored
sessions: a stored `session_<tabId>` is removed when `now - startTime` exceeds
24 hours and is kept unchanged otherwise. -/
theorem cleanupOldData_removes_exactly_expired (env : Env) (st : State) (tabId : TabId) :
    (cleanupOldData env st).sessions.lookup tabId =
      (st.sessions.lookup tabId).filter
        (fun s => decide (¬ (env.now : Int) - (s.startTime : Int) > 86400000)) ∧
    (ReliablyReachable st → env.storeOk = true →
      (cleanupOldData env st).store.sessions.lookup tabId =
        (st.store.sessions.lookup tabId).filter
          (fun s => decide (¬ (env.now : Int) - (s.startTime : Int) > 86400000))) := by
  have hfun : (fun s : Session => !expired env s) =
      (fun s => decide (¬ (env.now : Int) - (s.startTime : Int) > 86400000)) := by
    funext s
    have hmax : maxAge = 86400000 := by norm_num [maxAge]
    simp only [expired, hmax, decide_not]
  constructor
  · rw [cleanupOldData_sessions, hfun]
  · intro hreach hok
    rw [cleanupOldData_store_sessions env st tabId hok, hfun]
    have hm := storeMirrors_of_reliablyReachable st hreach
    by_cases hex : ∃ s, st.sessions.lookup tabId = some s ∧ expired env s = true
    · rw [if_pos hex]
      obtain ⟨s, hs, he⟩ := hex
      rw [hm tabId s hs]
      have : ¬ ¬ (env.now : Int) - (s.startTime : Int) > 86400000 :=
        not_not.mpr ((expired_iff env s).mp he)
      simp [Option.filter, this]
    · rw [if_neg hex]

end RecordingManager

namespace RecordingManager

/-- C10 (as the code behaves): in every state, for a session whose `endTime`
is set and whose tab is not in the active set, which is how `stopRecording`
leaves it, `saveStep`, `handleTabUpdate`, `getSessionData` and `getRecording`
return before any `await` and leave the whole state unchanged, the session
with its `endTime` included; a further `stopRecording` writes the new stop
time over `endTime` and `duration`, and `updateSessionSettings` merges the
given settings into the session's settings, each leaving the session's other
fields as they were. -/
theorem ended_session_changes_only_by_stop_and_settings (st : State) (tabId : TabId)
    (session : Session) (ended : Nat) (hidle : tabId ∉ st.active)
    (hsession : st.sessions.lookup tabId = some session)
    (hended : session.endTime = some ended) :
    (∀ (env : Env) (step : Option JsObj),
      ((saveStep env step tabId st).sessions.lookup tabId).map (fun s => s.endTime) =
        some (some ended)) ∧
    (∀ (env : Env) (step : Option JsObj), saveStep env step tabId st = st) ∧
    (∀ (env : Env) (status : Option String) (tab : TabInfo),
      handleTabUpdate env tabId status tab st = st) ∧
    (∀ env : Env, (getSessionData env tabId st).1 = st) ∧
    (∀ (env : Env) (message : Message), message.action = "getRecording" →
      (handleMessage env message tabId st).1 = st) ∧
    (∀ env : Env, tabIdFalsy tabId = false →
      (stopRecording env tabId st).sessions.lookup tabId =
        some { session with
                endTime := some env.now
                duration := some ((env.now : Int) - (session.startTime : Int)) }) ∧
    (∀ (env : Env) (settings : JsObj),
      (updateSessionSettings env settings tabId st).sessions.lookup tabId =
        some { session with settings := JsObj.spread session.settings settings }) := by
  have hna : tabId ∉ st.active := hidle
  refine ⟨fun env step => by
      rw [saveStep_of_not_active env step tabId st hna, hsession, Option.map_some', hended],
    fun env step => saveStep_of_not_active env step tabId st hna, ?_, ?_, ?_, ?_, ?_⟩
  · intro env status tab
    simp [handleTabUpdate, hna]
  · intro env
    simp [getSessionData, hsession]
  · intro env message haction
    simp [handleMessage, haction, hsession]
  · intro env htab
    rw [stopRecording_eq env tabId st session htab hsession]
    simp [stoppedAt]
  · intro env settings
    simp [updateSessionSettings, hsession]

/-- C10 fails as stated: tab 7 stopped at time 301000 has `endTime` 301000
and duration 300000; a second `stopRecording` at time 400000 changes them to
400000 and 399000, and `updateSessionSettings` turns its `captureClicks`
setting from true to false. -/
theorem ended_session_is_rewritten_by_second_stop_and_settings :
    (sampleStopped.sessions.lookup (some 7)).map (fun s => (s.endTime, s.duration)) =
      some (some 301000, some 300000) ∧
    ((stopRecording (sampleEnv 400000) (some 7) sampleStopped).sessions.lookup (some 7)).map
      (fun s => (s.endTime, s.duration)) = some (some 400000, some 399000) ∧
    (sampleStopped.sessions.lookup (some 7)).map
      (fun s => JsObj.get s.settings "captureClicks") = some (JsVal.bool true) ∧
    ((updateSessionSettings (sampleEnv 400000) [("captureClicks", JsVal.bool false)] (some 7)
      sampleStopped).sessions.lookup (some 7)).map
      (fun s => JsObj.get s.settings "captureClicks") = some (JsVal.bool false) := by
  decide

/-- C6 fails as stated: on a fresh manager, where tab 9 has no session and
is not recording, the `stopRecording` request sent from tab 9 is answered
with `{ success: true }`, not with a failure. -/
theorem stop_without_session_is_reported_as_success :
    (initial emptyStore).sessions.lookup (some 9) = none ∧
    some 9 ∉ (initial emptyStore).active ∧
    (handleMessage (sampleEnv 5000) { action := "stopRecording" } (some 9)
      (initial emptyStore)).2 = Response.ok ∧
    (handleMessage (sampleEnv 5000) { action := "stopRecording" } (some 9)
      (initial emptyStore)).2.success = true := by
  decide

end RecordingManager

namespace RecordingManager

/-! ### The theorems at sample inputs -/

theorem stepNumbers_are_one_to_n_witness :
    tabIdFalsy (some 7) = false ∧
    ∃ session,
      (saveSteps [(sampleEnv 2000, some sampleClick), (sampleEnv 2100, none),
          (sampleEnv 2200, some sampleClick)] (some 7)
        (startRecording (sampleEnv 1000) sampleStart (some 7)
          (initial emptyStore))).sessions.lookup (some 7) = some session ∧
      (∀ (i : Nat) (step : JsObj), session.steps[i]? = some step →
        JsObj.get step "stepNumber" = JsVal.num ((i : Int) + 1)) ∧
      session.steps.length =
        min (([(sampleEnv 2000, some sampleClick), (sampleEnv 2100, none),
          (sampleEnv 2200, some sampleClick)] : List (Env × Option JsObj)).filter
            (fun call => call.2.isSome)).length 100 :=
  ⟨by decide,
    stepNumbers_are_one_to_n (sampleEnv 1000) sampleStart (some 7) (initial emptyStore)
      [(sampleEnv 2000, some sampleClick), (sampleEnv 2100, none),
        (sampleEnv 2200, some sampleClick)] (by decide)⟩

theorem saveStep_without_active_recording_is_noop_witness :
    some 7 ∉ sampleStopped.active ∧
    saveStep (sampleEnv 302000) (some sampleClick) (some 7) sampleStopped = sampleStopped :=
  ⟨by decide,
    (saveStep_without_active_recording_is_noop (sampleEnv 302000) (sampleEnv 301000)
      (some sampleClick) (some 7) sampleStopped).1 (by decide)⟩

set_option maxRecDepth 1000000 in
theorem hundredth_step_stops_recording_witness :
    tabIdFalsy (some 7) = false ∧
    some 7 ∈ sampleNinetyNine.active ∧
    sampleNinetyNine.sessions.lookup (some 7) = some sampleNinetyNineSession ∧
    sampleNinetyNineSession.steps.length = 99 ∧
    some 7 ∉ (saveStep (sampleEnv 9000) (some sampleClick) (some 7) sampleNinetyNine).active := by
  have h1 : tabIdFalsy (some 7) = false := by decide
  have h2 : some 7 ∈ sampleNinetyNine.active := by decide
  have h3 : sampleNinetyNine.sessions.lookup (some 7) = some sampleNinetyNineSession := by
    unfold sampleNinetyNineSession
    rfl
  have h4 : sampleNinetyNineSession.steps.length = 99 := by decide
  exact ⟨h1, h2, h3, h4,
    (hundredth_step_stops_recording (sampleEnv 9000) sampleClick (some 7) sampleNinetyNine
      sampleNinetyNineSession h1 h2 h3 h4).elim (fun _ h => h.2.2.2.2.2.1)⟩

theorem cleanupOldData_removes_exactly_expired_witness :
    ReliablyReachable sampleStopped ∧
    (sampleEnv 86401001).storeOk = true ∧
    (cleanupOldData (sampleEnv 86401001) sampleStopped).store.sessions.lookup (some 7) =
      (sampleStopped.store.sessions.lookup (some 7)).filter
        (fun s => decide (¬ ((sampleEnv 86401001).now : Int) - (s.startTime : Int) > 86400000)) ∧
    (cleanupOldData (sampleEnv 86401001) sampleStopped).sessions.lookup (some 7) = none ∧
    (cleanupOldData (sampleEnv 86401001) sampleStopped).store.sessions.lookup (some 7) = none ∧
    (cleanupOldData (sampleEnv 86401000) sampleStopped).sessions.lookup (some 7) =
      sampleStopped.sessions.lookup (some 7) ∧
    (cleanupOldData (sampleEnv 86401000) sampleStopped).store.sessions.lookup (some 7) =
      sampleStopped.store.sessions.lookup (some 7) := by
  have hreach : ReliablyReachable sampleStopped :=
    ReliablyReachable.step _ _ _ rfl (ReliablyReachable.step _ _ _ rfl
      (ReliablyReachable.step _ _ _ rfl (ReliablyReachable.step _ _ _ rfl
        (ReliablyReachable.step _ _ _ rfl (ReliablyReachable.step _ _ _ rfl
          (ReliablyReachable.init emptyStore))))))
  exact ⟨hreach, rfl,
    (cleanupOldData_removes_exactly_expired (sampleEnv 86401001) sampleStopped (some 7)).2
      hreach rfl,
    by decide, by decide, by decide, by decide⟩

theorem stopRecording_sets_endTime_and_duration_witness :
    tabIdFalsy (some 7) = false ∧
    sampleRecording.sessions.lookup (some 7) = some sampleSession ∧
    ∃ stopped,
      (stopRecording (sampleEnv 301000) (some 7) sampleRecording).sessions.lookup (some 7) =
        some stopped ∧
      stopped.steps.length = 4 ∧
      stopped.steps.map (fun step => JsObj.get step "stepNumber") =
        [JsVal.num 1, JsVal.num 2, JsVal.num 3, JsVal.num 4] ∧
      stopped.duration = some 300000 :=
  ⟨by decide, by decide,
    (stopRecording_sets_endTime_and_duration (sampleEnv 301000) (some 7) sampleRecording
      sampleSession (by decide) (by decide)).2.2.2
      (sampleEnv 1000) (sampleEnv 2000) (sampleEnv 2500) (sampleEnv 3000) (sampleEnv 4000)
      sampleStart sampleClick sampleClick sampleClick sampleClick (initial emptyStore) rfl rfl⟩

theorem stopRecording_request_always_succeeds_witness :
    ({ action := "stopRecording" } : Message).action = "stopRecording" ∧
    (handleMessage (sampleEnv 5000) { action := "stopRecording" } (some 9) sampleRecording).2 =
      Response.ok ∧
    (sampleRecording.sessions.lookup (some 9) = none →
      (handleMessage (sampleEnv 5000) { action := "stopRecording" } (some 9)
        sampleRecording).1 = sampleRecording) :=
  ⟨rfl,
    stopRecording_request_always_succeeds (sampleEnv 5000) { action := "stopRecording" }
      (some 9) sampleRecording rfl⟩

theorem startRecording_installs_fresh_session_witness :
    tabIdFalsy (some 7) = false ∧
    sampleStart.action = "startRecording" ∧
    sampleRecording.sessions.lookup (some 7) = some sampleSession ∧
    (startRecording (sampleEnv 5000) sampleStart (some 7) sampleRecording).sessions.lookup
      (some 7) = some (newSession (sampleEnv 5000) sampleStart) :=
  ⟨by decide, rfl, by decide,
    (startRecording_installs_fresh_session (sampleEnv 5000) sampleStart (some 7)
      sampleRecording (by decide) rfl).2.1⟩

theorem getSessionData_read_through_witness :
    (sampleRecording.sessions.lookup (some 7) = some sampleSession ∧
      getSessionData (sampleEnv 5000) (some 7) sampleRecording =
        (sampleRecording, some
          { session := sampleSession
            isRecording := decide (some 7 ∈ sampleRecording.active)
            stepCount := sampleSession.steps.length })) ∧
    ((initial sampleStopped.store).sessions.lookup (some 7) = none ∧
      (sampleEnv 5000).storeOk = true ∧
      (initial sampleStopped.store).store.sessions.lookup (some 7) =
        some (stoppedAt 301000 sampleSession) ∧
      (getSessionData (sampleEnv 5000) (some 7) (initial sampleStopped.store)).2 =
        some { session := stoppedAt 301000 sampleSession
               isRecording := false
               stepCount := (stoppedAt 301000 sampleSession).steps.length }) :=
  ⟨⟨by decide,
      (getSessionData_read_through (sampleEnv 5000) (some 7) sampleRecording).1
        sampleSession (by decide)⟩,
    ⟨by decide, rfl, by decide,
      ((getSessionData_read_through (sampleEnv 5000) (some 7)
        (initial sampleStopped.store)).2.1 (stoppedAt 301000 sampleSession)
          (by decide) rfl (by decide)).1⟩⟩

theorem clear_removes_everything_and_is_idempotent_witness :
    ({ action := "clearRecording" } : Message).action = "clearRecording" ∧
    (sampleEnv 5000).storeOk = true ∧
    sampleRecording.store.sessions.lookup (some 7) = some sampleSession ∧
    (handleTabRemoved (sampleEnv 5000) (some 7) sampleRecording).store.sessions.lookup
      (some 7) = none :=
  ⟨rfl, rfl, by decide,
    (clear_removes_everything_and_is_idempotent (sampleEnv 5000) (sampleEnv 6000)
      { action := "clearRecording" } (some 7) sampleRecording rfl rfl).2.2.2.1⟩

theorem ended_session_changes_only_by_stop_and_settings_witness :
    some 7 ∉ sampleStopped.active ∧
    sampleStopped.sessions.lookup (some 7) = some (stoppedAt 301000 sampleSession) ∧
    (stoppedAt 301000 sampleSession).endTime = some 301000 ∧
    (∀ (env : Env) (step : Option JsObj),
      saveStep env step (some 7) sampleStopped = sampleStopped) :=
  ⟨by decide, by decide, rfl,
    (ended_session_changes_only_by_stop_and_settings sampleStopped (some 7)
      (stoppedAt 301000 sampleSession) 301000 (by decide) (by decide) rfl).2.1⟩

end RecordingManager

namespace RecordingManager

theorem storeSession_of_fail (env : Env) (t : TabId) (s : Session) (st : State)
    (h : env.storeOk = false) : storeSession env t s st = st := by
  simp [storeSession, h]

@[simp] theorem storeSession_store_of_fail (env : Env) (t : TabId) (s : Session) (st : State)
    (h : env.storeOk = false) : (storeSession env t s st).store = st.store := by
  simp [storeSession, h]

theorem stopRecording_memory (env env2 : Env) (t : TabId) (st st2 : State)
    (hnow : env.now = env2.now) (hs : st.sessions = st2.sessions) (ha : st.active = st2.active) :
    (stopRecording env t st).sessions = (stopRecording env2 t st2).sessions ∧
    (stopRecording env t st).active = (stopRecording env2 t st2).active := by
  unfold stopRecording
  cases ht : tabIdFalsy t
  · rw [← hs]
    cases hl : st.sessions.lookup t with
    | none => simp [hs, ha]
    | some s => simp [hs, ha, hnow]
  · simp [hs, ha]

theorem stopRecording_store_of_fail (env : Env) (t : TabId) (st : State)
    (h : env.storeOk = false) : (stopRecording env t st).store = st.store := by
  unfold stopRecording
  split
  · rfl
  · split
    · simp [storeSession, h]
    · rfl

theorem startRecording_store_of_fail (env : Env) (message : Message) (t : TabId) (st : State)
    (h : env.storeOk = false) : (startRecording env message t st).store = st.store := by
  unfold startRecording
  split
  · rfl
  · simp [storeSession, h]

theorem startRecording_memory (env env2 : Env) (message : Message) (t : TabId) (st : State)
    (hnow : env.now = env2.now) (htab : env.tab = env2.tab)
    (hua : env.userAgent = env2.userAgent) :
    (startRecording env message t st).sessions = (startRecording env2 message t st).sessions ∧
    (startRecording env message t st).active = (startRecording env2 message t st).active := by
  unfold startRecording
  split
  · exact ⟨rfl, rfl⟩
  · simp [newSession, hnow, htab, hua]

theorem saveStep_store_of_fail (env : Env) (step : Option JsObj) (t : TabId) (st : State)
    (h : env.storeOk = false) : (saveStep env step t st).store = st.store := by
  cases step with
  | none => rw [saveStep_none]
  | some c =>
    cases ht : tabIdFalsy t
    · cases hs : st.sessions.lookup t with
      | none => rw [saveStep_of_no_session _ _ _ _ hs]
      | some session =>
        by_cases ha : t ∈ st.active
        · by_cases hcap : maxSteps ≤ session.steps.length + 1
          · rw [saveStep_cap_eq env c t st session ht hs ha hcap,
              stopRecording_store_of_fail _ _ _ (by simpa using h)]
            simp [storeSession, h]
          · rw [saveStep_accept env c t st session ht hs ha (Nat.lt_of_not_le hcap)]
            simp [storeSession, h]
        · rw [saveStep_of_not_active _ _ _ _ ha]
    · rw [saveStep_falsy _ _ _ _ ht]

theorem saveStep_memory (env env2 : Env) (step : Option JsObj) (t : TabId) (st : State)
    (hnow : env.now = env2.now) (hlater : env.later = env2.later) (hrnd : env.rnd = env2.rnd) :
    (saveStep env step t st).sessions = (saveStep env2 step t st).sessions ∧
    (saveStep env step t st).active = (saveStep env2 step t st).active := by
  cases step with
  | none => simp [saveStep_none]
  | some c =>
    cases ht : tabIdFalsy t
    · cases hs : st.sessions.lookup t with
      | none => simp [saveStep_of_no_session _ _ _ _ hs]
      | some session =>
        by_cases ha : t ∈ st.active
        · have he : enhanceStep env session c = enhanceStep env2 session c := by
            simp [enhanceStep, hnow, hrnd]
          by_cases hcap : maxSteps ≤ session.steps.length + 1
          · rw [saveStep_cap_eq env c t st session ht hs ha hcap,
              saveStep_cap_eq env2 c t st session ht hs ha hcap]
            apply stopRecording_memory
            · exact hlater
            · simp [he]
            · simp
          · rw [saveStep_accept env c t st session ht hs ha (Nat.lt_of_not_le hcap),
              saveStep_accept env2 c t st session ht hs ha (Nat.lt_of_not_le hcap)]
            simp [he]
        · simp [saveStep_of_not_active _ _ _ _ ha]
    · simp [saveStep_falsy _ _ _ _ ht]

/-- C11 (as the code behaves): when the durable-store write is rejected
during `startRecording`, `stopRecording` or `saveStep`, the rejection is
caught inside `storeSession`: the request is still answered with
`{ success: true }`, the in-memory sessions map and active set are updated
exactly as they are when the write succeeds, and the durable store is left
as it was. -/
theorem rejected_write_is_swallowed (env : Env) (message : Message) (sender : TabId)
    (st : State) (hfail : env.storeOk = false)
    (haction : message.action = "startRecording" ∨ message.action = "stopRecording" ∨
      message.action = "saveStep") :
    (handleMessage env message sender st).2 = Response.ok ∧
    (handleMessage env message sender st).1.store = st.store ∧
    (handleMessage env message sender st).1.sessions =
      (handleMessage { env with storeOk := true } message sender st).1.sessions ∧
    (handleMessage env message sender st).1.active =
      (handleMessage { env with storeOk := true } message sender st).1.active := by
  rcases haction with h | h | h
  · have h1 : ∀ e : Env, handleMessage e message sender st =
        (startRecording e message sender st, Response.ok) := by
      intro e
      simp [handleMessage, h]
    rw [h1 env, h1 { env with storeOk := true }]
    exact ⟨rfl, startRecording_store_of_fail env message sender st hfail,
      startRecording_memory env _ message sender st rfl rfl rfl⟩
  · have h1 : ∀ e : Env, handleMessage e message sender st =
        (stopRecording e sender st, Response.ok) := by
      intro e
      simp [handleMessage, h]
    rw [h1 env, h1 { env with storeOk := true }]
    exact ⟨rfl, stopRecording_store_of_fail env sender st hfail,
      stopRecording_memory env _ sender st st rfl rfl rfl⟩
  · have h1 : ∀ e : Env, handleMessage e message sender st =
        (saveStep e message.step sender st, Response.ok) := by
      intro e
      simp [handleMessage, h]
    rw [h1 env, h1 { env with storeOk := true }]
    exact ⟨rfl, saveStep_store_of_fail env message.step sender st hfail,
      saveStep_memory env _ message.step sender st rfl rfl rfl⟩

/-- C12: with the durable writes succeeding, after `startRecording` (truthy
tab id), `stopRecording` (truthy tab id, session in memory), an accepted
`saveStep` and `updateSessionSettings` (session in memory) the store's
`session_<tabId>` entry is the tab's in-memory session, whole: the new
session, the stopped session, the session with the new step appended to all
earlier steps, and the session with the merged settings. -/
theorem store_holds_session_after_each_write (env : Env) (tabId : TabId) (st : State)
    (hok : env.storeOk = true) :
    (∀ message : Message, tabIdFalsy tabId = false →
      (startRecording env message tabId st).store.sessions.lookup tabId =
          (startRecording env message tabId st).sessions.lookup tabId ∧
        (startRecording env message tabId st).sessions.lookup tabId =
          some (newSession env message)) ∧
    (∀ session : Session, tabIdFalsy tabId = false →
      st.sessions.lookup tabId = some session →
      (stopRecording env tabId st).store.sessions.lookup tabId =
          (stopRecording env tabId st).sessions.lookup tabId ∧
        (stopRecording env tabId st).sessions.lookup tabId =
          some (stoppedAt env.now session)) ∧
    (∀ (session : Session) (step : JsObj), tabIdFalsy tabId = false →
      st.sessions.lookup tabId = some session → tabId ∈ st.active →
      (saveStep env (some step) tabId st).store.sessions.lookup tabId =
          (saveStep env (some step) tabId st).sessions.lookup tabId ∧
        ∃ saved, (saveStep env (some step) tabId st).sessions.lookup tabId = some saved ∧
          saved.steps = session.steps ++ [enhanceStep env session step]) ∧
    (∀ (session : Session) (settings : JsObj), st.sessions.lookup tabId = some session →
      (updateSessionSettings env settings tabId st).store.sessions.lookup tabId =
          (updateSessionSettings env settings tabId st).sessions.lookup tabId ∧
        (updateSessionSettings env settings tabId st).sessions.lookup tabId =
          some { session with settings := JsObj.spread session.settings settings }) := by
  refine ⟨?_, ?_, ?_, ?_⟩
  · intro message htab
    simp [startRecording, htab, storeSession, hok]
  · intro session htab hs
    rw [stopRecording_eq env tabId st session htab hs]
    simp [storeSession, hok]
  · intro session step htab hs ha
    by_cases hcap : maxSteps ≤ session.steps.length + 1
    · rw [saveStep_cap_eq env step tabId st session htab hs ha hcap,
        stopRecording_eq _ tabId _ { session with steps := session.steps ++ [enhanceStep env session step] }
          htab (by simp)]
      simp [storeSession, hok, stoppedAt]
    · rw [saveStep_accept env step tabId st session htab hs ha (Nat.lt_of_not_le hcap)]
      simp [storeSession, hok]
  · intro session settings hs
    simp [updateSessionSettings, hs, storeSession, hok]

/-- C11 fails as stated: with the store rejecting the write, the
`startRecording` request from tab 7 on a fresh manager is answered with
success, tab 7 gets a session in memory and enters the active set, and the
store holds nothing for it. -/
theorem rejected_write_still_starts_recording :
    ({ sampleEnv 1000 with storeOk := false } : Env).storeOk = false ∧
    (handleMessage { sampleEnv 1000 with storeOk := false } sampleStart (some 7)
      (initial emptyStore)).2.success = true ∧
    (initial emptyStore).sessions.lookup (some 7) = none ∧
    ((handleMessage { sampleEnv 1000 with storeOk := false } sampleStart (some 7)
      (initial emptyStore)).1.sessions.lookup (some 7)).isSome = true ∧
    some 7 ∉ (initial emptyStore).active ∧
    some 7 ∈ (handleMessage { sampleEnv 1000 with storeOk := false } sampleStart (some 7)
      (initial emptyStore)).1.active ∧
    (handleMessage { sampleEnv 1000 with storeOk := false } sampleStart (some 7)
      (initial emptyStore)).1.store.sessions.lookup (some 7) = none := by
  decide

theorem rejected_write_is_swallowed_witness :
    ({ sampleEnv 5000 with storeOk := false } : Env).storeOk = false ∧
    sampleSave.action = "saveStep" ∧
    (handleMessage { sampleEnv 5000 with storeOk := false } sampleSave (some 7)
      sampleRecording).2 = Response.ok ∧
    (handleMessage { sampleEnv 5000 with storeOk := false } sampleSave (some 7)
      sampleRecording).1.store = sampleRecording.store :=
  ⟨rfl, rfl,
    (rejected_write_is_swallowed { sampleEnv 5000 with storeOk := false } sampleSave (some 7)
      sampleRecording rfl (Or.inr (Or.inr rfl))).1,
    (rejected_write_is_swallowed { sampleEnv 5000 with storeOk := false } sampleSave (some 7)
      sampleRecording rfl (Or.inr (Or.inr rfl))).2.1⟩

theorem store_holds_session_after_each_write_witness :
    (sampleEnv 5000).storeOk = true ∧
    tabIdFalsy (some 7) = false ∧
    sampleRecording.sessions.lookup (some 7) = some sampleSession ∧
    some 7 ∈ sampleRecording.active ∧
    (saveStep (sampleEnv 5000) (some sampleClick) (some 7)
        sampleRecording).store.sessions.lookup (some 7) =
      (saveStep (sampleEnv 5000) (some sampleClick) (some 7)
        sampleRecording).sessions.lookup (some 7) :=
  ⟨rfl, by decide, by decide, by decide,
    ((store_holds_session_after_each_write (sampleEnv 5000) (some 7) sampleRecording rfl).2.2.1
      sampleSession sampleClick (by decide) (by decide) (by decide)).1⟩

end RecordingManager

namespace D365Recorder
open Dom

theorem first_match_chain (f : ElemRef → String) (q1 q2 q4 q5 : Option ElemRef)
    (a : Option String) :
    (match q1 with
      | some l => some (f l)
      | none =>
        match q2 with
        | some l => some (f l)
        | none =>
          if truthy a then a
          else
            match q4 with
            | some l => some (f l)
            | none =>
              match q5 with
              | some l => some (f l)
              | none => none) =
      [q1.map f, q2.map f, a.filter (fun text => decide (text ≠ "")), q4.map f,
        q5.map f].findSome? (fun rule => rule) := by
  cases q1 with
  | some l => simp
  | none =>
    cases q2 with
    | some l => simp
    | none =>
      cases a with
      | none => cases q4 <;> cases q5 <;> simp [truthy, Option.filter]
      | some text =>
        by_cases ht : text = ""
        · cases q4 <;> cases q5 <;> simp [truthy, Option.filter, ht]
        · simp [truthy, Option.filter, ht]

theorem getElementLabel_eq_reference (doc : DomNode) (element : ElemRef) :
    getElementLabel doc element = referenceLabel true doc element := by
  unfold getElementLabel referenceLabel labelRules nearest
  simp only [if_true]
  exact first_match_chain _ _ _ _ _ _

theorem getElementLabelCall_eq (doc : DomNode) (element : ElemRef)
    (hplain : plainId (elemId (elem doc element)) = true)
    (hprev : ∀ prev, previousElementSibling doc element = some prev →
      (props (elem doc prev)).svg = false) :
    getElementLabelCall doc element = some (getElementLabel doc element) := by
  unfold getElementLabelCall getElementLabel
  simp only [hplain, Bool.true_eq_false, and_false, if_false]
  cases (if elemId (elem doc element) ≠ "" then
      documentQuery doc (isLabelFor (elemId (elem doc element))) else none) with
  | some label => rfl
  | none =>
    cases closest doc isLabel element with
    | some parentLabel => rfl
    | none =>
      by_cases ha : truthy (getAttribute (elem doc element) "aria-label") = true
      · simp [ha]
      · simp only [ha, Bool.false_eq_true, if_false]
        cases hp : previousElementSibling doc element with
        | none => simp [Option.filter, dynLabelOf]
        | some prev =>
          have hs := hprev prev hp
          by_cases ht : tagName (elem doc prev) = "LABEL"
          · simp [Option.filter, ht]
          · by_cases hc : includes (className (elem doc prev)) "label" = true
            · simp [Option.filter, ht, hc, classNameString, hs]
            · simp [Option.filter, ht, hc, classNameString, hs, dynLabelOf]

/-- What `getElementLabel` does where it returns: for an element whose id is
`plainId` and whose previous element sibling, if any, is an HTML element, the
call returns the label of the first rule that matches, the two ancestor
rules being read from the element itself on (`closest`), and `null` exactly
when no rule matches. -/
theorem getElementLabel_first_matching_rule (doc : DomNode) (element : ElemRef)
    (hplain : plainId (elemId (elem doc element)) = true)
    (hprev : ∀ prev, previousElementSibling doc element = some prev →
      (props (elem doc prev)).svg = false) :
    getElementLabelCall doc element =
      some ((labelRules true doc element).findSome? (fun rule => rule)) ∧
    (getElementLabelCall doc element = some none ↔
      ∀ rule ∈ labelRules true doc element, rule = none) := by
  have h := getElementLabel_eq_reference doc element
  rw [getElementLabelCall_eq doc element hplain hprev, h, referenceLabel]
  refine ⟨rfl, ?_⟩
  rw [Option.some_inj, List.findSome?_eq_none_iff]

/-- C13, the code at the failing input: the `label` element of `samplePage`
that carries `aria-label="Name"` has no id and no `label` ancestor, so by the
rules of the claim, and by the comment `Look for parent label` on the second
rule, the second rule does not match and the third gives `Name`. The call
returns the element's own trimmed text, `Vendor`: `closest('label')` starts
at the element itself. The labelled input does get `Vendor Name`. For the
`button` of `sampleIconPage` no rule of the claim matches, which is `null`
by the claim; its previous sibling is the `svg` element, on which
`className.includes` is not a function, and the call throws. -/
theorem getElementLabel_takes_the_element_itself_as_label :
    elemId (elem samplePage sampleOwnLabel) = "" ∧
    tagName (elem samplePage sampleOwnLabel) = "LABEL" ∧
    (properAncestors sampleOwnLabel).all
      (fun a => !isLabel (elem samplePage a)) = true ∧
    getAttribute (elem samplePage sampleOwnLabel) "aria-label" = some "Name" ∧
    referenceLabel false samplePage sampleOwnLabel = some "Name" ∧
    getElementLabelCall samplePage sampleOwnLabel = some (some "Vendor") ∧
    getElementLabelCall samplePage sampleInput = some (some "Vendor Name") ∧
    previousElementSibling sampleIconPage sampleIconButton = some sampleIcon ∧
    (props (elem sampleIconPage sampleIcon)).svg = true ∧
    referenceLabel false sampleIconPage sampleIconButton = none ∧
    getElementLabelCall sampleIconPage sampleIconButton = none := by
  decide

/-- C16: an element with a non-empty id, wherever it sits in the tree, gets
the XPath `//*[@id="<id>"]` and the selector `#<id>`; the input with id
`vendorName` gets `//*[@id="vendorName"]`. -/
theorem element_with_id_is_addressed_by_id (doc : DomNode) (element : ElemRef)
    (hid : elemId (elem doc element) ≠ "") :
    getElementXPath doc element = "//*[@id=\"" ++ elemId (elem doc element) ++ "\"]" ∧
    getElementSelector doc element = "#" ++ elemId (elem doc element) ∧
    (elemId (elem samplePage sampleInput) = "vendorName" ∧
      getElementXPath samplePage sampleInput = "//*[@id=\"vendorName\"]" ∧
      getElementSelector samplePage sampleInput = "#vendorName") := by
  refine ⟨by simp [getElementXPath, hid], by simp [getElementSelector, hid], by decide⟩

theorem element_with_id_is_addressed_by_id_witness :
    elemId (elem samplePage [0, 3, 1]) ≠ "" ∧
    getElementXPath samplePage [0, 3, 1] = "//*[@id=\"main\"]" ∧
    getElementSelector samplePage [0, 3, 1] = "#main" :=
  ⟨by decide,
    (element_with_id_is_addressed_by_id samplePage [0, 3, 1] (by decide)).1,
    (element_with_id_is_addressed_by_id samplePage [0, 3, 1] (by decide)).2.1⟩

theorem firstNonEmpty_one (a : Option String) (d : Option String) :
    firstNonEmpty [a] d = template (orElse a d) := by
  cases h : truthy a <;> simp [firstNonEmpty, orElse, List.find?, h]

theorem firstNonEmpty_two (a b : Option String) (d : Option String) :
    firstNonEmpty [a, b] d = template (orElse (orElse a b) d) := by
  cases h : truthy a <;> cases h2 : truthy b <;> simp [firstNonEmpty, orElse, List.find?, h, h2]

theorem firstNonEmpty_three (a b c : Option String) (d : Option String) :
    firstNonEmpty [a, b, c] d = template (orElse (orElse (orElse a b) c) d) := by
  cases h : truthy a <;> cases h2 : truthy b <;> cases h3 : truthy c <;>
    simp [firstNonEmpty, orElse, List.find?, h, h2, h3]

/-- C19: `generateStepDescription` is a function of the action and of the
element's snapshot (tag, type, checked, trimmed text, href, value, label,
control name, field name, and the text of the selected option), and equals
the reference definition: the `input` and non-`SELECT` `change` templates
over the first non-empty of label, field name, control name, `field`; the
`SELECT` template; the `click` templates in the order `BUTTON`, `A`,
checkbox, radio, generic; and the `Perform <action> on` fallback. -/
theorem generateStepDescription_eq_reference (doc : DomNode) (action : String)
    (element : ElemRef) :
    generateStepDescription doc action element =
      referenceDescription action (snapshot doc element) := by
  unfold generateStepDescription referenceDescription snapshot
  simp only [firstNonEmpty_one, firstNonEmpty_two, firstNonEmpty_three]
  by_cases h1 : action = "click"
  · subst h1
    simp only [String.reduceEq, if_true, if_false]
  · by_cases h2 : action = "input"
    · subst h2
      simp only [String.reduceEq, if_true, if_false]
    · by_cases h3 : action = "change"
      · subst h3
        simp only [String.reduceEq, if_true, if_false]
      · simp only [h1, h2, h3, if_false]

end D365Recorder

namespace D365Recorder
open Dom

theorem scanSibling_nb (self : DomNode) (index : Nat) (s : SiblingScan) (e : Nat × DomNode) :
    (scanSibling self index s e).nb = s.nb +
      (if (decide (e.1 ≠ index) && isElement e.2 && decide (tagName e.2 = tagName self)) = true
        then 1 else 0) := by
  unfold scanSibling
  cases he : isElement e.2
  · simp
  · by_cases hi : e.1 = index
    · by_cases hn : s.nb > 0 <;> simp [hi, hn]
    · by_cases ht : tagName e.2 = tagName self <;> simp [hi, ht]

theorem scanSibling_flags (self : DomNode) (index : Nat) (s : SiblingScan) (e : Nat × DomNode)
    (hf : s.hasFollowingSiblings = true → s.nb > 0)
    (hp : s.hasPrecedingSiblings = true → s.nb > 0) :
    ((scanSibling self index s e).hasFollowingSiblings = true →
        (scanSibling self index s e).nb > 0) ∧
    ((scanSibling self index s e).hasPrecedingSiblings = true →
        (scanSibling self index s e).nb > 0) := by
  unfold scanSibling
  cases he : isElement e.2
  · simpa using ⟨hf, hp⟩
  · by_cases hi : e.1 = index
    · by_cases hn : s.nb > 0
      · simp only [he, hi, hn]
        simpa using ⟨hf, hn⟩
      · simp only [he, hi, hn]
        simpa using ⟨hf, hp⟩
    · by_cases ht : tagName e.2 = tagName self
      · simp only [he, hi, ht]
        simp
      · simp only [he, hi, ht]
        simpa using ⟨hf, hp⟩

theorem scan_foldl (self : DomNode) (index : Nat) (l : List (Nat × DomNode)) :
    ∀ s : SiblingScan, (s.hasFollowingSiblings = true → s.nb > 0) →
      (s.hasPrecedingSiblings = true → s.nb > 0) →
      (l.foldl (scanSibling self index) s).nb = s.nb + l.countP (fun e =>
          decide (e.1 ≠ index) && isElement e.2 && decide (tagName e.2 = tagName self)) ∧
      ((l.foldl (scanSibling self index) s).hasFollowingSiblings = true →
        (l.foldl (scanSibling self index) s).nb > 0) ∧
      ((l.foldl (scanSibling self index) s).hasPrecedingSiblings = true →
        (l.foldl (scanSibling self index) s).nb > 0) := by
  induction l with
  | nil => intro s hf hp; exact ⟨by simp, hf, hp⟩
  | cons e rest ih =>
    intro s hf hp
    obtain ⟨h1, h2⟩ := scanSibling_flags self index s e hf hp
    obtain ⟨k1, k2, k3⟩ := ih (scanSibling self index s e) h1 h2
    rw [List.foldl_cons]
    refine ⟨?_, k2, k3⟩
    rw [k1, scanSibling_nb, List.countP_cons]
    omega

theorem xpathStep_eq (doc : DomNode) (element : ElemRef) :
    xpathStep doc element =
      toLowerCase (tagName (elem doc element)) ++
        (if hasOtherSameTag doc element then
          "[" ++ toString (otherSameTagCount doc element + 1) ++ "]"
        else "") := by
  obtain ⟨h1, h2, h3⟩ := scan_foldl (elem doc element) (ownIndex element)
    (siblingNodes doc element).enum ⟨0, false, false⟩ (by simp) (by simp)
  simp only [Nat.zero_add] at h1
  unfold xpathStep
  simp only
  have hany : hasOtherSameTag doc element =
      decide (otherSameTagCount doc element > 0) := by
    unfold hasOtherSameTag otherSameTagCount
    rw [Bool.eq_iff_iff]
    simp only [List.any_eq_true, decide_eq_true_eq, List.countP_pos_iff]
  rw [hany]
  unfold otherSameTagCount
  rw [← h1]
  by_cases hn : ((siblingNodes doc element).enum.foldl
      (scanSibling (elem doc element) (ownIndex element)) ⟨0, false, false⟩).nb > 0
  · simp [hn]
  · have hf := mt h2 hn
    have hp := mt h3 hn
    simp only [Bool.not_eq_true] at hf hp
    simp [hn, hf, hp]

theorem xpathParts_eq (doc : DomNode) (element : ElemRef) :
    ∀ parts : List String,
      xpathParts doc element parts = element.tails.reverse.map (xpathStep doc) ++ parts := by
  induction element with
  | nil => intro parts; simp [xpathParts]
  | cons i up ih =>
    intro parts
    simp [xpathParts, ih]

theorem tails_getLast (l : List Nat) : l.tails.getLast? = some [] := by
  induction l with
  | nil => rfl
  | cons i up ih =>
    rw [List.tails_cons]
    cases h : up.tails with
    | nil => rw [h] at ih; simp at ih
    | cons b rest =>
      rw [List.getLast?_cons_cons, ← h]
      exact ih

/-- C15: for an element without an id, `getElementXPath` is `/` followed by
the `/`-joined steps of the root element, every ancestor below it, and the
element, in that order. A step is the bare lower-case tag name when the node
has no other element sibling with its tag name; it carries a bracketed number
(one more than the count of those other siblings) exactly when it has one. -/
theorem xpath_step_is_indexed_iff_same_tag_sibling (doc : DomNode) (element : ElemRef)
    (hid : elemId (elem doc element) = "") :
    getElementXPath doc element =
      "/" ++ join "/" (element.tails.reverse.map (fun level =>
        toLowerCase (tagName (elem doc level)) ++
          (if hasOtherSameTag doc level then
            "[" ++ toString (otherSameTagCount doc level + 1) ++ "]"
          else ""))) ∧
    element.tails.reverse.length = element.length + 1 ∧
    element.tails.reverse.head? = some [] ∧
    element.tails.reverse.getLast? = some element := by
  refine ⟨?_, by simp, ?_, ?_⟩
  · unfold getElementXPath
    simp only [hid, ne_eq, not_true_eq_false, if_false]
    rw [xpathParts_eq, List.append_nil]
    congr 2
    apply List.map_congr_left
    intro level _
    exact xpathStep_eq doc level
  · rw [List.head?_reverse]
    exact tails_getLast element
  · simp [List.getLast?_reverse]
    cases element <;> simp

theorem xpath_step_is_indexed_iff_same_tag_sibling_witness :
    elemId (elem samplePage sampleButton) = "" ∧
    getElementXPath samplePage sampleButton = "/html/body/div[2]/form/section/button" :=
  ⟨by decide, by
    rw [(xpath_step_is_indexed_iff_same_tag_sibling samplePage sampleButton (by decide)).1]
    decide⟩

/-- C14, the code at the failing input: the two sibling `div` elements of
`samplePage` stand first and second among the `div` children of `body`, and
`getElementXPath` returns `/html/body/div[2]` for both: the bracket holds
the number of same-tag siblings, not the node's position. -/
theorem same_tag_siblings_get_the_same_xpath :
    elemId (elem samplePage sampleFirstDiv) = "" ∧
    elemId (elem samplePage sampleSecondDiv) = "" ∧
    positionAmongSameTag samplePage sampleFirstDiv = 1 ∧
    positionAmongSameTag samplePage sampleSecondDiv = 2 ∧
    getElementXPath samplePage sampleFirstDiv = "/html/body/div[2]" ∧
    getElementXPath samplePage sampleSecondDiv = "/html/body/div[2]" := by
  decide

end D365Recorder

namespace D365Recorder
open Dom

theorem join_cons_of_ne_nil (sep a : String) (rest : List String) (h : rest ≠ []) :
    join sep (a :: rest) = a ++ sep ++ join sep rest := by
  cases rest with
  | nil => exact absurd rfl h
  | cons b more => rfl

theorem namedAncestors_cons (doc : DomNode) (i : Nat) (parent : ElemRef) :
    namedAncestors doc (i :: parent) =
      if some parent = documentBody doc then []
      else if elemId (elem doc parent) ≠ "" then [parent]
      else parent :: namedAncestors doc parent := by
  unfold namedAncestors
  by_cases hb : some parent = documentBody doc
  · simp [properAncestors, List.takeWhile, hb, upToFirstId]
  · by_cases hid : elemId (elem doc parent) = ""
    · simp [properAncestors, List.takeWhile, hb, upToFirstId, hid]
    · simp [properAncestors, List.takeWhile, hb, upToFirstId, hid]

theorem selectorWalk_eq (doc : DomNode) (element : ElemRef) :
    ∀ rest : List String, rest ≠ [] →
      selectorWalk doc element (join " > " rest) =
        join " > " ((namedAncestors doc element).reverse.map (ancestorSegment doc) ++ rest) := by
  induction element with
  | nil =>
    intro rest _
    simp [selectorWalk, namedAncestors, properAncestors, upToFirstId]
  | cons i parent ih =>
    intro rest hne
    rw [namedAncestors_cons]
    unfold selectorWalk
    by_cases hb : some parent = documentBody doc
    · simp [hb]
    · by_cases hid : elemId (elem doc parent) = ""
      · have hseg : ∀ seg : String, seg ++ " > " ++ join " > " rest = join " > " (seg :: rest) :=
          fun seg => (join_cons_of_ne_nil " > " seg rest hne).symm
        by_cases hc : className (elem doc parent) = ""
        · simp only [hb, hid, hc, ne_eq, not_true_eq_false, if_false]
          rw [hseg, ih _ (List.cons_ne_nil _ _)]
          simp [ancestorSegment, hid, hc]
        · simp only [hb, hid, hc, ne_eq, not_true_eq_false, not_false_eq_true, if_false, if_true]
          rw [hseg, ih _ (List.cons_ne_nil _ _)]
          simp [ancestorSegment, hid, hc]
      · simp only [hb, hid, ne_eq, not_false_eq_true, if_false, if_true]
        rw [← join_cons_of_ne_nil " > " _ rest hne]
        simp [ancestorSegment, hid]

theorem getElementSelector_eq (doc : DomNode) (element : ElemRef)
    (hid : elemId (elem doc element) = "") :
    getElementSelector doc element =
      join " > " ((namedAncestors doc element).reverse.map (ancestorSegment doc) ++
        [ownSelector doc element]) := by
  unfold getElementSelector
  simp only [hid, ne_eq, not_true_eq_false, if_false]
  exact selectorWalk_eq doc element [ownSelector doc element] (List.cons_ne_nil _ _)

theorem body_not_in_upToFirstId (doc : DomNode) (l : List ElemRef) (a : ElemRef)
    (h : a ∈ upToFirstId doc l) : a ∈ l := by
  induction l with
  | nil => simp [upToFirstId] at h
  | cons b rest ih =>
    unfold upToFirstId at h
    split at h
    · simp at h
      simp [h]
    · simp only [List.mem_cons] at h ⊢
      rcases h with h | h
      · exact Or.inl h
      · exact Or.inr (ih h)

theorem selectorWalkCall_eq (doc : DomNode) (element : ElemRef) :
    ∀ selector : String,
      (∀ a ∈ namedAncestors doc element, (props (elem doc a)).svg = false) →
      selectorWalkCall doc element selector = some (selectorWalk doc element selector) := by
  induction element with
  | nil =>
    intro selector _
    simp [selectorWalkCall, selectorWalk]
  | cons i parent ih =>
    intro selector hhtml
    rw [namedAncestors_cons] at hhtml
    unfold selectorWalkCall selectorWalk
    by_cases hb : some parent = documentBody doc
    · simp [hb]
    · by_cases hid : elemId (elem doc parent) = ""
      · simp only [hb, hid, ne_eq, not_true_eq_false, if_false] at hhtml ⊢
        have hp : (props (elem doc parent)).svg = false := hhtml parent (List.mem_cons_self _ _)
        have hrest : ∀ a ∈ namedAncestors doc parent, (props (elem doc a)).svg = false :=
          fun a ha => hhtml a (List.mem_cons_of_mem _ ha)
        simp only [classNameString, hp, Bool.false_eq_true, if_false]
        by_cases hc : className (elem doc parent) = ""
        · simp only [hc, ne_eq, not_true_eq_false, if_false]
          exact ih _ hrest
        · simp only [hc, ne_eq, not_false_eq_true, if_true]
          exact ih _ hrest
      · simp [hb, hid]

theorem getElementSelectorCall_eq (doc : DomNode) (element : ElemRef)
    (hhtml : ∀ a ∈ element :: namedAncestors doc element, (props (elem doc a)).svg = false) :
    getElementSelectorCall doc element = some (getElementSelector doc element) := by
  unfold getElementSelectorCall getElementSelector
  by_cases hid : elemId (elem doc element) = ""
  · have hp : (props (elem doc element)).svg = false := hhtml element (List.mem_cons_self _ _)
    simp only [hid, ne_eq, not_true_eq_false, if_false, classNameString, hp, Bool.false_eq_true]
    rw [selectorWalkCall_eq doc element _ (fun a ha => hhtml a (List.mem_cons_of_mem _ ha))]
    rfl
  · simp [hid]

/-- C17 (as the code behaves): for an HTML element without an id whose named
ancestors are HTML elements, the call returns a selector whose last segment,
the node's own, is its lower-case tag name followed, when its `className` is
not empty, by `.` and all the pieces of `className` between single spaces
joined with `.`: every class name of the node appears, not the first one
only. -/
theorem own_selector_segment_lists_all_classes (doc : DomNode) (element : ElemRef)
    (hid : elemId (elem doc element) = "")
    (hhtml : ∀ a ∈ element :: namedAncestors doc element,
      (props (elem doc a)).svg = false) :
    ∃ chain : List String,
      getElementSelectorCall doc element =
        some (join " > " (chain ++
          [if className (elem doc element) ≠ "" then
            toLowerCase (tagName (elem doc element)) ++ "." ++
              join "." (splitSpace (className (elem doc element)))
          else toLowerCase (tagName (elem doc element))])) :=
  ⟨(namedAncestors doc element).reverse.map (ancestorSegment doc), by
    rw [getElementSelectorCall_eq doc element hhtml, getElementSelector_eq doc element hid]
    rfl⟩

/-- C17 fails as stated: the button of `samplePage`, an HTML element among
HTML elements, has no id and the class names `btn` and `primary`; the call
returns `form#main > section.group > button.btn.primary`, whose last segment
is `button.btn.primary`, so the second class name appears as well. -/
theorem own_selector_segment_has_second_class :
    elemId (elem samplePage sampleButton) = "" ∧
    classTokens (className (elem samplePage sampleButton)) = ["btn", "primary"] ∧
    (props (elem samplePage sampleButton)).svg = false ∧
    getElementSelectorCall samplePage sampleButton =
      some "form#main > section.group > button.btn.primary" ∧
    (getElementSelectorCall samplePage sampleButton).map
      (fun selector => includes selector "primary") = some true := by
  decide

theorem own_selector_segment_lists_all_classes_witness :
    elemId (elem samplePage sampleFirstDiv) = "" ∧
    (∀ a ∈ sampleFirstDiv :: namedAncestors samplePage sampleFirstDiv,
      (props (elem samplePage a)).svg = false) ∧
    ∃ chain : List String,
      getElementSelectorCall samplePage sampleFirstDiv =
        some (join " > " (chain ++
          [if className (elem samplePage sampleFirstDiv) ≠ "" then
            toLowerCase (tagName (elem samplePage sampleFirstDiv)) ++ "." ++
              join "." (splitSpace (className (elem samplePage sampleFirstDiv)))
          else toLowerCase (tagName (elem samplePage sampleFirstDiv))])) :=
  ⟨by decide, by decide,
    own_selector_segment_lists_all_classes samplePage sampleFirstDiv (by decide) (by decide)⟩

/-- What `getElementSelector` does where it returns: for an HTML element
without an id whose named ancestors are HTML elements, the call returns the
` > `-joined chain of one segment per named ancestor, outermost first,
followed by the node's own segment. The named ancestors are the ancestors
met on the way up before `document.body` (or up to the root element when the
node is not inside the body), cut after the nearest one that has an id. An
ancestor with an id contributes `tag#id` and is the outermost one named;
every other contributes its lower-case tag, with `.` and its first class
name when it has a class. `document.body` is never among them. -/
theorem selector_is_chain_of_named_ancestors (doc : DomNode) (element : ElemRef)
    (hid : elemId (elem doc element) = "")
    (hhtml : ∀ a ∈ element :: namedAncestors doc element,
      (props (elem doc a)).svg = false) :
    getElementSelectorCall doc element =
      some (join " > " ((namedAncestors doc element).reverse.map (fun a =>
          if elemId (elem doc a) ≠ "" then
            toLowerCase (tagName (elem doc a)) ++ "#" ++ elemId (elem doc a)
          else if className (elem doc a) ≠ "" then
            toLowerCase (tagName (elem doc a)) ++ "." ++
              (splitSpace (className (elem doc a))).headD ""
          else toLowerCase (tagName (elem doc a))) ++
        [ownSelector doc element])) ∧
    namedAncestors doc element =
      upToFirstId doc ((properAncestors element).takeWhile
        (fun a => decide (some a ≠ documentBody doc))) ∧
    (∀ a ∈ namedAncestors doc element, some a ≠ documentBody doc) ∧
    (∀ a ∈ (namedAncestors doc element).dropLast, elemId (elem doc a) = "") := by
  refine ⟨by
    rw [getElementSelectorCall_eq doc element hhtml, getElementSelector_eq doc element hid]
    rfl, rfl, ?_, ?_⟩
  · intro a ha
    have h := body_not_in_upToFirstId doc _ a ha
    have h2 := List.mem_takeWhile_imp h
    simpa using h2
  · intro a ha
    unfold namedAncestors at ha
    generalize (properAncestors element).takeWhile
      (fun a => decide (some a ≠ documentBody doc)) = l at ha
    induction l with
    | nil => simp [upToFirstId] at ha
    | cons b rest ih =>
      unfold upToFirstId at ha
      by_cases hb : elemId (elem doc b) = ""
      · simp only [hb, ne_eq, not_true_eq_false, if_false] at ha
        cases hr : upToFirstId doc rest with
        | nil => rw [hr] at ha; simp at ha
        | cons c more =>
          rw [hr, List.dropLast_cons₂] at ha
          rcases List.mem_cons.mp ha with h | h
          · rw [h]; exact hb
          · rw [hr] at ih
            exact ih h
      · simp [hb] at ha

theorem selector_is_chain_of_named_ancestors_witness :
    elemId (elem samplePage [0, 2, 1]) = "" ∧
    namedAncestors samplePage [0, 2, 1] = [[2, 1]] ∧
    getElementSelectorCall samplePage [0, 2, 1] = some "div.row > span" ∧
    namedAncestors samplePage sampleButton = [[0, 0, 3, 1], [0, 3, 1]] := by
  refine ⟨by decide, by decide, ?_, by decide⟩
  rw [(selector_is_chain_of_named_ancestors samplePage [0, 2, 1] (by decide) (by decide)).1]
  decide

/-- C18, the code at the failing input: in `sampleIconPage` the `svg` element,
its `path` and the `span` inside its `foreignObject` have no id. For the
`svg` element and for the `path` the `className` is not a string, and the
call throws at content.js:373. For the `span`, an HTML element without a
class, the walk reaches the `foreignObject` and throws at content.js:385. No
selector is returned, where the chain of named ancestors the claim describes
is `div.toolbar > svg.icon > path` for the `path`. The `button` next to the
icon gets `div.toolbar > button`. -/
theorem getElementSelector_throws_on_svg_elements :
    elemId (elem sampleIconPage sampleIcon) = "" ∧
    elemId (elem sampleIconPage sampleIconPath) = "" ∧
    elemId (elem sampleIconPage sampleIconCaption) = "" ∧
    (props (elem sampleIconPage sampleIcon)).svg = true ∧
    (props (elem sampleIconPage sampleIconPath)).svg = true ∧
    (props (elem sampleIconPage sampleIconCaption)).svg = false ∧
    getElementSelectorCall sampleIconPage sampleIcon = none ∧
    getElementSelectorCall sampleIconPage sampleIconPath = none ∧
    getElementSelectorCall sampleIconPage sampleIconCaption = none ∧
    join " > " ((namedAncestors sampleIconPage sampleIconPath).reverse.map
      (ancestorSegment sampleIconPage) ++ [ownSelector sampleIconPage sampleIconPath]) =
        "div.toolbar > svg.icon > path" ∧
    getElementSelectorCall sampleIconPage sampleIconButton = some "div.toolbar > button" := by
  decide

end D365Recorder

namespace D365Recorder
open Dom

/-- C20, the code at the failing input: while recording, the text area of the
recorder's own note dialog lies inside `#d365-recorder-note-dialog`; a click
on it records nothing, but an `input` event on it leaves, once its timeout
has run, a step of type `input`, and a `change` event on it records a step of
type `change` at once: `handleInput` and `handleChange` lack the test that
`handleClick` makes. -/
theorem input_and_change_inside_own_ui_are_recorded :
    sampleRecorder.isRecording = true ∧
    insideOwnUi sampleDialogDoc sampleNoteText = true ∧
    (handleClick (sampleDialogPage 5000) sampleNoteText sampleRecorder).saved.map
      (fun step => step.data.type) = ["session_start"] ∧
    (inputTimeoutFires (sampleDialogPage 6000)
      (handleInput (sampleDialogPage 5000) sampleNoteText sampleRecorder)).saved.map
      (fun step => (step.data.type, step.data.description)) =
        [("session_start", "Recording session started"),
         ("input", "Enter text in \"field\"")] ∧
    (handleChange (sampleDialogPage 5000) sampleNoteText sampleRecorder).saved.map
      (fun step => (step.data.type, step.data.description)) =
        [("session_start", "Recording session started"),
         ("change", "Change value of \"field\"")] := by
  decide

end D365Recorder

namespace D365Recorder
open Dom

/-! ### The debounce timer -/

theorem inputTimeoutFires_not_due (page : Page) (r : Recorder)
    (h : ∀ p, r.inputTimeout = some p → page.now < p.due) : inputTimeoutFires page r = r := by
  unfold inputTimeoutFires
  cases hp : r.inputTimeout with
  | none => rfl
  | some p =>
    have := h p hp
    simp [Nat.not_le.mpr this]

theorem typing_keeps (inputs : List (Page × ElemRef)) :
    ∀ r : Recorder, r.isRecording = true →
      (∀ p first, r.inputTimeout = some p → inputs.head? = some first → first.1.now < p.due) →
      List.Chain' closeInTime inputs →
      (typing inputs r).saved = r.saved ∧
      ∀ last, inputs.getLast? = some last →
        (typing inputs r).inputTimeout =
          some ⟨last.1.now + 1000, last.2, getElementInfo last.1.doc last.2⟩ := by
  induction inputs with
  | nil => intro r _ _ _; exact ⟨rfl, fun last h => by simp at h⟩
  | cons first rest ih =>
    intro r hrec hpend hchain
    obtain ⟨page, target⟩ := first
    have h1 : inputTimeoutFires page r = r :=
      inputTimeoutFires_not_due page r (fun p hp => hpend p (page, target) hp rfl)
    have h2 : handleInput page target r =
        { r with inputTimeout := some ⟨page.now + 1000, target, getElementInfo page.doc target⟩ } := by
      simp [handleInput, hrec]
    simp only [typing, h1, h2]
    obtain ⟨k1, k5⟩ := ih
      { r with inputTimeout := some ⟨page.now + 1000, target, getElementInfo page.doc target⟩ }
      hrec
      (by
        intro p next hp hnext
        simp only [Option.some.injEq] at hp
        subst hp
        cases rest with
        | nil => simp at hnext
        | cons b more =>
          simp only [List.head?_cons, Option.some.injEq] at hnext
          subst hnext
          exact (List.chain'_cons.mp hchain).1.2)
      (List.Chain'.tail hchain)
    refine ⟨k1, ?_⟩
    intro last hlast
    cases rest with
    | nil =>
      simp only [List.getLast?_singleton, Option.some.injEq] at hlast
      subst hlast
      rfl
    | cons b more =>
      rw [List.getLast?_cons_cons] at hlast
      exact k5 last hlast

/-- C21 (as the code behaves): the recorder has one input timer, shared by
all fields. After a run of `input` events, on whatever fields, each less than
1000 ms after the previous one, nothing has been recorded; the clock running
the timeout callback before 1000 ms have passed since the last event changes
nothing; once 1000 ms have passed it records exactly one step, of type
`input`, for the field of the last event, and running it again changes
nothing more. -/
theorem debounce_uses_one_shared_timer (inputs : List (Page × ElemRef)) (last : Page × ElemRef)
    (r : Recorder) (late : Page) (hrec : r.isRecording = true) (hnone : r.inputTimeout = none)
    (hclose : List.Chain' closeInTime (inputs ++ [last])) :
    (typing (inputs ++ [last]) r).saved = r.saved ∧
    (late.now < last.1.now + 1000 →
      inputTimeoutFires late (typing (inputs ++ [last]) r) = typing (inputs ++ [last]) r) ∧
    (last.1.now + 1000 ≤ late.now →
      ∃ step, (inputTimeoutFires late (typing (inputs ++ [last]) r)).saved = r.saved ++ [step] ∧
        step.data.type = "input" ∧ step.data.element = some last.2 ∧
        step.timestamp = late.now ∧
        ∀ later : Page,
          inputTimeoutFires later (inputTimeoutFires late (typing (inputs ++ [last]) r)) =
            inputTimeoutFires late (typing (inputs ++ [last]) r)) := by
  obtain ⟨k1, k⟩ := typing_keeps (inputs ++ [last]) r hrec
    (by intro p first hp; rw [hnone] at hp; cases hp) hclose
  have k5 := k last (by simp)
  refine ⟨k1, ?_, ?_⟩
  · intro hearly
    apply inputTimeoutFires_not_due
    intro p hp
    rw [k5] at hp
    cases hp
    exact hearly
  · intro hdue
    have hfire : inputTimeoutFires late (typing (inputs ++ [last]) r) =
        recordStep late
          { type := "input"
            description := generateStepDescription late.doc "input" last.2
            element := some last.2
            elementInfo := some (getElementInfo last.1.doc last.2)
            value := RecordingManager.optStr (props (elem late.doc last.2)).value }
          { typing (inputs ++ [last]) r with inputTimeout := none } := by
      unfold inputTimeoutFires
      rw [k5]
      simp [hdue]
    rw [hfire]
    simp only [recordStep, k1]
    refine ⟨_, rfl, rfl, rfl, rfl, ?_⟩
    intro later
    simp [inputTimeoutFires]

theorem debounce_uses_one_shared_timer_witness :
    sampleTypingRecorder.isRecording = true ∧
    sampleTypingRecorder.inputTimeout = none ∧
    List.Chain' closeInTime
      ([(sampleFieldsPage 5000, sampleFieldA)] ++ [(sampleFieldsPage 5500, sampleFieldB)]) ∧
    (typing ([(sampleFieldsPage 5000, sampleFieldA)] ++ [(sampleFieldsPage 5500, sampleFieldB)])
      sampleTypingRecorder).saved = sampleTypingRecorder.saved :=
  ⟨rfl, rfl, by simp [closeInTime, sampleFieldsPage],
    (debounce_uses_one_shared_timer [(sampleFieldsPage 5000, sampleFieldA)]
      (sampleFieldsPage 5500, sampleFieldB) sampleTypingRecorder (sampleFieldsPage 6500) rfl rfl
      (by simp [closeInTime, sampleFieldsPage])).1⟩

/-- C21 fails as stated: an `input` event on the first field at time 5000 is
followed by one on the second field at time 5500. With the clock running the
timeout callback at 6000, 6500 and 7500, the only input step recorded is the
one of the second field, at 6500; the first field gets no step. -/
theorem input_on_another_field_drops_the_pending_step :
    (run [(sampleFieldsPage 5000, PageEvent.input sampleFieldA),
          (sampleFieldsPage 5500, PageEvent.input sampleFieldB),
          (sampleFieldsPage 6000, PageEvent.timeout),
          (sampleFieldsPage 6500, PageEvent.timeout),
          (sampleFieldsPage 7500, PageEvent.timeout)] sampleTypingRecorder).saved.map
      (fun step => (step.data.type, step.data.element, step.timestamp)) =
        [("session_start", none, 0), ("input", some sampleFieldB, 6500)] := by
  decide

/-- C22, the code at the failing input: an `input` event at time 5000 leaves
a timeout pending; `stopRecording` at 5300 does not clear it; at 6000 its
callback records a step of type `input` although the recorder is no longer
recording, and the step carries no session id. A click after the stop is
ignored. -/
theorem pending_input_step_is_recorded_after_stop :
    (run [(sampleFieldsPage 5000, PageEvent.input sampleFieldA),
          (sampleFieldsPage 5300, PageEvent.stopRecording)] sampleTypingRecorder).isRecording
      = false ∧
    (run [(sampleFieldsPage 5000, PageEvent.input sampleFieldA),
          (sampleFieldsPage 5300, PageEvent.stopRecording)] sampleTypingRecorder).saved.map
      (fun step => step.data.type) = ["session_start"] ∧
    (run [(sampleFieldsPage 5000, PageEvent.input sampleFieldA),
          (sampleFieldsPage 5300, PageEvent.stopRecording),
          (sampleFieldsPage 5400, PageEvent.click sampleFieldB),
          (sampleFieldsPage 6000, PageEvent.timeout)] sampleTypingRecorder).saved.map
      (fun step => (step.data.type, step.sessionId, step.timestamp)) =
        [("session_start", some "1000", 0), ("input", none, 6000)] := by
  decide

end D365Recorder

namespace D365Recorder
open Dom

/-! ### Step ids -/

theorem digitChar_value (k : Nat) (h : k < 10) : (Nat.digitChar k).toNat - 48 = k := by
  interval_cases k <;> rfl

theorem decimal_toDigitsCore (fuel : Nat) :
    ∀ (n : Nat) (ds : List Char), n < fuel →
      (Nat.toDigitsCore 10 fuel n ds).foldl (fun acc c => acc * 10 + (c.toNat - 48)) 0 =
        ds.foldl (fun acc c => acc * 10 + (c.toNat - 48)) n := by
  induction fuel with
  | zero => intro n ds h; omega
  | succ fuel ih =>
    intro n ds h
    unfold Nat.toDigitsCore
    by_cases hz : n / 10 = 0
    · simp only [hz, if_true, List.foldl_cons, Nat.zero_mul, Nat.zero_add]
      rw [digitChar_value (n % 10) (Nat.mod_lt _ (by decide))]
      have : n % 10 = n := Nat.mod_eq_of_lt (by omega)
      rw [this]
    · simp only [hz, if_false]
      rw [ih (n / 10) _ (by omega), List.foldl_cons,
        digitChar_value (n % 10) (Nat.mod_lt _ (by decide))]
      have : n / 10 * 10 + n % 10 = n := by omega
      rw [this]

theorem decimalValue_toString (n : Nat) : decimalValue (toString n).toList = n := by
  show decimalValue (Nat.repr n).toList = n
  unfold decimalValue Nat.repr Nat.toDigits
  exact decimal_toDigitsCore (n + 1) n [] (Nat.lt_succ_self n)

theorem stepId_injective (a b : Nat)
    (h : "step_" ++ toString a = "step_" ++ toString b) : a = b := by
  have h1 : (toString a).toList = (toString b).toList := by
    have := congrArg String.toList h
    simpa using this
  have h2 := congrArg decimalValue h1
  rwa [decimalValue_toString, decimalValue_toString] at h2

theorem numberedFrom_recordStep (base : List Step) (page : Page) (data : StepData)
    (r : Recorder) (h : NumberedFrom base r) : NumberedFrom base (recordStep page data r) := by
  obtain ⟨recorded, h1, h2, h3⟩ := h
  refine ⟨recorded ++ [_], by simp only [recordStep, h1, List.append_assoc]; rfl,
    by simp [recordStep, h2], ?_⟩
  intro i step hstep
  rcases Nat.lt_trichotomy i recorded.length with hlt | heq | hgt
  · rw [List.getElem?_append_left hlt] at hstep
    exact h3 i step hstep
  · subst heq
    simp at hstep
    subst hstep
    simp [h2]
  · rw [List.getElem?_eq_none (by simp; omega)] at hstep
    cases hstep

theorem numberedFrom_of_same (base : List Step) (r r2 : Recorder)
    (hs : r2.saved = r.saved) (hc : r2.stepCounter = r.stepCounter)
    (h : NumberedFrom base r) : NumberedFrom base r2 := by
  obtain ⟨recorded, h1, h2, h3⟩ := h
  exact ⟨recorded, by rw [hs, h1], by rw [hc, h2], h3⟩

theorem numberedFrom_checkForSignificantChange (base : List Step) (page : Page)
    (node : ElemRef) (r : Recorder) (h : NumberedFrom base r) :
    NumberedFrom base (checkForSignificantChange page node r) := by
  unfold checkForSignificantChange
  split
  · exact numberedFrom_recordStep base page _ r h
  · exact h

theorem numberedFrom_handleMutations (base : List Step) (page : Page) (added : List ElemRef) :
    ∀ r : Recorder, NumberedFrom base r → NumberedFrom base (handleMutations page added r) := by
  intro r h
  unfold handleMutations
  split
  · exact h
  · clear * - h
    induction added generalizing r with
    | nil => exact h
    | cons node rest ih =>
      rw [List.foldl_cons]
      apply ih
      split
      · exact numberedFrom_checkForSignificantChange base page node r h
      · exact h

theorem numberedFrom_react (base : List Step) (page : Page) (event : PageEvent) (r : Recorder)
    (hns : isStart event = false) (h : NumberedFrom base r) :
    NumberedFrom base (react page event r) := by
  cases event with
  | startRecording sessionId => simp [isStart] at hns
  | stopRecording => exact numberedFrom_of_same base r _ rfl rfl h
  | click target =>
    simp only [react, handleClick]
    split
    · exact h
    · split
      · exact h
      · exact numberedFrom_recordStep base page _ r h
  | input target =>
    simp only [react, handleInput]
    split
    · exact h
    · exact numberedFrom_of_same base r _ rfl rfl h
  | change target =>
    simp only [react, handleChange]
    split
    · exact h
    · exact numberedFrom_recordStep base page _ r h
  | timeout =>
    simp only [react, inputTimeoutFires]
    split
    · split
      · exact numberedFrom_recordStep base page _ _ (numberedFrom_of_same base r _ rfl rfl h)
      · exact h
    · exact h
  | nodesAdded added => exact numberedFrom_handleMutations base page added r h
  | note noteText targetElement => exact numberedFrom_recordStep base page _ r h

theorem numberedFrom_run (base : List Step) (events : List (Page × PageEvent)) :
    ∀ r : Recorder, (∀ e ∈ events, isStart e.2 = false) → NumberedFrom base r →
      NumberedFrom base (run events r) := by
  induction events with
  | nil => intro r _ h; exact h
  | cons e rest ih =>
    intro r hns h
    simp only [run, List.foldl_cons]
    exact ih _ (fun x hx => hns x (List.mem_cons_of_mem _ hx))
      (numberedFrom_react base e.1 e.2 r (hns e (List.mem_cons_self _ _)) h)

theorem numberedFrom_startRecording (page : Page) (sessionId : Option String) (r : Recorder) :
    NumberedFrom r.saved (startRecording page sessionId r) := by
  refine ⟨[_], rfl, rfl, ?_⟩
  intro i step hstep
  cases i with
  | zero =>
    simp at hstep
    subst hstep
    exact ⟨rfl, rfl⟩
  | succ k => simp at hstep

/-- C23 (as the code behaves): within one recording run, from a
`startRecording` on through any events up to the next `startRecording`, the
steps recorded carry the ids `step_1`, `step_2`, ... of a counter that grows
by one at each `recordStep`, so any two of them have different ids. The
counter starts again at 0 with every `startRecording`. -/
theorem step_ids_are_unique_within_one_run (page : Page) (sessionId : Option String)
    (r : Recorder) (events : List (Page × PageEvent))
    (hrun : ∀ e ∈ events, isStart e.2 = false) :
    ∃ recorded : List Step,
      (run events (startRecording page sessionId r)).saved = r.saved ++ recorded ∧
      (∀ (i : Nat) (step : Step), recorded[i]? = some step →
        step.stepNumber = i + 1 ∧ step.id = "step_" ++ toString (i + 1)) ∧
      (∀ (i j : Nat) (a b : Step), recorded[i]? = some a → recorded[j]? = some b → i ≠ j →
        a.id ≠ b.id) ∧
      (startRecording page sessionId r).stepCounter = 1 := by
  obtain ⟨recorded, h1, _, h3⟩ := numberedFrom_run r.saved events _ hrun
    (numberedFrom_startRecording page sessionId r)
  refine ⟨recorded, h1, h3, ?_, rfl⟩
  intro i j a b ha hb hij heq
  rw [(h3 i a ha).2, (h3 j b hb).2] at heq
  have := stepId_injective _ _ heq
  omega

theorem step_ids_are_unique_within_one_run_witness :
    (∀ e ∈ [(sampleFieldsPage 5000, PageEvent.click sampleFieldA),
        (sampleFieldsPage 5300, PageEvent.stopRecording)], isStart e.2 = false) ∧
    ∃ recorded : List Step,
      (run [(sampleFieldsPage 5000, PageEvent.click sampleFieldA),
          (sampleFieldsPage 5300, PageEvent.stopRecording)]
        (startRecording (sampleFieldsPage 0) (some "1000") fresh)).saved =
          fresh.saved ++ recorded ∧
      (∀ (i : Nat) (step : Step), recorded[i]? = some step →
        step.stepNumber = i + 1 ∧ step.id = "step_" ++ toString (i + 1)) ∧
      (∀ (i j : Nat) (a b : Step), recorded[i]? = some a → recorded[j]? = some b → i ≠ j →
        a.id ≠ b.id) ∧
      (startRecording (sampleFieldsPage 0) (some "1000") fresh).stepCounter = 1 :=
  ⟨by decide,
    step_ids_are_unique_within_one_run (sampleFieldsPage 0) (some "1000") fresh
      [(sampleFieldsPage 5000, PageEvent.click sampleFieldA),
        (sampleFieldsPage 5300, PageEvent.stopRecording)] (by decide)⟩

/-- C23 fails as stated: a recorder that started with session id `1000` and
is started again with the same session id (as `init` does after a page
refresh) records two steps that both carry session id `1000` and id
`step_1`, with different timestamps. -/
theorem restart_with_same_session_repeats_step_ids :
    (run [(sampleFieldsPage 0, PageEvent.startRecording (some "1000")),
          (sampleFieldsPage 9000, PageEvent.startRecording (some "1000"))] fresh).saved.map
      (fun step => (step.sessionId, step.id, step.timestamp)) =
        [(some "1000", "step_1", 0), (some "1000", "step_1", 9000)] := by
  decide

/-! ### The structural-change watcher -/

/-- C25 (as the code behaves): while recording, for an inserted element node
that itself matches one of the five markers (`[data-dyn-controlname]`,
`.dyn-form`, `.dyn-dialog`, `[role="dialog"]`, `.workspace-content`), the
watcher records one step of type `navigation`, marked automatic and saved
without a screenshot capture; for an inserted node that matches none itself,
whatever its descendants, and when not recording, it records nothing. -/
theorem watcher_tests_the_inserted_node_itself (page : Page) (node : ElemRef) (r : Recorder)
    (hrec : r.isRecording = true) (hnode : isElement (elem page.doc node) = true) :
    (matchesSignificant (elem page.doc node) =
      (hasDynControlName (elem page.doc node) || hasClass "dyn-form" (elem page.doc node) ||
        hasClass "dyn-dialog" (elem page.doc node) ||
        hasAttributeValue "role" "dialog" (elem page.doc node) ||
        hasClass "workspace-content" (elem page.doc node))) ∧
    (matchesSignificant (elem page.doc node) = true →
      ∃ step, (handleMutations page [node] r).saved = r.saved ++ [step] ∧
        step.data.type = "navigation" ∧ step.data.automatic = true ∧
        step.screenshot = false ∧
        step.data.description = "Form loaded: " ++ getFormTitle page.doc node) ∧
    (matchesSignificant (elem page.doc node) = false → handleMutations page [node] r = r) ∧
    (∀ (added : List ElemRef) (idle : Recorder), idle.isRecording = false →
      handleMutations page added idle = idle) := by
  refine ⟨by simp [matchesSignificant, significantSelectors, Bool.or_assoc], ?_, ?_, ?_⟩
  · intro hm
    simp only [handleMutations, hrec, List.foldl_cons, List.foldl_nil, hnode,
      checkForSignificantChange, hm, recordStep]
    exact ⟨_, rfl, rfl, rfl, rfl, rfl⟩
  · intro hm
    simp [handleMutations, hrec, hnode, checkForSignificantChange, hm]
  · intro added idle hidle
    simp [handleMutations, hidle]

theorem watcher_tests_the_inserted_node_itself_witness :
    sampleTypingRecorder.isRecording = true ∧
    isElement (elem (sampleInsertedPage 5000).doc sampleDialog) = true ∧
    matchesSignificant (elem (sampleInsertedPage 5000).doc sampleDialog) = true ∧
    ∃ step, (handleMutations (sampleInsertedPage 5000) [sampleDialog]
        sampleTypingRecorder).saved = sampleTypingRecorder.saved ++ [step] ∧
      step.data.type = "navigation" ∧ step.data.automatic = true ∧
      step.screenshot = false ∧
      step.data.description =
        "Form loaded: " ++ getFormTitle (sampleInsertedPage 5000).doc sampleDialog :=
  ⟨rfl, by decide, by decide,
    (watcher_tests_the_inserted_node_itself (sampleInsertedPage 5000) sampleDialog
      sampleTypingRecorder rfl (by decide)).2.1 (by decide)⟩

/-- C25 fails as stated: the inserted wrapper of `sampleInsertedDoc` holds an
element with class `dyn-form`, yet the watcher, handed the wrapper while
recording, records no step: it tests the wrapper alone. -/
theorem marker_below_the_inserted_node_is_not_seen :
    sampleTypingRecorder.isRecording = true ∧
    matchesSignificant (elem sampleInsertedDoc (0 :: sampleWrapper)) = true ∧
    matchesSignificant (elem sampleInsertedDoc sampleWrapper) = false ∧
    (handleMutations (sampleInsertedPage 5000) [sampleWrapper] sampleTypingRecorder).saved.map
      (fun step => step.data.type) = ["session_start"] := by
  decide

end D365Recorder

namespace RecordingManager

theorem get_enhanceStep_other (env : Env) (session : Session) (step : JsObj) (key : String)
    (h1 : key ≠ "id") (h2 : key ≠ "timestamp") (h3 : key ≠ "sessionId")
    (h4 : key ≠ "stepNumber") :
    JsObj.get (enhanceStep env session step) key = JsObj.get step key := by
  unfold enhanceStep
  rw [JsObj.get_set_other _ _ _ _ (Ne.symm h4), JsObj.get_set_other _ _ _ _ (Ne.symm h3),
    JsObj.get_set_other _ _ _ _ (Ne.symm h2), JsObj.get_set_other _ _ _ _ (Ne.symm h1)]

theorem get_enhanceStep_written (env : Env) (session : Session) (step : JsObj) :
    JsObj.get (enhanceStep env session step) "id" =
        JsVal.str ("step_" ++ toString env.now ++ "_" ++ env.rnd) ∧
    JsObj.get (enhanceStep env session step) "timestamp" = JsVal.isoTime env.now ∧
    JsObj.get (enhanceStep env session step) "sessionId" = session.id ∧
    JsObj.get (enhanceStep env session step) "stepNumber" =
        JsVal.num ((session.steps.length : Int) + 1) := by
  unfold enhanceStep
  refine ⟨?_, ?_, ?_, ?_⟩
  · rw [JsObj.get_set_other _ _ _ _ (by decide), JsObj.get_set_other _ _ _ _ (by decide),
      JsObj.get_set_other _ _ _ _ (by decide), JsObj.get_set_same]
  · rw [JsObj.get_set_other _ _ _ _ (by decide), JsObj.get_set_other _ _ _ _ (by decide),
      JsObj.get_set_same]
  · rw [JsObj.get_set_other _ _ _ _ (by decide), JsObj.get_set_same]
  · rw [JsObj.get_set_same]

theorem saveStep_accepted_steps (env : Env) (step : JsObj) (t : TabId) (st : State)
    (s : Session) (ht : tabIdFalsy t = false) (hs : st.sessions.lookup t = some s)
    (ha : t ∈ st.active) :
    ∃ saved, (saveStep env (some step) t st).sessions.lookup t = some saved ∧
      saved.steps = s.steps ++ [enhanceStep env s step] := by
  by_cases hcap : maxSteps ≤ s.steps.length + 1
  · exact ⟨_, (saveStep_cap env step t st s ht hs ha hcap).1, by simp [stoppedAt]⟩
  · exact ⟨_, (saveStep_accept_lookup env step t st s ht hs ha (Nat.lt_of_not_le hcap)).1, rfl⟩

/-- C24: `handleTabUpdate` appends a step of type `navigation`, with
description `Navigated to <tab title>` and the tab's url, to the session of a
tab exactly when the update's status is `complete`, the tab is in the active
set with a session, and the session's `captureNavigation` setting is truthy;
in every other case it returns the state unchanged. -/
theorem handleTabUpdate_appends_navigation_step (env : Env) (tabId : TabId)
    (status : Option String) (tab : TabInfo) (st : State) :
    (∀ session : Session, tabIdFalsy tabId = false → status = some "complete" →
      tabId ∈ st.active → st.sessions.lookup tabId = some session →
      (JsObj.get session.settings "captureNavigation").truthy = true →
      ∃ updated, (handleTabUpdate env tabId status tab st).sessions.lookup tabId =
          some updated ∧
        updated.steps = session.steps ++ [enhanceStep env session (navigationStep tab)] ∧
        JsObj.get (enhanceStep env session (navigationStep tab)) "type" =
          JsVal.str "navigation" ∧
        JsObj.get (enhanceStep env session (navigationStep tab)) "description" =
          JsVal.str ("Navigated to " ++ interpolate tab.title) ∧
        JsObj.get (enhanceStep env session (navigationStep tab)) "url" = optStr tab.url) ∧
    (¬ (status = some "complete" ∧ tabId ∈ st.active ∧
        ∃ session, st.sessions.lookup tabId = some session ∧
          (JsObj.get session.settings "captureNavigation").truthy = true) →
      handleTabUpdate env tabId status tab st = st) := by
  constructor
  · intro session htab hstatus hactive hsession hnav
    have h : handleTabUpdate env tabId status tab st =
        saveStep env (some (navigationStep tab)) tabId st := by
      simp [handleTabUpdate, hstatus, hactive, hsession, hnav]
    rw [h]
    obtain ⟨updated, h1, h2⟩ :=
      saveStep_accepted_steps env (navigationStep tab) tabId st session htab hsession hactive
    refine ⟨updated, h1, h2, ?_, ?_, ?_⟩
    · rw [get_enhanceStep_other _ _ _ _ (by decide) (by decide) (by decide) (by decide)]
      simp [navigationStep, JsObj.get, List.lookup]
    · rw [get_enhanceStep_other _ _ _ _ (by decide) (by decide) (by decide) (by decide)]
      simp [navigationStep, JsObj.get, List.lookup]
    · rw [get_enhanceStep_other _ _ _ _ (by decide) (by decide) (by decide) (by decide)]
      simp [navigationStep, JsObj.get, List.lookup]
  · intro hnot
    unfold handleTabUpdate
    by_cases hc : status = some "complete" ∧ tabId ∈ st.active
    · rw [if_pos hc]
      cases hs : st.sessions.lookup tabId with
      | none => rfl
      | some session =>
        simp only
        by_cases hnav : (JsObj.get session.settings "captureNavigation").truthy = true
        · exact absurd ⟨hc.1, hc.2, session, hs, hnav⟩ hnot
        · simp [hnav]
    · rw [if_neg hc]

theorem handleTabUpdate_appends_navigation_step_witness :
    tabIdFalsy (some 7) = false ∧
    some 7 ∈ sampleRecording.active ∧
    sampleRecording.sessions.lookup (some 7) = some sampleSession ∧
    (JsObj.get sampleSession.settings "captureNavigation").truthy = true ∧
    ∃ updated,
      (handleTabUpdate (sampleEnv 5000) (some 7) (some "complete")
        { url := some "https://d365.example/items", title := some "Items" }
        sampleRecording).sessions.lookup (some 7) = some updated ∧
      updated.steps = sampleSession.steps ++
        [enhanceStep (sampleEnv 5000) sampleSession
          (navigationStep { url := some "https://d365.example/items", title := some "Items" })] ∧
      JsObj.get (enhanceStep (sampleEnv 5000) sampleSession
          (navigationStep { url := some "https://d365.example/items", title := some "Items" }))
        "type" = JsVal.str "navigation" ∧
      JsObj.get (enhanceStep (sampleEnv 5000) sampleSession
          (navigationStep { url := some "https://d365.example/items", title := some "Items" }))
        "description" = JsVal.str ("Navigated to " ++ interpolate (some "Items")) ∧
      JsObj.get (enhanceStep (sampleEnv 5000) sampleSession
          (navigationStep { url := some "https://d365.example/items", title := some "Items" }))
        "url" = optStr (some "https://d365.example/items") :=
  ⟨by decide, by decide, by decide, by decide,
    (handleTabUpdate_appends_navigation_step (sampleEnv 5000) (some 7) (some "complete")
      { url := some "https://d365.example/items", title := some "Items" } sampleRecording).1
      sampleSession (by decide) rfl (by decide) (by decide) (by decide)⟩

/-- C26: an accepted `saveStep` appends exactly one step at the end of the
session's steps and leaves the earlier steps as they were, in order. The
added step reads, under every key other than `id`, `timestamp`, `sessionId`
and `stepNumber`, what the candidate reads there (its `description` among
them); under those four keys it reads the values written by `saveStep`,
whatever the candidate carried. -/
theorem accepted_saveStep_appends_and_frames (env : Env) (step : JsObj) (tabId : TabId)
    (st : State) (session : Session) (htab : tabIdFalsy tabId = false)
    (hsession : st.sessions.lookup tabId = some session) (hactive : tabId ∈ st.active) :
    ∃ saved, (saveStep env (some step) tabId st).sessions.lookup tabId = some saved ∧
      saved.steps = session.steps ++ [enhanceStep env session step] ∧
      saved.steps.length = session.steps.length + 1 ∧
      (∀ i : Nat, i < session.steps.length → saved.steps[i]? = session.steps[i]?) ∧
      (∀ key : String, key ≠ "id" → key ≠ "timestamp" → key ≠ "sessionId" →
        key ≠ "stepNumber" →
        JsObj.get (enhanceStep env session step) key = JsObj.get step key) ∧
      JsObj.get (enhanceStep env session step) "description" = JsObj.get step "description" ∧
      JsObj.get (enhanceStep env session step) "id" =
        JsVal.str ("step_" ++ toString env.now ++ "_" ++ env.rnd) ∧
      JsObj.get (enhanceStep env session step) "timestamp" = JsVal.isoTime env.now ∧
      JsObj.get (enhanceStep env session step) "sessionId" = session.id ∧
      JsObj.get (enhanceStep env session step) "stepNumber" =
        JsVal.num ((session.steps.length : Int) + 1) := by
  obtain ⟨saved, h1, h2⟩ := saveStep_accepted_steps env step tabId st session htab hsession hactive
  obtain ⟨w1, w2, w3, w4⟩ := get_enhanceStep_written env session step
  refine ⟨saved, h1, h2, by simp [h2], ?_, get_enhanceStep_other env session step,
    get_enhanceStep_other env session step "description" (by decide) (by decide) (by decide)
      (by decide), w1, w2, w3, w4⟩
  intro i hi
  rw [h2, List.getElem?_append_left hi]

theorem accepted_saveStep_appends_and_frames_witness :
    tabIdFalsy (some 7) = false ∧
    sampleRecording.sessions.lookup (some 7) = some sampleSession ∧
    some 7 ∈ sampleRecording.active ∧
    JsObj.get sampleClick "stepNumber" = JsVal.num 77 ∧
    JsObj.get (enhanceStep (sampleEnv 5000) sampleSession sampleClick) "stepNumber" =
      JsVal.num ((sampleSession.steps.length : Int) + 1) :=
  ⟨by decide, by decide, by decide, by decide,
    (accepted_saveStep_appends_and_frames (sampleEnv 5000) sampleClick (some 7) sampleRecording
      sampleSession (by decide) (by decide) (by decide)).elim
      (fun _ h => h.2.2.2.2.2.2.2.2.2)⟩

/-- The invariant of the active set for handlers that run one after the
other: in every state the manager reaches from a fresh start through its
message handlers (`startRecording`, `stopRecording`, `saveStep`,
`updateSessionSettings`, `getSessionData`, `getRecording`, `clearRecording`),
tab updates, tab removal and `cleanupOldData`, each run from its call to its
return before the next event is handled, whatever the store answers, every
tab in the active set has a session in the sessions map and that session has
no `endTime`. -/
theorem active_tab_has_open_session (st : State) (tabId : TabId) (hreach : Reachable st)
    (hactive : tabId ∈ st.active) :
    ∃ session, st.sessions.lookup tabId = some session ∧ session.endTime = none :=
  activeOpen_of_reachable st hreach tabId hactive

theorem active_tab_has_open_session_witness :
    Reachable sampleRecording ∧ some 7 ∈ sampleRecording.active ∧
    ∃ session, sampleRecording.sessions.lookup (some 7) = some session ∧
      session.endTime = none :=
  ⟨Reachable.step _ _ _ (Reachable.step _ _ _ (Reachable.step _ _ _ (Reachable.step _ _ _
      (Reachable.step _ _ _ (Reachable.init emptyStore))))),
    by decide,
    active_tab_has_open_session sampleRecording (some 7)
      (Reachable.step _ _ _ (Reachable.step _ _ _ (Reachable.step _ _ _ (Reachable.step _ _ _
        (Reachable.step _ _ _ (Reachable.init emptyStore)))))) (by decide)⟩

/-- C28, the code at the failing input: a fresh manager over a store that
holds `session_7`, stopped and older than 24 hours, and `recording_7`. The
sweep removes `session_7` and leaves `recording_7` behind. When the same
session is also in memory, the first loop removes both keys. -/
theorem sweep_leaves_recording_flag_behind :
    (initial sampleStopped.store).store.sessions.lookup (some 7) =
      some (stoppedAt 301000 sampleSession) ∧
    (initial sampleStopped.store).store.recording.lookup (some 7) = some false ∧
    (cleanupOldData (sampleEnv 86401001) (initial sampleStopped.store)).store.sessions.lookup
      (some 7) = none ∧
    (cleanupOldData (sampleEnv 86401001) (initial sampleStopped.store)).store.recording.lookup
      (some 7) = some false ∧
    (cleanupOldData (sampleEnv 86401001) sampleStopped).store.sessions.lookup (some 7) = none ∧
    (cleanupOldData (sampleEnv 86401001) sampleStopped).store.recording.lookup (some 7) =
      none := by
  decide

end RecordingManager

namespace RecordingManager

/-! ### Handlers that overlap -/

/-- A `saveStep` call that no other handler overlaps is `saveStepBegin`
followed, when the call was suspended, by `saveStepResume` on the session as
the first part left it. -/
theorem saveStep_eq_begin_resume (env : Env) (step : Option JsObj) (tabId : TabId) (st : State) :
    saveStep env step tabId st =
      if (saveStepBegin env step tabId st).2 then
        saveStepResume env tabId
          (match (saveStepBegin env step tabId st).1.sessions.lookup tabId with
            | some session => session.steps.length
            | none => 0)
          (saveStepBegin env step tabId st).1
      else (saveStepBegin env step tabId st).1 := by
  unfold saveStep saveStepBegin saveStepResume
  by_cases h1 : tabIdFalsy tabId = true
  · simp [h1]
  · cases step with
    | none => simp [h1]
    | some step =>
      cases hs : st.sessions.lookup tabId with
      | none => simp [h1, hs]
      | some session =>
        by_cases ha : tabId ∈ st.active
        · by_cases hok : env.storeOk = true
          · simp [h1, hs, ha, storeSession, hok, AList.lookup_insert]
          · simp [h1, hs, ha, storeSession, hok, AList.lookup_insert]
        · simp [h1, hs, ha]

/-- A `getSessionData` call on a tab without a session in memory that no other
handler overlaps is the read of the store followed by
`getSessionDataAfterRead` in the same state. -/
theorem getSessionData_eq_after_read (env : Env) (tabId : TabId) (st : State)
    (h : st.sessions.lookup tabId = none) :
    getSessionData env tabId st =
      getSessionDataAfterRead tabId (loadStoredSession env tabId st) st := by
  unfold getSessionData getSessionDataAfterRead
  rw [h]

theorem saveStepBegin_accept (env : Env) (step : JsObj) (t : TabId) (st : State) (s : Session)
    (ht : tabIdFalsy t = false) (hs : st.sessions.lookup t = some s) (ha : t ∈ st.active) :
    (saveStepBegin env (some step) t st).2 = true ∧
      (saveStepBegin env (some step) t st).1.sessions.lookup t =
        some { s with steps := s.steps ++ [enhanceStep env s step] } ∧
      t ∈ (saveStepBegin env (some step) t st).1.active := by
  cases hok : env.storeOk <;> simp [saveStepBegin, ht, hs, ha, storeSession, hok]

theorem stopRecording_lookup (env : Env) (t : TabId) (st : State) (s : Session)
    (ht : tabIdFalsy t = false) (hs : st.sessions.lookup t = some s) :
    (stopRecording env t st).sessions.lookup t = some (stoppedAt env.now s) ∧
      t ∉ (stopRecording env t st).active := by
  rw [stopRecording_eq env t st s ht hs]
  cases hok : env.storeOk <;> simp [storeSession, hok]

/-- Two overlapping `saveStep` calls on an actively recording tab whose
session is one step short of the cap: both steps are pushed, and the session
is stopped with two steps more than it had. -/
theorem saveStepOverlapped_at_cap (env1 env2 : Env) (step1 step2 : JsObj) (t : TabId)
    (st : State) (s : Session) (ht : tabIdFalsy t = false)
    (hs : st.sessions.lookup t = some s) (ha : t ∈ st.active)
    (hlen : maxSteps ≤ s.steps.length + 1) :
    ∃ last,
      (saveStepOverlapped env1 env2 (some step1) (some step2) t st).sessions.lookup t =
        some last ∧
      last.steps = s.steps ++
        [enhanceStep env1 s step1,
         enhanceStep env2 { s with steps := s.steps ++ [enhanceStep env1 s step1] } step2] ∧
      last.endTime = some env2.later ∧
      t ∉ (saveStepOverlapped env1 env2 (some step1) (some step2) t st).active := by
  obtain ⟨b1, l1, a1⟩ := saveStepBegin_accept env1 step1 t st s ht hs ha
  obtain ⟨b2, l2, _⟩ := saveStepBegin_accept env2 step2 t _ _ ht l1 a1
  have hheld : maxSteps ≤ s.steps.length + 1 + 1 := Nat.le_succ_of_le hlen
  obtain ⟨l3, _⟩ := stopRecording_lookup { env1 with now := env1.later } t _ _ ht l2
  obtain ⟨l4, a4⟩ := stopRecording_lookup { env2 with now := env2.later } t _ _ ht l3
  have hrun : saveStepOverlapped env1 env2 (some step1) (some step2) t st =
      stopRecording { env2 with now := env2.later } t
        (stopRecording { env1 with now := env1.later } t
          (saveStepBegin env2 (some step2) t (saveStepBegin env1 (some step1) t st).1).1) := by
    unfold saveStepOverlapped
    simp only [b1, b2, l2, if_true, saveStepResume]
    simp only [List.length_append, List.length_singleton, ge_iff_le, hheld, if_true]
  rw [hrun]
  exact ⟨_, l4, by simp [stoppedAt], by simp [stoppedAt], a4⟩

end RecordingManager

namespace RecordingManager

set_option maxRecDepth 1000000 in
/-- C3, the code at the failing input: tab 7 records and its session holds 99
steps. A `saveStep` is handled and, while that call is suspended at the store
write, a second `saveStep` on the tab. The first call has pushed step 100 and
the tab is still in the active set, so the second call passes the guard and
its step is pushed with `stepNumber` 101: the session ends with 101 steps.
Handled one after the other, the second call is turned down and the session
keeps 100 steps. -/
theorem overlapping_saveStep_is_accepted_as_step_101 :
    sampleNinetyNine.sessions.lookup (some 7) = some sampleNinetyNineSession ∧
    sampleNinetyNineSession.steps.length = 99 ∧
    some 7 ∈ (saveStepBegin (sampleEnv 9000) (some sampleClick) (some 7)
      sampleNinetyNine).1.active ∧
    (∃ last,
      (saveStepOverlapped (sampleEnv 9000) (sampleEnv 9001) (some sampleClick)
        (some sampleClick) (some 7) sampleNinetyNine).sessions.lookup (some 7) = some last ∧
      last.steps.length = 101 ∧
      last.steps.getLast?.map (fun step => JsObj.get step "stepNumber") =
        some (JsVal.num 101)) ∧
    (∃ last,
      (saveStep (sampleEnv 9001) (some sampleClick) (some 7)
        (saveStep (sampleEnv 9000) (some sampleClick) (some 7)
          sampleNinetyNine)).sessions.lookup (some 7) = some last ∧
      last.steps.length = 100) := by
  have h1 : tabIdFalsy (some 7) = false := by decide
  have h2 : some 7 ∈ sampleNinetyNine.active := by decide
  have h3 : sampleNinetyNine.sessions.lookup (some 7) = some sampleNinetyNineSession := by
    unfold sampleNinetyNineSession
    rfl
  have h4 : sampleNinetyNineSession.steps.length = 99 := by decide
  have h5 : maxSteps ≤ sampleNinetyNineSession.steps.length + 1 := by
    rw [h4]
    decide
  refine ⟨h3, h4, (saveStepBegin_accept _ sampleClick _ _ _ h1 h3 h2).2.2, ?_, ?_⟩
  · obtain ⟨last, k1, k2, _, _⟩ :=
      saveStepOverlapped_at_cap (sampleEnv 9000) (sampleEnv 9001) sampleClick sampleClick
        (some 7) sampleNinetyNine sampleNinetyNineSession h1 h3 h2 h5
    refine ⟨last, k1, ?_, ?_⟩
    · rw [k2, List.length_append, h4]
      rfl
    · rw [k2]
      simp [List.getLast?_append, stepNumber_enhanceStep, h4]
  · obtain ⟨k1, k2⟩ := saveStep_cap (sampleEnv 9000) sampleClick (some 7) sampleNinetyNine
      sampleNinetyNineSession h1 h3 h2 h5
    rw [saveStep_of_not_active _ _ _ _ k2]
    exact ⟨_, k1, by simp [stoppedAt, h4]⟩

/-- C27, the code at the failing input: a manager freshly started over a store
that holds the stopped session of tab 7 (`endTime` 301000). A `getSessionData`
from tab 7 finds no session in memory and reads the store; while it waits, a
`startRecording` from tab 7 installs a new session and puts the tab in the
active set; then the call resumes and sets the stored session over the new
one. Tab 7 is now in the active set with a session whose `endTime` is set,
the answer reports `isRecording` false, and the next `saveStep` appends to
that ended session. Handled one after the other, in either order, the two
requests leave tab 7 with a session without `endTime`. -/
theorem overlapped_getSessionData_puts_ended_session_on_active_tab :
    sampleRestarted.sessions.lookup (some 7) = none ∧
    sampleRestarted.store.sessions.lookup (some 7) = some (stoppedAt 301000 sampleSession) ∧
    some 7 ∈ (getSessionDataOverlapped (sampleEnv 400000) (sampleEnv 400001) sampleStart
      (some 7) sampleRestarted).1.active ∧
    (getSessionDataOverlapped (sampleEnv 400000) (sampleEnv 400001) sampleStart
      (some 7) sampleRestarted).1.sessions.lookup (some 7) =
        some (stoppedAt 301000 sampleSession) ∧
    (stoppedAt 301000 sampleSession).endTime = some 301000 ∧
    (getSessionDataOverlapped (sampleEnv 400000) (sampleEnv 400001) sampleStart
      (some 7) sampleRestarted).2.map (fun data => data.isRecording) = some false ∧
    ((saveStep (sampleEnv 400002) (some sampleClick) (some 7)
      (getSessionDataOverlapped (sampleEnv 400000) (sampleEnv 400001) sampleStart
        (some 7) sampleRestarted).1).sessions.lookup (some 7)).map
          (fun session => (session.steps.length, session.endTime)) =
        some (5, some 301000) ∧
    ((startRecording (sampleEnv 400001) sampleStart (some 7)
      (getSessionData (sampleEnv 400000) (some 7) sampleRestarted).1).sessions.lookup
        (some 7)).map (fun session => session.endTime) = some none ∧
    ((getSessionData (sampleEnv 400000) (some 7)
      (startRecording (sampleEnv 400001) sampleStart (some 7) sampleRestarted)).1.sessions.lookup
        (some 7)).map (fun session => session.endTime) = some none := by
  decide

end RecordingManager

end BetahubUxRec
